import Mathlib

/-!
Shallow embedding of the `chess-engine` repository (Rust) in Lean 4.

Sources embedded:
  * `src/engine/src/piece_location.rs` — board coordinates and directional steps
  * `src/engine/src/piece_base.rs`     — pieces, the directional scanner
  * `src/engine/src/move_resolver.rs`  — per-piece move generation, castling
  * `src/engine/src/chess_match.rs`    — the match aggregate and move application
  * `src/engine/src/movement_log.rs`   — the movement log

Modelling conventions:
  * `Uuid` values are modelled as `Nat` identifiers (the source only needs
    identity; `generate_pieces` assigns fresh random ids, the embedding assigns
    sequential ones in the same generation order).
  * Rust `u32` integers here are `Nat`: no arithmetic in the embedded code can
    overflow 2^32 (ranks stay in 1..=8, the turn indicator in 0..=1).
  * A Rust `panic!` (a failed `unwrap`/`expect`) is modelled as `Option.none`
    on the paths where the claims need to observe it, and noted in comments
    elsewhere on paths the development only exercises with well-formed data.
  * Timestamps (`chrono::DateTime`) are omitted from the match record: no
    embedded operation reads or writes them.
-/

set_option maxRecDepth 10000

namespace ChessEngine

/-! ## piece_location.rs -/

/-- `FILES` from piece_location.rs. -/
def FILES : List String := ["a", "b", "c", "d", "e", "f", "g", "h"]

/-- `PieceLocation { rank: u32, file: String }`. -/
structure PieceLocation where
  rank : Nat
  file : String
deriving DecidableEq, Repr

/-- `impl Display for PieceLocation`: `write!(f, "{}{}", self.file, self.rank)`. -/
def PieceLocation.render (l : PieceLocation) : String :=
  l.file ++ toString l.rank

/-- `PieceLocation::new(file, rank)` — no validation is performed. -/
def PieceLocation.new (file : String) (rank : Nat) : PieceLocation :=
  { rank := rank, file := file }

/-- Rust `char::to_digit(10)`: the value of a decimal digit, `None` otherwise. -/
def rustToDigit10 (c : Char) : Option Nat :=
  if '0' ≤ c ∧ c ≤ '9' then some (c.toNat - '0'.toNat) else none

/-- Outcome of `PieceLocation::new_from_string`, with the panic of
`r.to_digit(10).unwrap()` (a non-digit second character) made explicit. -/
inductive ParseResult where
  | ok : PieceLocation → ParseResult
  | err : String → ParseResult
  | panicked : ParseResult
deriving DecidableEq, Repr

/-- `PieceLocation::new_from_string`.  The source first rejects inputs whose
char count is not 2, then reads the file character and the rank digit (the
`unwrap` on `to_digit` panics when the second character is not a digit),
then checks `rank < 1 || rank > 8`, then membership of the file in `FILES`. -/
def PieceLocation.new_from_string (location : String) : ParseResult :=
  match location.data with
  | [c1, c2] =>
    let file := String.mk [c1]
    match rustToDigit10 c2 with
    | none => .panicked
    | some rank =>
      if rank < 1 ∨ rank > 8 then .err "Rank out of bounds"
      else if (FILES.findIdx? (fun r => r = file)).isNone then .err "File out of bounds"
      else .ok { rank := rank, file := file }
  | _ => .err "Invalid length"

/-- `PieceLocation::get_next_file` — `FILES.iter().position(..).unwrap()`
panics when the file is not in `FILES`; the embedding is only applied to
locations whose file is one of `FILES`, where `findIdx` agrees with it. -/
def PieceLocation.get_next_file (l : PieceLocation) : Option String :=
  let index := FILES.findIdx (fun r => r = l.file)
  if index + 1 < FILES.length then FILES.get? (index + 1) else none

/-- `PieceLocation::get_previous_file` (same `unwrap` remark). -/
def PieceLocation.get_previous_file (l : PieceLocation) : Option String :=
  let index := FILES.findIdx (fun r => r = l.file)
  if index ≥ 1 then FILES.get? (index - 1) else none

/-- `PieceLocation::move_east`. -/
def PieceLocation.move_east (l : PieceLocation) : Option PieceLocation :=
  match l.get_next_file with
  | some f => some { rank := l.rank, file := f }
  | none => none

/-- `PieceLocation::move_west`. -/
def PieceLocation.move_west (l : PieceLocation) : Option PieceLocation :=
  match l.get_previous_file with
  | some f => some { rank := l.rank, file := f }
  | none => none

/-- `PieceLocation::move_north`. -/
def PieceLocation.move_north (l : PieceLocation) : Option PieceLocation :=
  if l.rank = 8 then none else some { rank := l.rank + 1, file := l.file }

/-- `PieceLocation::move_south`. -/
def PieceLocation.move_south (l : PieceLocation) : Option PieceLocation :=
  if l.rank = 1 then none else some { rank := l.rank - 1, file := l.file }

/-- `PieceLocation::move_north_east`. -/
def PieceLocation.move_north_east (l : PieceLocation) : Option PieceLocation :=
  match l.move_east, l.move_north with
  | some e, some n => some { rank := n.rank, file := e.file }
  | _, _ => none

/-- `PieceLocation::move_south_east`. -/
def PieceLocation.move_south_east (l : PieceLocation) : Option PieceLocation :=
  match l.move_east, l.move_south with
  | some e, some s => some { rank := s.rank, file := e.file }
  | _, _ => none

/-- `PieceLocation::move_north_west`. -/
def PieceLocation.move_north_west (l : PieceLocation) : Option PieceLocation :=
  match l.move_west, l.move_north with
  | some w, some n => some { rank := n.rank, file := w.file }
  | _, _ => none

/-- `PieceLocation::move_south_west`. -/
def PieceLocation.move_south_west (l : PieceLocation) : Option PieceLocation :=
  match l.move_west, l.move_south with
  | some w, some s => some { rank := s.rank, file := w.file }
  | _, _ => none

/-- `PieceLocation::get_x_y` — `(file index, rank - 1)`; the source returns
`f64`, which is exact on these small integers, so the embedding uses `Nat`.
(The `unwrap` on the file position and the `u32` subtraction `rank - 1`
panic respectively on an unknown file and underflow at rank 0; every
location this is applied to has a file in `FILES` and rank ≥ 1.) -/
def PieceLocation.get_x_y (l : PieceLocation) : Nat × Nat :=
  (FILES.findIdx (fun r => r = l.file), l.rank - 1)

/-! ## piece_base.rs — types -/

/-- `LocationState`. -/
inductive LocationState where
  | Empty
  | Capture
  | Blocked
  | OutOfBounds
deriving DecidableEq, Repr

/-- `PieceType`. -/
inductive PieceType where
  | Pawn
  | Rook
  | Knight
  | Bishop
  | Queen
  | King
deriving DecidableEq, Repr

/-- `MoveDirection`. -/
inductive MoveDirection where
  | North
  | East
  | South
  | West
  | NorthEast
  | SouthEast
  | NorthWest
  | SouthWest
deriving DecidableEq, Repr

/-- `PieceColor`. -/
inductive PieceColor where
  | White
  | Black
deriving DecidableEq, Repr

/-- `ChessPiece` (the `Uuid` id is modelled as a `Nat`). -/
structure ChessPiece where
  id : Nat
  piece_type : PieceType
  color : PieceColor
  location : PieceLocation
  captured : Bool
  first_move : Bool
  promoted : Bool
  original_piece_type : Option PieceType
  valid_moves : List PieceLocation
  valid_captures : List PieceLocation
  points : Nat
deriving DecidableEq, Repr

/-- `PeekResult`. -/
structure PeekResult where
  location : Option PieceLocation
  state : LocationState
deriving DecidableEq, Repr

/-- `ChessPiece::new` — the embedding takes the id explicitly where the
source draws a fresh `Uuid`. -/
def ChessPiece.new (id : Nat) (piece_type : PieceType) (color : PieceColor)
    (location : PieceLocation) (points : Nat) : ChessPiece :=
  { id := id
    piece_type := piece_type
    color := color
    location := location
    captured := false
    first_move := true
    promoted := false
    original_piece_type := none
    valid_moves := []
    valid_captures := []
    points := points }

/-- `ChessPiece::set_moved`. -/
def ChessPiece.set_moved (p : ChessPiece) (location : PieceLocation) : ChessPiece :=
  { p with first_move := false, location := location }

/-- `ChessPiece::set_captured`. -/
def ChessPiece.set_captured (p : ChessPiece) : ChessPiece :=
  { p with captured := true }

/-- `ChessPiece::has_any_valid_moves_or_captures`. -/
def ChessPiece.has_any_valid_moves_or_captures (p : ChessPiece) : Bool :=
  !p.valid_moves.isEmpty || !p.valid_captures.isEmpty

/-- `ChessPiece::add_valid_move` — deduplicating insert. -/
def ChessPiece.add_valid_move (p : ChessPiece) (location : PieceLocation) : ChessPiece :=
  if p.valid_moves.contains location then p
  else { p with valid_moves := p.valid_moves ++ [location] }

/-- `ChessPiece::add_valid_capture` — deduplicating insert. -/
def ChessPiece.add_valid_capture (p : ChessPiece) (location : PieceLocation) : ChessPiece :=
  if p.valid_captures.contains location then p
  else { p with valid_captures := p.valid_captures ++ [location] }

/-- `ChessPiece::remove_valid_move` — removes the first occurrence, if any. -/
def ChessPiece.remove_valid_move (p : ChessPiece) (location : PieceLocation) : ChessPiece :=
  if p.valid_moves.contains location then
    { p with valid_moves := p.valid_moves.eraseP (fun m => m = location) }
  else p

/-- `ChessPiece::remove_valid_captures` — removes the first occurrence, if any. -/
def ChessPiece.remove_valid_captures (p : ChessPiece) (location : PieceLocation) : ChessPiece :=
  if p.valid_captures.contains location then
    { p with valid_captures := p.valid_captures.eraseP (fun m => m = location) }
  else p

/-- `ChessPiece::clear_all_moves`. -/
def ChessPiece.clear_all_moves (p : ChessPiece) : ChessPiece :=
  { p with valid_captures := [], valid_moves := [] }

/-! ## chess_match.rs / movement_log.rs — state types -/

/-- `CastleSide`. -/
inductive CastleSide where
  | KingSide
  | QueenSide
deriving DecidableEq, Repr

/-- `KingCastleData`. -/
structure KingCastleData where
  king_id : Nat
  king_target_location : PieceLocation
  rook_id : Nat
  rook_target_location : PieceLocation
  side : CastleSide
deriving DecidableEq, Repr

/-- `KingState`. -/
inductive KingState where
  | InCheck
  | InCheckMate
  | InStaleMate
  | NotInCheck
  | NotInCheckMate
deriving DecidableEq, Repr

/-- `MovementLogEntry` (entry and player ids modelled as `Nat`; the source
field called after chess notation is named `notation_text` here because its
original spelling is a Lean keyword). -/
structure MovementLogEntry where
  id : Nat
  time_span : Nat
  player_id : Nat
  notation_text : String
  piece_id : Nat
  start_location : PieceLocation
  end_location : PieceLocation
  piece_captured : Bool
  captured_piece_id : Option Nat
  opponent_king_in_check : Bool
  opponent_king_in_checkmate : Bool
  castled_king_side : Bool
  castled_queen_side : Bool
deriving DecidableEq, Repr

/-- `MovementLogEntry::new` — the source draws a fresh `Uuid` for the entry
id, which nothing ever reads; the embedding uses 0. -/
def MovementLogEntry.new (player_id piece_id : Nat)
    (start_location end_location : PieceLocation) : MovementLogEntry :=
  { id := 0
    player_id := player_id
    notation_text := ""
    piece_id := piece_id
    start_location := start_location
    end_location := end_location
    piece_captured := false
    captured_piece_id := none
    opponent_king_in_check := false
    opponent_king_in_checkmate := false
    castled_king_side := false
    castled_queen_side := false
    time_span := 0 }

/-- `MovementLogEntry::captured`. -/
def MovementLogEntry.set_captured_entry (e : MovementLogEntry) (captured_piece_id : Nat) :
    MovementLogEntry :=
  { e with captured_piece_id := some captured_piece_id, piece_captured := true }

/-- `MovementLogEntry::opponent_king_in_check`. -/
def MovementLogEntry.set_opponent_king_in_check (e : MovementLogEntry) : MovementLogEntry :=
  { e with opponent_king_in_check := true }

/-- `MovementLogEntry::castled_king_side`. -/
def MovementLogEntry.set_castled_king_side (e : MovementLogEntry) : MovementLogEntry :=
  { e with castled_king_side := true }

/-- `MovementLogEntry::castled_queen_side`. -/
def MovementLogEntry.set_castled_queen_side (e : MovementLogEntry) : MovementLogEntry :=
  { e with castled_queen_side := true }

/-- `ChessMatch` — `started`/`completed` timestamps are omitted (nothing in
the embedded operations reads or writes them); ids are `Nat`. -/
structure ChessMatch where
  id : Nat
  white_player : Nat
  black_player : Nat
  status : Nat
  result : Nat
  winner : Option Nat
  current_turn : Nat
  pieces : List ChessPiece
  white_king_state : KingState
  black_king_state : KingState
  white_king_castle : List KingCastleData
  black_king_castle : List KingCastleData
  movement_log : List MovementLogEntry
deriving DecidableEq, Repr

/-- `ChessMatch::get_current_turn_and_color`. -/
def ChessMatch.get_current_turn_and_color (m : ChessMatch) : Nat × PieceColor :=
  (m.current_turn, if m.current_turn = 0 then PieceColor.White else PieceColor.Black)

/-- `ChessMatch::has_king_castle_data`. -/
def ChessMatch.has_king_castle_data (m : ChessMatch) (color : PieceColor) : Bool :=
  match color with
  | .White => !m.white_king_castle.isEmpty
  | .Black => !m.black_king_castle.isEmpty

/-- `ChessMatch::set_pieces`. -/
def ChessMatch.set_pieces (m : ChessMatch) (pieces : List ChessPiece) : ChessMatch :=
  { m with pieces := pieces }

/-- `ChessMatch::get_pieces_in_play` — every piece whose `captured` flag is unset. -/
def ChessMatch.get_pieces_in_play (m : ChessMatch) : List ChessPiece :=
  m.pieces.filter (fun p => !p.captured)

/-- `ChessMatch::get_player_pieces_in_play`. -/
def ChessMatch.get_player_pieces_in_play (m : ChessMatch) (player : PieceColor) :
    List ChessPiece :=
  m.get_pieces_in_play.filter (fun p => p.color = player)

/-- `ChessMatch::get_player_pieces_by_type`. -/
def ChessMatch.get_player_pieces_by_type (m : ChessMatch) (player : PieceColor)
    (piece_type : PieceType) : List ChessPiece :=
  (m.get_player_pieces_in_play player).filter (fun p => p.piece_type = piece_type)

/-- `ChessMatch::get_piece_at_location` — first non-captured piece at the square. -/
def ChessMatch.get_piece_at_location (m : ChessMatch) (location : PieceLocation) :
    Option ChessPiece :=
  (m.get_pieces_in_play.filter (fun p => p.location = location)).head?

/-- `ChessMatch::get_piece_by_id_copy` — `None` models the `expect` panic on
an unknown id. -/
def ChessMatch.get_piece_by_id_copy (m : ChessMatch) (piece_id : Nat) : Option ChessPiece :=
  m.pieces.find? (fun p => p.id = piece_id)

/-- `ChessMatch::get_pieces_by_type` — unlike `get_pieces_in_play`, this does
not filter out captured pieces. -/
def ChessMatch.get_pieces_by_type (m : ChessMatch) (piece_type : PieceType) :
    List ChessPiece :=
  m.pieces.filter (fun p => p.piece_type = piece_type)

/-- `ChessMatch::get_kings`. -/
def ChessMatch.get_kings (m : ChessMatch) : List ChessPiece :=
  m.get_pieces_in_play.filter (fun p => p.piece_type = PieceType.King)

/-- `ChessMatch::location_is_being_attacked` — NOTE: the source resolves the
attacker color as `if *defending_player == White { &Black } else { defending_player }`,
so for a Black defender it examines Black's own pieces. The embedding
reproduces that literally. -/
def ChessMatch.location_is_being_attacked (m : ChessMatch) (location : PieceLocation)
    (defending_player : PieceColor) : Bool :=
  let pieces := m.get_player_pieces_in_play
    (if defending_player = PieceColor.White then PieceColor.Black else defending_player)
  pieces.any (fun p => p.valid_captures.contains location)

/-- `ChessMatch::locations_are_being_attacked`. -/
def ChessMatch.locations_are_being_attacked (m : ChessMatch) (locations : List PieceLocation)
    (defending_player : PieceColor) : Bool :=
  locations.any (fun loc => m.location_is_being_attacked loc defending_player)

/-- `ChessMatch::change_turn`. -/
def ChessMatch.change_turn (m : ChessMatch) : ChessMatch :=
  if m.current_turn = 0 then { m with current_turn := 1 } else { m with current_turn := 0 }

/-- `ChessMatch::add_log_entry`. -/
def ChessMatch.add_log_entry (m : ChessMatch) (entry : MovementLogEntry) : ChessMatch :=
  { m with movement_log := m.movement_log ++ [entry] }

/-- Apply `f` to the first element satisfying `q`, leaving the rest alone:
the shape of every `iter_mut().find(..)` mutation in chess_match.rs. -/
def listUpdateFirst (q : α → Bool) (f : α → α) : List α → List α
  | [] => []
  | x :: xs => if q x then f x :: xs else x :: listUpdateFirst q f xs

/-- Mutation of the piece with the given id in place (the `iter_mut().find`
pattern of `get_piece_by_id`): apply `f` to the first piece whose id matches,
`none` when no piece matches (the source `unwrap`s there). -/
def ChessMatch.update_piece_by_id (m : ChessMatch) (piece_id : Nat)
    (f : ChessPiece → ChessPiece) : Option ChessMatch :=
  if m.pieces.any (fun p => p.id = piece_id) then
    some { m with pieces := listUpdateFirst (fun p => p.id = piece_id) f m.pieces }
  else none

/-- Mutation through `get_piece_at_location_mut`: the first piece (captured
or not) whose location matches, `none` when no piece matches. -/
def ChessMatch.update_piece_at_location (m : ChessMatch) (location : PieceLocation)
    (f : ChessPiece → ChessPiece) : Option ChessMatch :=
  if m.pieces.any (fun p => p.location = location) then
    some { m with pieces := listUpdateFirst (fun p => p.location = location) f m.pieces }
  else none

/-! ## piece_base.rs — the directional scanner -/

/-- `ChessPiece::peek_location`: classify a square relative to the peeking
piece's color against the non-captured pieces of the match. -/
def ChessPiece.peek_location (self : ChessPiece) (location : PieceLocation)
    (chess_match : ChessMatch) : LocationState :=
  let piece_at_location :=
    chess_match.get_pieces_in_play.filter (fun p => p.location = location)
  match piece_at_location with
  | [] => .Empty
  | piece :: _ => if piece.color = self.color then .Blocked else .Capture

/-- `ChessPiece::peek_direction`: one coordinate step, `OutOfBounds` at the
board edge, otherwise `peek_location` of the neighbour. -/
def ChessPiece.peek_direction (self : ChessPiece) (chess_match : ChessMatch)
    (direction : MoveDirection) (location : Option PieceLocation) : PeekResult :=
  let location := match location with
    | some loc => loc
    | none => self.location
  let direction_location := match direction with
    | .East => location.move_east
    | .North => location.move_north
    | .South => location.move_south
    | .West => location.move_west
    | .NorthEast => location.move_north_east
    | .NorthWest => location.move_north_west
    | .SouthEast => location.move_south_east
    | .SouthWest => location.move_south_west
  match direction_location with
  | none => { location := none, state := .OutOfBounds }
  | some loc => { location := some loc, state := self.peek_location loc chess_match }

/-- `ChessPiece::walk_direction`: repeatedly step in a direction, pushing
`Empty` squares onto `valid_moves` and the one `Capture` square onto
`valid_captures` (note the source `push`es directly, without the dedup of
`add_valid_move`).  The extra `fuel` argument makes the recursion structural;
a walk traverses at most 7 squares, so any fuel ≥ 8 is exact. -/
def ChessPiece.walk_direction (fuel : Nat) (self : ChessPiece) (direction : MoveDirection)
    (location : Option PieceLocation) (chess_match : ChessMatch)
    (num_steps : Option Nat) (current_step : Option Nat) : ChessPiece :=
  match fuel with
  | 0 => self
  | fuel + 1 =>
    let numSteps := num_steps.getD 0
    let currentStep := current_step.getD 1
    match location with
    | none => self
    | some location =>
      if numSteps > 0 ∧ currentStep = numSteps then self
      else
        let currentStep := currentStep + 1
        match self.peek_location location chess_match with
        | .OutOfBounds | .Blocked => self
        | .Capture => { self with valid_captures := self.valid_captures ++ [location] }
        | .Empty =>
          let self := { self with valid_moves := self.valid_moves ++ [location] }
          let peek_result := self.peek_direction chess_match direction (some location)
          self.walk_direction fuel direction peek_result.location chess_match
            (some numSteps) (some currentStep)

/-- `ChessPiece::peek_forward`: one step towards the opposing side, and a
second one on the pawn's first move when the first square is empty. -/
def ChessPiece.peek_forward (self : ChessPiece) (chess_match : ChessMatch) :
    List PeekResult :=
  let direction := match self.color with
    | .White => MoveDirection.North
    | .Black => MoveDirection.South
  let result := self.peek_direction chess_match direction none
  if self.first_move ∧ result.state = LocationState.Empty then
    [result, self.peek_direction chess_match direction result.location]
  else
    [result]

/-! ## move_resolver.rs — raw move generation -/

/-- `PieceValidMove` (private struct of move_resolver.rs). -/
structure PieceValidMove where
  id : Nat
  location : PieceLocation
  piece_type : PieceType
deriving DecidableEq, Repr

/-- Walk fuel: a board walk visits at most 7 further squares, so 12 is ample
and never reached. -/
def walkFuel : Nat := 12

/-- `MoveResolver::calculate_pawn_moves`. -/
def calculate_pawn_moves (piece : ChessPiece) (chess_match : ChessMatch) : ChessPiece :=
  let forward_results := piece.peek_forward chess_match
  let piece := forward_results.foldl
    (fun pc r =>
      if r.state = LocationState.Empty then
        match r.location with
        | some loc => pc.add_valid_move loc
        | none => pc
      else pc)
    piece
  let directions : List MoveDirection := match piece.color with
    | .White => [.NorthEast, .NorthWest]
    | .Black => [.SouthEast, .SouthWest]
  directions.foldl
    (fun pc d =>
      let direction_result := pc.peek_direction chess_match d none
      if direction_result.state = LocationState.Capture then
        match direction_result.location with
        | some loc => pc.add_valid_capture loc
        | none => pc
      else pc)
    piece

/-- The secondary knight directions associated with each cardinal
(`secondary_directions` map in `calculate_knight_moves`). -/
def knightSecondaryDirections : MoveDirection → List MoveDirection
  | .North => [.NorthEast, .NorthWest]
  | .East => [.NorthEast, .SouthEast]
  | .South => [.SouthEast, .SouthWest]
  | .West => [.NorthWest, .SouthWest]
  | _ => []

/-- `MoveResolver::calculate_knight_moves`. -/
def calculate_knight_moves (piece : ChessPiece) (chess_match : ChessMatch) : ChessPiece :=
  [MoveDirection.East, .South, .West, .North].foldl
    (fun pc d =>
      let peek := pc.peek_direction chess_match d none
      if peek.state = LocationState.OutOfBounds then pc
      else
        (knightSecondaryDirections d).foldl
          (fun pc dd =>
            let loc := peek.location.getD pc.location
            let result := pc.peek_direction chess_match dd (some loc)
            if result.state = LocationState.Empty then
              match result.location with
              | some l => pc.add_valid_move l
              | none => pc
            else if result.state = LocationState.Capture then
              match result.location with
              | some l => pc.add_valid_capture l
              | none => pc
            else pc)
          pc)
    piece

/-- Walks in every direction of a list (`calculate_rook_moves`,
`calculate_bishop_moves`, `calculate_queen_moves` share this loop body). -/
def walkDirections (piece : ChessPiece) (chess_match : ChessMatch)
    (directions : List MoveDirection) : ChessPiece :=
  directions.foldl
    (fun pc d =>
      let peek := pc.peek_direction chess_match d none
      pc.walk_direction walkFuel d peek.location chess_match none none)
    piece

/-- `MoveResolver::calculate_rook_moves`. -/
def calculate_rook_moves (piece : ChessPiece) (chess_match : ChessMatch) : ChessPiece :=
  walkDirections piece chess_match [.East, .South, .West, .North]

/-- `MoveResolver::calculate_bishop_moves`. -/
def calculate_bishop_moves (piece : ChessPiece) (chess_match : ChessMatch) : ChessPiece :=
  walkDirections piece chess_match [.NorthEast, .SouthEast, .NorthWest, .SouthWest]

/-- `MoveResolver::calculate_queen_moves`. -/
def calculate_queen_moves (piece : ChessPiece) (chess_match : ChessMatch) : ChessPiece :=
  walkDirections piece chess_match
    [.NorthEast, .SouthEast, .NorthWest, .SouthWest, .East, .South, .West, .North]

/-- `MoveResolver::calculate_king_moves`. -/
def calculate_king_moves (piece : ChessPiece) (chess_match : ChessMatch) : ChessPiece :=
  [MoveDirection.NorthEast, .SouthEast, .NorthWest, .SouthWest, .East, .South, .West,
    .North].foldl
    (fun pc d =>
      let peek := pc.peek_direction chess_match d none
      if peek.state = LocationState.Empty then
        match peek.location with
        | some l => pc.add_valid_move l
        | none => pc
      else if peek.state = LocationState.Capture then
        match peek.location with
        | some l => pc.add_valid_capture l
        | none => pc
      else pc)
    piece

/-- `MoveResolver::add_valid_castle`: push the two king squares onto its
move cache and record a `KingCastleData` on the match for the king's color. -/
def add_valid_castle (piece : ChessPiece) (p_loc p2_loc : PieceLocation)
    (rook : ChessPiece) (color : PieceColor) (chess_match : ChessMatch) :
    ChessPiece × ChessMatch :=
  let piece := piece.add_valid_move p_loc
  let piece := piece.add_valid_move p2_loc
  let rook_location := rook.location.get_x_y
  let kcd : KingCastleData :=
    { king_id := piece.id
      king_target_location := p2_loc
      rook_id := rook.id
      rook_target_location := p_loc
      side := if rook_location.1 = 0 then CastleSide.QueenSide else CastleSide.KingSide }
  match color with
  | .White => (piece, { chess_match with white_king_castle := chess_match.white_king_castle ++ [kcd] })
  | .Black => (piece, { chess_match with black_king_castle := chess_match.black_king_castle ++ [kcd] })

/-- `MoveResolver::calculate_king_can_castle`: for a first-move king, scan
towards each first-move rook of its color; two empty squares and the rook on
the third (king side), or three empty squares and the rook on the fourth
(queen side), plus the `locations_are_being_attacked` test on the two king
squares, produce a castle record.  This is the per-rook loop body of
`calculate_king_can_castle`.  The source `unwrap`s the third and fourth
peek locations, panicking if that scan steps off the board (impossible while
every first-move rook is on its original file); the embedding substitutes the
king's own square there, which then fails the rook-location comparison just
as the off-board square would. -/
def castle_rook_step (acc : ChessPiece × ChessMatch) (rook : ChessPiece) :
    ChessPiece × ChessMatch :=
  let (piece, chess_match) := acc
  if ¬rook.first_move then (piece, chess_match)
  else
          let file := (rook.location.get_x_y).1
          let color := piece.color
          let direction := if file = 0 then MoveDirection.West else MoveDirection.East
          let peek_result := piece.peek_direction chess_match direction (some piece.location)
          if peek_result.state = LocationState.Empty then
            let peek_result2 := piece.peek_direction chess_match direction peek_result.location
            if peek_result2.state = LocationState.Empty then
              let peek_result3 := piece.peek_direction chess_match direction peek_result2.location
              let p3_loc := peek_result3.location.getD piece.location
              if p3_loc = rook.location then
                let p_loc := peek_result.location.getD piece.location
                let p2_loc := peek_result2.location.getD piece.location
                if ¬chess_match.locations_are_being_attacked [p_loc, p2_loc] color then
                  add_valid_castle piece p_loc p2_loc rook color chess_match
                else (piece, chess_match)
              else if peek_result3.state = LocationState.Empty then
                let peek_result4 := piece.peek_direction chess_match direction peek_result3.location
                if peek_result4.location.getD piece.location = rook.location then
                  let p_loc := peek_result.location.getD piece.location
                  let p2_loc := peek_result2.location.getD piece.location
                  if ¬chess_match.locations_are_being_attacked [p_loc, p2_loc] color then
                    add_valid_castle piece p_loc p2_loc rook color chess_match
                  else (piece, chess_match)
                else (piece, chess_match)
              else (piece, chess_match)
            else (piece, chess_match)
          else (piece, chess_match)

/-- `MoveResolver::calculate_king_can_castle`: for a first-move king, run
`castle_rook_step` over every rook of the king's color. -/
def calculate_king_can_castle (piece : ChessPiece) (chess_match : ChessMatch) :
    ChessPiece × ChessMatch :=
  if piece.piece_type ≠ PieceType.King ∨ ¬piece.first_move then (piece, chess_match)
  else
    let rooks := chess_match.get_player_pieces_by_type piece.color PieceType.Rook
    rooks.foldl castle_rook_step (piece, chess_match)

/-- The loop body of `MoveResolver::calculate_valid_moves`: clear the
piece's caches and regenerate them by type, threading the match (whose
castle-record lists the King arm appends to). -/
def resolver_piece_step (acc : List ChessPiece × ChessMatch) (p : ChessPiece) :
    List ChessPiece × ChessMatch :=
  let (done, cm) := acc
  let p := p.clear_all_moves
  match p.piece_type with
  | .Pawn => (done ++ [calculate_pawn_moves p cm], cm)
  | .Rook => (done ++ [calculate_rook_moves p cm], cm)
  | .Knight => (done ++ [calculate_knight_moves p cm], cm)
  | .Bishop => (done ++ [calculate_bishop_moves p cm], cm)
  | .Queen => (done ++ [calculate_queen_moves p cm], cm)
  | .King =>
    let p := calculate_king_moves p cm
    let (p, cm) := calculate_king_can_castle p cm
    (done ++ [p], cm)

/-- `MoveResolver::calculate_valid_moves`: clear and regenerate every
non-captured piece's caches (reading the match as it was at entry to the
cycle, castle records excepted), then replace the match's piece list with
the regenerated in-play pieces.  The commented-out call to
`handle_king_cant_move_into_check` in the King arm is reproduced as absent. -/
def resolver_calculate_valid_moves (chess_match : ChessMatch) : ChessMatch :=
  let out := chess_match.get_pieces_in_play.foldl resolver_piece_step ([], chess_match)
  out.2.set_pieces out.1

/-! ## Simulation (move_resolver.rs) and the king-status classification -/

/-- `ChessMatch::set_white_king_state`. -/
def ChessMatch.set_white_king_state (m : ChessMatch) (state : KingState) : ChessMatch :=
  { m with white_king_state := state }

/-- `ChessMatch::set_black_king_state`. -/
def ChessMatch.set_black_king_state (m : ChessMatch) (state : KingState) : ChessMatch :=
  { m with black_king_state := state }

/-- Dispatch on color, as both call sites in `ChessMatch::calculate_valid_moves` do. -/
def ChessMatch.set_king_state (m : ChessMatch) (color : PieceColor) (state : KingState) :
    ChessMatch :=
  match color with
  | .White => m.set_white_king_state state
  | .Black => m.set_black_king_state state

/-- The stored state of the king of a color. -/
def ChessMatch.king_state_of (m : ChessMatch) (color : PieceColor) : KingState :=
  match color with
  | .White => m.white_king_state
  | .Black => m.black_king_state

/-- The location of the first piece of the given type and color
(`get_piece_by_type_and_color_mut`, which `unwrap`s; `none` models the panic). -/
def ChessMatch.king_location_of (m : ChessMatch) (color : PieceColor) : Option PieceLocation :=
  (m.pieces.find? (fun p => p.piece_type = PieceType.King ∧ p.color = color)).map
    (fun p => p.location)

/-- The raw attack test on a king piece: some non-captured piece's capture
cache contains the king's square (the scan of
`MoveResolver::calculate_king_in_check` applied to one king). -/
def king_attacked_raw (m : ChessMatch) (king : ChessPiece) : Bool :=
  m.pieces.any (fun p => !p.captured && p.valid_captures.contains king.location)

/-- The check test of `MoveResolver::calculate_king_in_check`: some
non-captured piece's capture cache contains the king's square. -/
def king_capturable (m : ChessMatch) (color : PieceColor) : Bool :=
  match m.king_location_of color with
  | none => false
  | some loc => m.pieces.any (fun p => !p.captured && p.valid_captures.contains loc)

/-- `MoveResolver::simulate_move`: relocate the piece on a copy and recompute
raw legality for the copy (no recursive self-check filtering). -/
def simulate_move (m : ChessMatch) (piece : ChessPiece) (location : PieceLocation) :
    ChessMatch :=
  let m := (m.update_piece_by_id piece.id (fun p => p.set_moved location)).getD m
  resolver_calculate_valid_moves m

/-- `MoveResolver::simulate_capture`: relocate the mover, mark the occupant
of the target square captured, recompute raw legality.  (The source `unwrap`s
the occupant; when a stale capture cache names an empty square the embedding
skips the capture mark, the only part that can panic.) -/
def simulate_capture (m : ChessMatch) (piece : ChessPiece) (target_location : PieceLocation) :
    ChessMatch :=
  let m := (m.update_piece_by_id piece.id (fun p => p.set_moved target_location)).getD m
  let m := (m.update_piece_at_location target_location ChessPiece.set_captured).getD m
  resolver_calculate_valid_moves m

/-- A cached candidate move escapes check for `color` when, after
simulating it, the mover-color king is no longer capturable. -/
def escapes_check_move (m : ChessMatch) (p : ChessPiece) (mv : PieceLocation)
    (color : PieceColor) : Bool :=
  !(king_capturable (simulate_move m p mv) color)

/-- A cached candidate capture escapes check for `color`. -/
def escapes_check_capture (m : ChessMatch) (p : ChessPiece) (c : PieceLocation)
    (color : PieceColor) : Bool :=
  !(king_capturable (simulate_capture m p c) color)

/-- `CheckState`: the result shape consumed by `ChessMatch::calculate_valid_moves`
(its fields `king_state`, `new_valid_moves`, `new_valid_captures` are read there). -/
structure CheckState where
  king_state : KingState
  new_valid_moves : List PieceValidMove
  new_valid_captures : List PieceValidMove
deriving DecidableEq, Repr

/-- Modelled from the spec: `MoveResolver::is_king_in_check_or_stale_mate` is
called by `ChessMatch::calculate_valid_moves` but is not present in the
sources.  Following spec §4.4 steps 3 and 5 and the sibling
`handle_king_in_check` (which also simulates candidates only when a king is
in check and otherwise returns early): the king is *attacked* when some
non-captured piece's capture cache holds its square; when attacked, every
cached candidate of the king's color is simulated on a copy and the
surviving candidates are returned, the state being `InCheckMate` when none
of the king's own candidates survives and `InCheck` otherwise; when not
attacked, `InStaleMate` when the king's caches are empty, `NotInCheckMate`
when leaving a prior check, `NotInCheck` otherwise. -/
def is_king_in_check_or_stale_mate (king : ChessPiece) (m : ChessMatch) : CheckState :=
  let attacked := king_attacked_raw m king
  if attacked then
    let color_pieces := m.get_player_pieces_in_play king.color
    let new_valid_moves := color_pieces.foldl
      (fun acc p => acc ++
        ((p.valid_moves.filter (fun mv => escapes_check_move m p mv king.color)).map
          (fun mv => PieceValidMove.mk p.id mv p.piece_type)))
      []
    let new_valid_captures := color_pieces.foldl
      (fun acc p => acc ++
        ((p.valid_captures.filter (fun c => escapes_check_capture m p c king.color)).map
          (fun c => PieceValidMove.mk p.id c p.piece_type)))
      []
    let king_has_escape := new_valid_moves.any (fun v => v.id = king.id)
      || new_valid_captures.any (fun v => v.id = king.id)
    if king_has_escape then
      { king_state := .InCheck
        new_valid_moves := new_valid_moves
        new_valid_captures := new_valid_captures }
    else
      { king_state := .InCheckMate
        new_valid_moves := new_valid_moves
        new_valid_captures := new_valid_captures }
  else
    if king.valid_moves.isEmpty ∧ king.valid_captures.isEmpty then
      { king_state := .InStaleMate, new_valid_moves := [], new_valid_captures := [] }
    else if m.king_state_of king.color = .InCheck then
      { king_state := .NotInCheckMate, new_valid_moves := [], new_valid_captures := [] }
    else
      { king_state := .NotInCheck, new_valid_moves := [], new_valid_captures := [] }

/-- Install one surviving move on its piece (body of the first
`override_valid_moves` loop). -/
def override_install_move (m : ChessMatch) (v : PieceValidMove) : ChessMatch :=
  (m.update_piece_by_id v.id (fun p => p.add_valid_move v.location)).getD m

/-- Install one surviving capture on its piece (body of the second
`override_valid_moves` loop). -/
def override_install_capture (m : ChessMatch) (v : PieceValidMove) : ChessMatch :=
  (m.update_piece_by_id v.id (fun p => p.add_valid_capture v.location)).getD m

/-- Modelled from the spec: `MoveResolver::override_valid_moves` is called by
`ChessMatch::calculate_valid_moves` in the `InCheck` arm but is not present
in the sources.  Following `handle_king_in_check`: clear the caches of every
piece of the in-check color, then install the surviving candidates on their
pieces (the color is the in-check king's, passed explicitly here). -/
def override_valid_moves (m : ChessMatch) (color : PieceColor)
    (new_valid_moves new_valid_captures : List PieceValidMove) : ChessMatch :=
  let cleared := m.pieces.map (fun p => if p.color = color then p.clear_all_moves else p)
  let m := { m with pieces := cleared }
  let m := new_valid_moves.foldl override_install_move m
  new_valid_captures.foldl override_install_capture m

/-- The body of the per-king loop in `ChessMatch::calculate_valid_moves`
(lines 268–293): classify, store the state for the king's color, and in the
`InCheck` arm override the live caches with the surviving candidates. -/
def process_king (m : ChessMatch) (king : ChessPiece) : ChessMatch :=
  let color := king.color
  let check_state := is_king_in_check_or_stale_mate king m
  match check_state.king_state with
  | .InCheck =>
    let m := m.set_king_state color .InCheck
    override_valid_moves m color check_state.new_valid_moves check_state.new_valid_captures
  | s => m.set_king_state color s

/-- `ChessMatch::calculate_valid_moves`: one full resolution cycle — raw
regeneration by the resolver, then the per-king classification loop. -/
def ChessMatch.calculate_valid_moves (m : ChessMatch) : ChessMatch :=
  let m := resolver_calculate_valid_moves m
  m.get_kings.foldl process_king m

/-! ## chess_match.rs — construction -/

/-- The local `get_location` helper of `generate_pieces`
(`FILES.get(file).unwrap()`; the default is never reached for file ≤ 7). -/
def get_location (file : Nat) (rank : Nat) : PieceLocation :=
  PieceLocation.new ((FILES.get? file).getD "") rank

/-- `ChessMatch::generate_pieces`: for White then Black — eight pawns (built
through `new_from_string`), rooks on files 0 and 7, knights on 1 and 6,
bishops on 2 and 5, then the queen (file 3) and king (file 4).  Ids are
assigned sequentially in generation order (the source draws random `Uuid`s). -/
def generate_pieces : List ChessPiece :=
  let gen_color := fun (acc : List ChessPiece × Nat) (color : PieceColor) =>
    let pawn_rank : Nat := match color with | .White => 2 | .Black => 7
    let other_rank : Nat := match color with | .White => 1 | .Black => 8
    let mk := fun (acc : List ChessPiece × Nat) (pt : PieceType) (loc : PieceLocation)
        (pts : Nat) => (acc.1 ++ [ChessPiece.new acc.2 pt color loc pts], acc.2 + 1)
    let acc := FILES.foldl
      (fun acc f =>
        let loc := match PieceLocation.new_from_string (f ++ toString pawn_rank) with
          | .ok l => l
          | _ => PieceLocation.new f pawn_rank
        mk acc .Pawn loc 1)
      acc
    let acc := [0, 7].foldl (fun acc p => mk acc .Rook (get_location p other_rank) 5) acc
    let acc := [1, 6].foldl (fun acc p => mk acc .Knight (get_location p other_rank) 3) acc
    let acc := [2, 5].foldl (fun acc p => mk acc .Bishop (get_location p other_rank) 3) acc
    let acc := mk acc .Queen (get_location 3 other_rank) 9
    mk acc .King (get_location 4 other_rank) 0
  ([PieceColor.White, PieceColor.Black].foldl gen_color ([], 0)).1

/-- `ChessMatch::new`. -/
def ChessMatch.new (white_player black_player : Nat) : ChessMatch :=
  { id := 0
    white_player := white_player
    black_player := black_player
    status := 0
    result := 0
    winner := none
    current_turn := 0
    pieces := generate_pieces
    white_king_state := .NotInCheck
    black_king_state := .NotInCheck
    white_king_castle := []
    black_king_castle := []
    movement_log := [] }

/-! ## chess_match.rs / movement_log.rs — move application -/

/-- `ChessMatch::handle_capture`: mark the occupant of the square captured
and record its id on the entry (`none` models the `unwrap` panic on an
empty square). -/
def handle_capture (m : ChessMatch) (location : PieceLocation)
    (movement_entry : MovementLogEntry) : Option (ChessMatch × MovementLogEntry) :=
  match m.pieces.find? (fun p => p.location = location) with
  | none => none
  | some target =>
    match m.update_piece_at_location location ChessPiece.set_captured with
    | none => none
    | some m => some (m, movement_entry.set_captured_entry target.id)

/-- `ChessMatch::handle_move`. -/
def handle_move (m : ChessMatch) (piece_id : Nat) (location : PieceLocation) :
    Option ChessMatch :=
  m.update_piece_by_id piece_id (fun p => p.set_moved location)

/-- The per-record body of `ChessMatch::handle_king_castle`: when the
record's king target matches the destination, relocate the recorded rook and
flag the entry with the recorded side (`none` models the `unwrap` panic on an
unknown rook id). -/
def castle_record_step (target_location : PieceLocation)
    (acc : Option (ChessMatch × MovementLogEntry)) (kcd : KingCastleData) :
    Option (ChessMatch × MovementLogEntry) :=
  match acc with
  | none => none
  | some (m, entry) =>
    if kcd.king_target_location = target_location then
      match m.update_piece_by_id kcd.rook_id
          (fun p => p.set_moved kcd.rook_target_location) with
      | none => none
      | some m =>
        let entry := match kcd.side with
          | .KingSide => entry.set_castled_king_side
          | .QueenSide => entry.set_castled_queen_side
        some (m, entry)
    else some (m, entry)

/-- `ChessMatch::handle_king_castle`: for every castle record of the mover's
color whose king target matches the destination, relocate the recorded rook
and flag the entry with the recorded side. -/
def handle_king_castle (m : ChessMatch) (piece_id : Nat) (target_location : PieceLocation)
    (movement_entry : MovementLogEntry) : Option (ChessMatch × MovementLogEntry) :=
  match m.get_piece_by_id_copy piece_id with
  | none => none
  | some piece =>
    let records := match piece.color with
      | .White => if m.has_king_castle_data .White then m.white_king_castle else []
      | .Black => if m.has_king_castle_data .Black then m.black_king_castle else []
    records.foldl (castle_record_step target_location) (some (m, movement_entry))

/-- Modelled from the spec: `PieceLocation::get_file` is called by
`MovementLogger::add_entry_to_match` but is not present in the sources; it
is the coordinate's file letter. -/
def PieceLocation.get_file (l : PieceLocation) : String := l.file

/-- `ChessPiece::get_text`. -/
def ChessPiece.get_text (p : ChessPiece) : String :=
  match p.color, p.piece_type with
  | .White, .Pawn => "♙"
  | .White, .Rook => "♖"
  | .White, .Knight => "♘"
  | .White, .Bishop => "♗"
  | .White, .Queen => "♕"
  | .White, .King => "♔"
  | .Black, .Pawn => "♟︎"
  | .Black, .Rook => "♜"
  | .Black, .Knight => "♞"
  | .Black, .Bishop => "♝"
  | .Black, .Queen => "♛"
  | .Black, .King => "♚"

/-- `ChessPiece::get_notation_text`. -/
def ChessPiece.get_notation_text (p : ChessPiece) : String :=
  if p.piece_type = PieceType.Pawn then "" else p.get_text

/-- `MovementLogger::add_entry_to_match`: compute the notation text; castled
and promoted entries are returned early — without being appended to the
match's movement log — while every other entry is appended. -/
def add_entry_to_match (m : ChessMatch) (entry : MovementLogEntry) :
    Option (ChessMatch × MovementLogEntry) :=
  match m.get_piece_by_id_copy entry.piece_id with
  | none => none
  | some piece =>
    let piece_text := piece.get_notation_text
    let captured_text :=
      if entry.piece_captured then
        if piece.piece_type = PieceType.Pawn then entry.start_location.get_file ++ "x"
        else "x"
      else ""
    let end_location_text := entry.end_location.render
    if entry.castled_king_side then
      some (m, { entry with notation_text := "O-O" })
    else if entry.castled_queen_side then
      some (m, { entry with notation_text := "O-O-O" })
    else if piece.promoted then
      some (m, { entry with notation_text := end_location_text ++ "=" ++ piece_text })
    else
      let check_suffix := if entry.opponent_king_in_check then "+" else ""
      let checkmate_suffix := if entry.opponent_king_in_checkmate then "#" else ""
      let result := { entry with notation_text :=
        piece_text ++ captured_text ++ end_location_text ++ check_suffix ++ checkmate_suffix }
      some (m.add_log_entry result, result)

/-- `ChessMatch::move_piece`: look the piece up, test the destination
against its caches, apply capture/move/castle as the flags dictate, flip the
turn, re-run the resolution cycle, and log the movement entry.  Note the
source returns `()`: a destination in neither cache is *not* an error — the
piece is left in place but the turn still flips and the entry is still
logged.  `none` models the panics of the source's `unwrap`/`expect` calls. -/
def ChessMatch.move_piece (m : ChessMatch) (piece_id : Nat) (location : PieceLocation) :
    Option ChessMatch :=
  match m.get_piece_by_id_copy piece_id with
  | none => none
  | some piece =>
    let player_id := if piece.color = PieceColor.White then m.white_player else m.black_player
    let movement_entry := MovementLogEntry.new player_id piece_id piece.location location
    let can_move := piece.valid_moves.contains location
    let can_capture := piece.valid_captures.contains location
    let is_king := piece.piece_type = PieceType.King
    let step1 := if can_capture then handle_capture m location movement_entry
      else some (m, movement_entry)
    match step1 with
    | none => none
    | some (m, movement_entry) =>
      let step2 := if can_move ∨ can_capture then handle_move m piece.id location else some m
      match step2 with
      | none => none
      | some m =>
        let step3 := if is_king then handle_king_castle m piece_id location movement_entry
          else some (m, movement_entry)
        match step3 with
        | none => none
        | some (m, movement_entry) =>
          let m := m.change_turn
          let m := m.calculate_valid_moves
          let movement_entry :=
            if (piece.color = PieceColor.Black ∧ m.white_king_state = KingState.InCheck)
              ∨ (piece.color = PieceColor.White ∧ m.black_king_state = KingState.InCheck)
            then movement_entry.set_opponent_king_in_check
            else movement_entry
          match add_entry_to_match m movement_entry with
          | none => none
          | some (m, _) => some m

/-- Apply a list of `(piece id, destination)` requests through `move_piece`,
propagating any panic. -/
def applyMoves (m : ChessMatch) : List (Nat × PieceLocation) → Option ChessMatch
  | [] => some m
  | r :: rest =>
    match m.move_piece r.1 r.2 with
    | none => none
    | some m' => applyMoves m' rest

/-! ## Derived notions used by the claim statements -/

/-- The king's cached candidate moves that survive one-ply simulation
(spec §4.4 step 3 restricted to the king itself). -/
def king_escaping_moves (king : ChessPiece) (m : ChessMatch) : List PieceLocation :=
  king.valid_moves.filter (fun mv => escapes_check_move m king mv king.color)

/-- The king's cached candidate captures that survive one-ply simulation. -/
def king_escaping_captures (king : ChessPiece) (m : ChessMatch) : List PieceLocation :=
  king.valid_captures.filter (fun c => escapes_check_capture m king c king.color)

/-- A four-piece match state exercising `location_is_being_attacked`: a
White knight on f6 whose capture cache holds g8, and a Black rook on a8
whose capture cache holds d4. -/
def c3Match : ChessMatch :=
  { id := 0
    white_player := 1
    black_player := 2
    status := 0
    result := 0
    winner := none
    current_turn := 0
    pieces :=
      [{ ChessPiece.new 1 PieceType.Knight PieceColor.White (PieceLocation.new "f" 6) 3 with
          first_move := false, valid_captures := [PieceLocation.new "g" 8] },
       ChessPiece.new 2 PieceType.King PieceColor.Black (PieceLocation.new "e" 8) 0,
       ChessPiece.new 3 PieceType.King PieceColor.White (PieceLocation.new "e" 1) 0,
       { ChessPiece.new 4 PieceType.Rook PieceColor.Black (PieceLocation.new "a" 8) 5 with
          valid_captures := [PieceLocation.new "d" 4] }]
    white_king_state := .NotInCheck
    black_king_state := .NotInCheck
    white_king_castle := []
    black_king_castle := []
    movement_log := [] }

/-- The Black king of `c5Match`: on e8, still on its first move, empty caches. -/
def c5King : ChessPiece :=
  ChessPiece.new 1 PieceType.King PieceColor.Black (PieceLocation.new "e" 8) 0

/-- A match state for the castle-eligibility test: Black king e8 and rook h8
both on their first move with f8 and g8 empty, while the White knight on f6
holds g8 in its capture cache (as the raw generation leaves it when a Black
piece had just vacated g8) — so g8 is attacked by White in the sense the
attack test itself uses. -/
def c5Match : ChessMatch :=
  { id := 0
    white_player := 1
    black_player := 2
    status := 0
    result := 0
    winner := none
    current_turn := 1
    pieces :=
      [c5King,
       ChessPiece.new 2 PieceType.Rook PieceColor.Black (PieceLocation.new "h" 8) 5,
       { ChessPiece.new 3 PieceType.Knight PieceColor.White (PieceLocation.new "f" 6) 3 with
          first_move := false, valid_captures := [PieceLocation.new "g" 8] },
       ChessPiece.new 4 PieceType.King PieceColor.White (PieceLocation.new "e" 1) 0]
    white_king_state := .NotInCheck
    black_king_state := .NotInCheck
    white_king_castle := []
    black_king_castle := []
    movement_log := [] }

/-- The White king as the resolver leaves it in the opening position (used
to instantiate the C6 theorem at a concrete input). -/
def initialWhiteKing : ChessPiece :=
  { ChessPiece.new 15 PieceType.King PieceColor.White (PieceLocation.new "e" 1) 0 with
      valid_moves := [], valid_captures := [] }

/-! ## Snapshot states

The states reached by concrete move sequences from a fresh match are written
out literally (they were computed by evaluating the definitions above), and
each single move application from one snapshot to the next is then certified
by `rfl`.  This keeps every kernel evaluation down to one resolution cycle. -/

def mInit : ChessMatch :=
  { id := 0,
    white_player := 100,
    black_player := 200,
    status := 0,
    result := 0,
    winner := none,
    current_turn := 0,
    pieces := [{ id := 0,
                 piece_type := ChessEngine.PieceType.Pawn,
                 color := ChessEngine.PieceColor.White,
                 location := { rank := 2, file := "a" },
                 captured := false,
                 first_move := true,
                 promoted := false,
                 original_piece_type := none,
                 valid_moves := [{ rank := 3, file := "a" }, { rank := 4, file := "a" }],
                 valid_captures := [],
                 points := 1 },
               { id := 1,
                 piece_type := ChessEngine.PieceType.Pawn,
                 color := ChessEngine.PieceColor.White,
                 location := { rank := 2, file := "b" },
                 captured := false,
                 first_move := true,
                 promoted := false,
                 original_piece_type := none,
                 valid_moves := [{ rank := 3, file := "b" }, { rank := 4, file := "b" }],
                 valid_captures := [],
                 points := 1 },
               { id := 2,
                 piece_type := ChessEngine.PieceType.Pawn,
                 color := ChessEngine.PieceColor.White,
                 location := { rank := 2, file := "c" },
                 captured := false,
                 first_move := true,
                 promoted := false,
                 original_piece_type := none,
                 valid_moves := [{ rank := 3, file := "c" }, { rank := 4, file := "c" }],
                 valid_captures := [],
                 points := 1 },
               { id := 3,
                 piece_type := ChessEngine.PieceType.Pawn,
                 color := ChessEngine.PieceColor.White,
                 location := { rank := 2, file := "d" },
                 captured := false,
                 first_move := true,
                 promoted := false,
                 original_piece_type := none,
                 valid_moves := [{ rank := 3, file := "d" }, { rank := 4, file := "d" }],
                 valid_captures := [],
                 points := 1 },
               { id := 4,
                 piece_type := ChessEngine.PieceType.Pawn,
                 color := ChessEngine.PieceColor.White,
                 location := { rank := 2, file := "e" },
                 captured := false,
                 first_move := true,
                 promoted := false,
                 original_piece_type := none,
                 valid_moves := [{ rank := 3, file := "e" }, { rank := 4, file := "e" }],
                 valid_captures := [],
                 points := 1 },
               { id := 5,
                 piece_type := ChessEngine.PieceType.Pawn,
                 color := ChessEngine.PieceColor.White,
                 location := { rank := 2, file := "f" },
                 captured := false,
                 first_move := true,
                 promoted := false,
                 original_piece_type := none,
                 valid_moves := [{ rank := 3, file := "f" }, { rank := 4, file := "f" }],
                 valid_captures := [],
                 points := 1 },
               { id := 6,
                 piece_type := ChessEngine.PieceType.Pawn,
                 color := ChessEngine.PieceColor.White,
                 location := { rank := 2, file := "g" },
                 captured := false,
                 first_move := true,
                 promoted := false,
                 original_piece_type := none,
                 valid_moves := [{ rank := 3, file := "g" }, { rank := 4, file := "g" }],
                 valid_captures := [],
                 points := 1 },
               { id := 7,
                 piece_type := ChessEngine.PieceType.Pawn,
                 color := ChessEngine.PieceColor.White,
                 location := { rank := 2, file := "h" },
                 captured := false,
                 first_move := true,
                 promoted := false,
                 original_piece_type := none,
                 valid_moves := [{ rank := 3, file := "h" }, { rank := 4, file := "h" }],
                 valid_captures := [],
                 points := 1 },
               { id := 8,
                 piece_type := ChessEngine.PieceType.Rook,
                 color := ChessEngine.PieceColor.White,
                 location := { rank := 1, file := "a" },
                 captured := false,
                 first_move := true,
                 promoted := false,
                 original_piece_type := none,
                 valid_moves := [],
                 valid_captures := [],
                 points := 5 },
               { id := 9,
                 piece_type := ChessEngine.PieceType.Rook,
                 color := ChessEngine.PieceColor.White,
                 location := { rank := 1, file := "h" },
                 captured := false,
                 first_move := true,
                 promoted := false,
                 original_piece_type := none,
                 valid_moves := [],
                 valid_captures := [],
                 points := 5 },
               { id := 10,
                 piece_type := ChessEngine.PieceType.Knight,
                 color := ChessEngine.PieceColor.White,
                 location := { rank := 1, file := "b" },
                 captured := false,
                 first_move := true,
                 promoted := false,
                 original_piece_type := none,
                 valid_moves := [{ rank := 3, file := "c" }, { rank := 3, file := "a" }],
                 valid_captures := [],
                 points := 3 },
               { id := 11,
                 piece_type := ChessEngine.PieceType.Knight,
                 color := ChessEngine.PieceColor.White,
                 location := { rank := 1, file := "g" },
                 captured := false,
                 first_move := true,
                 promoted := false,
                 original_piece_type := none,
                 valid_moves := [{ rank := 3, file := "h" }, { rank := 3, file := "f" }],
                 valid_captures := [],
                 points := 3 },
               { id := 12,
                 piece_type := ChessEngine.PieceType.Bishop,
                 color := ChessEngine.PieceColor.White,
                 location := { rank := 1, file := "c" },
                 captured := false,
                 first_move := true,
                 promoted := false,
                 original_piece_type := none,
                 valid_moves := [],
                 valid_captures := [],
                 points := 3 },
               { id := 13,
                 piece_type := ChessEngine.PieceType.Bishop,
                 color := ChessEngine.PieceColor.White,
                 location := { rank := 1, file := "f" },
                 captured := false,
                 first_move := true,
                 promoted := false,
                 original_piece_type := none,
                 valid_moves := [],
                 valid_captures := [],
                 points := 3 },
               { id := 14,
                 piece_type := ChessEngine.PieceType.Queen,
                 color := ChessEngine.PieceColor.White,
                 location := { rank := 1, file := "d" },
                 captured := false,
                 first_move := true,
                 promoted := false,
                 original_piece_type := none,
                 valid_moves := [],
                 valid_captures := [],
                 points := 9 },
               { id := 15,
                 piece_type := ChessEngine.PieceType.King,
                 color := ChessEngine.PieceColor.White,
                 location := { rank := 1, file := "e" },
                 captured := false,
                 first_move := true,
                 promoted := false,
                 original_piece_type := none,
                 valid_moves := [],
                 valid_captures := [],
                 points := 0 },
               { id := 16,
                 piece_type := ChessEngine.PieceType.Pawn,
                 color := ChessEngine.PieceColor.Black,
                 location := { rank := 7, file := "a" },
                 captured := false,
                 first_move := true,
                 promoted := false,
                 original_piece_type := none,
                 valid_moves := [{ rank := 6, file := "a" }, { rank := 5, file := "a" }],
                 valid_captures := [],
                 points := 1 },
               { id := 17,
                 piece_type := ChessEngine.PieceType.Pawn,
                 color := ChessEngine.PieceColor.Black,
                 location := { rank := 7, file := "b" },
                 captured := false,
                 first_move := true,
                 promoted := false,
                 original_piece_type := none,
                 valid_moves := [{ rank := 6, file := "b" }, { rank := 5, file := "b" }],
                 valid_captures := [],
                 points := 1 },
               { id := 18,
                 piece_type := ChessEngine.PieceType.Pawn,
                 color := ChessEngine.PieceColor.Black,
                 location := { rank := 7, file := "c" },
                 captured := false,
                 first_move := true,
                 promoted := false,
                 original_piece_type := none,
                 valid_moves := [{ rank := 6, file := "c" }, { rank := 5, file := "c" }],
                 valid_captures := [],
                 points := 1 },
               { id := 19,
                 piece_type := ChessEngine.PieceType.Pawn,
                 color := ChessEngine.PieceColor.Black,
                 location := { rank := 7, file := "d" },
                 captured := false,
                 first_move := true,
                 promoted := false,
                 original_piece_type := none,
                 valid_moves := [{ rank := 6, file := "d" }, { rank := 5, file := "d" }],
                 valid_captures := [],
                 points := 1 },
               { id := 20,
                 piece_type := ChessEngine.PieceType.Pawn,
                 color := ChessEngine.PieceColor.Black,
                 location := { rank := 7, file := "e" },
                 captured := false,
                 first_move := true,
                 promoted := false,
                 original_piece_type := none,
                 valid_moves := [{ rank := 6, file := "e" }, { rank := 5, file := "e" }],
                 valid_captures := [],
                 points := 1 },
               { id := 21,
                 piece_type := ChessEngine.PieceType.Pawn,
                 color := ChessEngine.PieceColor.Black,
                 location := { rank := 7, file := "f" },
                 captured := false,
                 first_move := true,
                 promoted := false,
                 original_piece_type := none,
                 valid_moves := [{ rank := 6, file := "f" }, { rank := 5, file := "f" }],
                 valid_captures := [],
                 points := 1 },
               { id := 22,
                 piece_type := ChessEngine.PieceType.Pawn,
                 color := ChessEngine.PieceColor.Black,
                 location := { rank := 7, file := "g" },
                 captured := false,
                 first_move := true,
                 promoted := false,
                 original_piece_type := none,
                 valid_moves := [{ rank := 6, file := "g" }, { rank := 5, file := "g" }],
                 valid_captures := [],
                 points := 1 },
               { id := 23,
                 piece_type := ChessEngine.PieceType.Pawn,
                 color := ChessEngine.PieceColor.Black,
                 location := { rank := 7, file := "h" },
                 captured := false,
                 first_move := true,
                 promoted := false,
                 original_piece_type := none,
                 valid_moves := [{ rank := 6, file := "h" }, { rank := 5, file := "h" }],
                 valid_captures := [],
                 points := 1 },
               { id := 24,
                 piece_type := ChessEngine.PieceType.Rook,
                 color := ChessEngine.PieceColor.Black,
                 location := { rank := 8, file := "a" },
                 captured := false,
                 first_move := true,
                 promoted := false,
                 original_piece_type := none,
                 valid_moves := [],
                 valid_captures := [],
                 points := 5 },
               { id := 25,
                 piece_type := ChessEngine.PieceType.Rook,
                 color := ChessEngine.PieceColor.Black,
                 location := { rank := 8, file := "h" },
                 captured := false,
                 first_move := true,
                 promoted := false,
                 original_piece_type := none,
                 valid_moves := [],
                 valid_captures := [],
                 points := 5 },
               { id := 26,
                 piece_type := ChessEngine.PieceType.Knight,
                 color := ChessEngine.PieceColor.Black,
                 location := { rank := 8, file := "b" },
                 captured := false,
                 first_move := true,
                 promoted := false,
                 original_piece_type := none,
                 valid_moves := [{ rank := 6, file := "c" }, { rank := 6, file := "a" }],
                 valid_captures := [],
                 points := 3 },
               { id := 27,
                 piece_type := ChessEngine.PieceType.Knight,
                 color := ChessEngine.PieceColor.Black,
                 location := { rank := 8, file := "g" },
                 captured := false,
                 first_move := true,
                 promoted := false,
                 original_piece_type := none,
                 valid_moves := [{ rank := 6, file := "h" }, { rank := 6, file := "f" }],
                 valid_captures := [],
                 points := 3 },
               { id := 28,
                 piece_type := ChessEngine.PieceType.Bishop,
                 color := ChessEngine.PieceColor.Black,
                 location := { rank := 8, file := "c" },
                 captured := false,
                 first_move := true,
                 promoted := false,
                 original_piece_type := none,
                 valid_moves := [],
                 valid_captures := [],
                 points := 3 },
               { id := 29,
                 piece_type := ChessEngine.PieceType.Bishop,
                 color := ChessEngine.PieceColor.Black,
                 location := { rank := 8, file := "f" },
                 captured := false,
                 first_move := true,
                 promoted := false,
                 original_piece_type := none,
                 valid_moves := [],
                 valid_captures := [],
                 points := 3 },
               { id := 30,
                 piece_type := ChessEngine.PieceType.Queen,
                 color := ChessEngine.PieceColor.Black,
                 location := { rank := 8, file := "d" },
                 captured := false,
                 first_move := true,
                 promoted := false,
                 original_piece_type := none,
                 valid_moves := [],
                 valid_captures := [],
                 points := 9 },
               { id := 31,
                 piece_type := ChessEngine.PieceType.King,
                 color := ChessEngine.PieceColor.Black,
                 location := { rank := 8, file := "e" },
                 captured := false,
                 first_move := true,
                 promoted := false,
                 original_piece_type := none,
                 valid_moves := [],
                 valid_captures := [],
                 points := 0 }],
    white_king_state := ChessEngine.KingState.InStaleMate,
    black_king_state := ChessEngine.KingState.InStaleMate,
    white_king_castle := [],
    black_king_castle := [],
    movement_log := [] }

def mE4 : ChessMatch :=
  { id := 0,
    white_player := 100,
    black_player := 200,
    status := 0,
    result := 0,
    winner := none,
    current_turn := 1,
    pieces := [{ id := 0,
                 piece_type := ChessEngine.PieceType.Pawn,
                 color := ChessEngine.PieceColor.White,
                 location := { rank := 2, file := "a" },
                 captured := false,
                 first_move := true,
                 promoted := false,
                 original_piece_type := none,
                 valid_moves := [{ rank := 3, file := "a" }, { rank := 4, file := "a" }],
                 valid_captures := [],
                 points := 1 },
               { id := 1,
                 piece_type := ChessEngine.PieceType.Pawn,
                 color := ChessEngine.PieceColor.White,
                 location := { rank := 2, file := "b" },
                 captured := false,
                 first_move := true,
                 promoted := false,
                 original_piece_type := none,
                 valid_moves := [{ rank := 3, file := "b" }, { rank := 4, file := "b" }],
                 valid_captures := [],
                 points := 1 },
               { id := 2,
                 piece_type := ChessEngine.PieceType.Pawn,
                 color := ChessEngine.PieceColor.White,
                 location := { rank := 2, file := "c" },
                 captured := false,
                 first_move := true,
                 promoted := false,
                 original_piece_type := none,
                 valid_moves := [{ rank := 3, file := "c" }, { rank := 4, file := "c" }],
                 valid_captures := [],
                 points := 1 },
               { id := 3,
                 piece_type := ChessEngine.PieceType.Pawn,
                 color := ChessEngine.PieceColor.White,
                 location := { rank := 2, file := "d" },
                 captured := false,
                 first_move := true,
                 promoted := false,
                 original_piece_type := none,
                 valid_moves := [{ rank := 3, file := "d" }, { rank := 4, file := "d" }],
                 valid_captures := [],
                 points := 1 },
               { id := 4,
                 piece_type := ChessEngine.PieceType.Pawn,
                 color := ChessEngine.PieceColor.White,
                 location := { rank := 4, file := "e" },
                 captured := false,
                 first_move := false,
                 promoted := false,
                 original_piece_type := none,
                 valid_moves := [{ rank := 5, file := "e" }],
                 valid_captures := [],
                 points := 1 },
               { id := 5,
                 piece_type := ChessEngine.PieceType.Pawn,
                 color := ChessEngine.PieceColor.White,
                 location := { rank := 2, file := "f" },
                 captured := false,
                 first_move := true,
                 promoted := false,
                 original_piece_type := none,
                 valid_moves := [{ rank := 3, file := "f" }, { rank := 4, file := "f" }],
                 valid_captures := [],
                 points := 1 },
               { id := 6,
                 piece_type := ChessEngine.PieceType.Pawn,
                 color := ChessEngine.PieceColor.White,
                 location := { rank := 2, file := "g" },
                 captured := false,
                 first_move := true,
                 promoted := false,
                 original_piece_type := none,
                 valid_moves := [{ rank := 3, file := "g" }, { rank := 4, file := "g" }],
                 valid_captures := [],
                 points := 1 },
               { id := 7,
                 piece_type := ChessEngine.PieceType.Pawn,
                 color := ChessEngine.PieceColor.White,
                 location := { rank := 2, file := "h" },
                 captured := false,
                 first_move := true,
                 promoted := false,
                 original_piece_type := none,
                 valid_moves := [{ rank := 3, file := "h" }, { rank := 4, file := "h" }],
                 valid_captures := [],
                 points := 1 },
               { id := 8,
                 piece_type := ChessEngine.PieceType.Rook,
                 color := ChessEngine.PieceColor.White,
                 location := { rank := 1, file := "a" },
                 captured := false,
                 first_move := true,
                 promoted := false,
                 original_piece_type := none,
                 valid_moves := [],
                 valid_captures := [],
                 points := 5 },
               { id := 9,
                 piece_type := ChessEngine.PieceType.Rook,
                 color := ChessEngine.PieceColor.White,
                 location := { rank := 1, file := "h" },
                 captured := false,
                 first_move := true,
                 promoted := false,
                 original_piece_type := none,
                 valid_moves := [],
                 valid_captures := [],
                 points := 5 },
               { id := 10,
                 piece_type := ChessEngine.PieceType.Knight,
                 color := ChessEngine.PieceColor.White,
                 location := { rank := 1, file := "b" },
                 captured := false,
                 first_move := true,
                 promoted := false,
                 original_piece_type := none,
                 valid_moves := [{ rank := 3, file := "c" }, { rank := 3, file := "a" }],
                 valid_captures := [],
                 points := 3 },
               { id := 11,
                 piece_type := ChessEngine.PieceType.Knight,
                 color := ChessEngine.PieceColor.White,
                 location := { rank := 1, file := "g" },
                 captured := false,
                 first_move := true,
                 promoted := false,
                 original_piece_type := none,
                 valid_moves := [{ rank := 2, file := "e" },
                                 { rank := 3, file := "h" },
                                 { rank := 3, file := "f" }],
                 valid_captures := [],
                 points := 3 },
               { id := 12,
                 piece_type := ChessEngine.PieceType.Bishop,
                 color := ChessEngine.PieceColor.White,
                 location := { rank := 1, file := "c" },
                 captured := false,
                 first_move := true,
                 promoted := false,
                 original_piece_type := none,
                 valid_moves := [],
                 valid_captures := [],
                 points := 3 },
               { id := 13,
                 piece_type := ChessEngine.PieceType.Bishop,
                 color := ChessEngine.PieceColor.White,
                 location := { rank := 1, file := "f" },
                 captured := false,
                 first_move := true,
                 promoted := false,
                 original_piece_type := none,
                 valid_moves := [{ rank := 2, file := "e" },
                                 { rank := 3, file := "d" },
                                 { rank := 4, file := "c" },
                                 { rank := 5, file := "b" },
                                 { rank := 6, file := "a" }],
                 valid_captures := [],
                 points := 3 },
               { id := 14,
                 piece_type := ChessEngine.PieceType.Queen,
                 color := ChessEngine.PieceColor.White,
                 location := { rank := 1, file := "d" },
                 captured := false,
                 first_move := true,
                 promoted := false,
                 original_piece_type := none,
                 valid_moves := [{ rank := 2, file := "e" },
                                 { rank := 3, file := "f" },
                                 { rank := 4, file := "g" },
                                 { rank := 5, file := "h" }],
                 valid_captures := [],
                 points := 9 },
               { id := 15,
                 piece_type := ChessEngine.PieceType.King,
                 color := ChessEngine.PieceColor.White,
                 location := { rank := 1, file := "e" },
                 captured := false,
                 first_move := true,
                 promoted := false,
                 original_piece_type := none,
                 valid_moves := [{ rank := 2, file := "e" }],
                 valid_captures := [],
                 points := 0 },
               { id := 16,
                 piece_type := ChessEngine.PieceType.Pawn,
                 color := ChessEngine.PieceColor.Black,
                 location := { rank := 7, file := "a" },
                 captured := false,
                 first_move := true,
                 promoted := false,
                 original_piece_type := none,
                 valid_moves := [{ rank := 6, file := "a" }, { rank := 5, file := "a" }],
                 valid_captures := [],
                 points := 1 },
               { id := 17,
                 piece_type := ChessEngine.PieceType.Pawn,
                 color := ChessEngine.PieceColor.Black,
                 location := { rank := 7, file := "b" },
                 captured := false,
                 first_move := true,
                 promoted := false,
                 original_piece_type := none,
                 valid_moves := [{ rank := 6, file := "b" }, { rank := 5, file := "b" }],
                 valid_captures := [],
                 points := 1 },
               { id := 18,
                 piece_type := ChessEngine.PieceType.Pawn,
                 color := ChessEngine.PieceColor.Black,
                 location := { rank := 7, file := "c" },
                 captured := false,
                 first_move := true,
                 promoted := false,
                 original_piece_type := none,
                 valid_moves := [{ rank := 6, file := "c" }, { rank := 5, file := "c" }],
                 valid_captures := [],
                 points := 1 },
               { id := 19,
                 piece_type := ChessEngine.PieceType.Pawn,
                 color := ChessEngine.PieceColor.Black,
                 location := { rank := 7, file := "d" },
                 captured := false,
                 first_move := true,
                 promoted := false,
                 original_piece_type := none,
                 valid_moves := [{ rank := 6, file := "d" }, { rank := 5, file := "d" }],
                 valid_captures := [],
                 points := 1 },
               { id := 20,
                 piece_type := ChessEngine.PieceType.Pawn,
                 color := ChessEngine.PieceColor.Black,
                 location := { rank := 7, file := "e" },
                 captured := false,
                 first_move := true,
                 promoted := false,
                 original_piece_type := none,
                 valid_moves := [{ rank := 6, file := "e" }, { rank := 5, file := "e" }],
                 valid_captures := [],
                 points := 1 },
               { id := 21,
                 piece_type := ChessEngine.PieceType.Pawn,
                 color := ChessEngine.PieceColor.Black,
                 location := { rank := 7, file := "f" },
                 captured := false,
                 first_move := true,
                 promoted := false,
                 original_piece_type := none,
                 valid_moves := [{ rank := 6, file := "f" }, { rank := 5, file := "f" }],
                 valid_captures := [],
                 points := 1 },
               { id := 22,
                 piece_type := ChessEngine.PieceType.Pawn,
                 color := ChessEngine.PieceColor.Black,
                 location := { rank := 7, file := "g" },
                 captured := false,
                 first_move := true,
                 promoted := false,
                 original_piece_type := none,
                 valid_moves := [{ rank := 6, file := "g" }, { rank := 5, file := "g" }],
                 valid_captures := [],
                 points := 1 },
               { id := 23,
                 piece_type := ChessEngine.PieceType.Pawn,
                 color := ChessEngine.PieceColor.Black,
                 location := { rank := 7, file := "h" },
                 captured := false,
                 first_move := true,
                 promoted := false,
                 original_piece_type := none,
                 valid_moves := [{ rank := 6, file := "h" }, { rank := 5, file := "h" }],
                 valid_captures := [],
                 points := 1 },
               { id := 24,
                 piece_type := ChessEngine.PieceType.Rook,
                 color := ChessEngine.PieceColor.Black,
                 location := { rank := 8, file := "a" },
                 captured := false,
                 first_move := true,
                 promoted := false,
                 original_piece_type := none,
                 valid_moves := [],
                 valid_captures := [],
                 points := 5 },
               { id := 25,
                 piece_type := ChessEngine.PieceType.Rook,
                 color := ChessEngine.PieceColor.Black,
                 location := { rank := 8, file := "h" },
                 captured := false,
                 first_move := true,
                 promoted := false,
                 original_piece_type := none,
                 valid_moves := [],
                 valid_captures := [],
                 points := 5 },
               { id := 26,
                 piece_type := ChessEngine.PieceType.Knight,
                 color := ChessEngine.PieceColor.Black,
                 location := { rank := 8, file := "b" },
                 captured := false,
                 first_move := true,
                 promoted := false,
                 original_piece_type := none,
                 valid_moves := [{ rank := 6, file := "c" }, { rank := 6, file := "a" }],
                 valid_captures := [],
                 points := 3 },
               { id := 27,
                 piece_type := ChessEngine.PieceType.Knight,
                 color := ChessEngine.PieceColor.Black,
                 location := { rank := 8, file := "g" },
                 captured := false,
                 first_move := true,
                 promoted := false,
                 original_piece_type := none,
                 valid_moves := [{ rank := 6, file := "h" }, { rank := 6, file := "f" }],
                 valid_captures := [],
                 points := 3 },
               { id := 28,
                 piece_type := ChessEngine.PieceType.Bishop,
                 color := ChessEngine.PieceColor.Black,
                 location := { rank := 8, file := "c" },
                 captured := false,
                 first_move := true,
                 promoted := false,
                 original_piece_type := none,
                 valid_moves := [],
                 valid_captures := [],
                 points := 3 },
               { id := 29,
                 piece_type := ChessEngine.PieceType.Bishop,
                 color := ChessEngine.PieceColor.Black,
                 location := { rank := 8, file := "f" },
                 captured := false,
                 first_move := true,
                 promoted := false,
                 original_piece_type := none,
                 valid_moves := [],
                 valid_captures := [],
                 points := 3 },
               { id := 30,
                 piece_type := ChessEngine.PieceType.Queen,
                 color := ChessEngine.PieceColor.Black,
                 location := { rank := 8, file := "d" },
                 captured := false,
                 first_move := true,
                 promoted := false,
                 original_piece_type := none,
                 valid_moves := [],
                 valid_captures := [],
                 points := 9 },
               { id := 31,
                 piece_type := ChessEngine.PieceType.King,
                 color := ChessEngine.PieceColor.Black,
                 location := { rank := 8, file := "e" },
                 captured := false,
                 first_move := true,
                 promoted := false,
                 original_piece_type := none,
                 valid_moves := [],
                 valid_captures := [],
                 points := 0 }],
    white_king_state := ChessEngine.KingState.NotInCheck,
    black_king_state := ChessEngine.KingState.InStaleMate,
    white_king_castle := [],
    black_king_castle := [],
    movement_log := [{ id := 0,
                       time_span := 0,
                       player_id := 100,
                       notation_text := "e4",
                       piece_id := 4,
                       start_location := { rank := 2, file := "e" },
                       end_location := { rank := 4, file := "e" },
                       piece_captured := false,
                       captured_piece_id := none,
                       opponent_king_in_check := false,
                       opponent_king_in_checkmate := false,
                       castled_king_side := false,
                       castled_queen_side := false }] }

def mC1b : ChessMatch :=
  { id := 0,
    white_player := 100,
    black_player := 200,
    status := 0,
    result := 0,
    winner := none,
    current_turn := 0,
    pieces := [{ id := 0,
                 piece_type := ChessEngine.PieceType.Pawn,
                 color := ChessEngine.PieceColor.White,
                 location := { rank := 2, file := "a" },
                 captured := false,
                 first_move := true,
                 promoted := false,
                 original_piece_type := none,
                 valid_moves := [{ rank := 3, file := "a" }, { rank := 4, file := "a" }],
                 valid_captures := [],
                 points := 1 },
               { id := 1,
                 piece_type := ChessEngine.PieceType.Pawn,
                 color := ChessEngine.PieceColor.White,
                 location := { rank := 2, file := "b" },
                 captured := false,
                 first_move := true,
                 promoted := false,
                 original_piece_type := none,
                 valid_moves := [{ rank := 3, file := "b" }, { rank := 4, file := "b" }],
                 valid_captures := [],
                 points := 1 },
               { id := 2,
                 piece_type := ChessEngine.PieceType.Pawn,
                 color := ChessEngine.PieceColor.White,
                 location := { rank := 2, file := "c" },
                 captured := false,
                 first_move := true,
                 promoted := false,
                 original_piece_type := none,
                 valid_moves := [{ rank := 3, file := "c" }, { rank := 4, file := "c" }],
                 valid_captures := [],
                 points := 1 },
               { id := 3,
                 piece_type := ChessEngine.PieceType.Pawn,
                 color := ChessEngine.PieceColor.White,
                 location := { rank := 2, file := "d" },
                 captured := false,
                 first_move := true,
                 promoted := false,
                 original_piece_type := none,
                 valid_moves := [{ rank := 3, file := "d" }, { rank := 4, file := "d" }],
                 valid_captures := [],
                 points := 1 },
               { id := 4,
                 piece_type := ChessEngine.PieceType.Pawn,
                 color := ChessEngine.PieceColor.White,
                 location := { rank := 4, file := "e" },
                 captured := false,
                 first_move := false,
                 promoted := false,
                 original_piece_type := none,
                 valid_moves := [],
                 valid_captures := [],
                 points := 1 },
               { id := 5,
                 piece_type := ChessEngine.PieceType.Pawn,
                 color := ChessEngine.PieceColor.White,
                 location := { rank := 2, file := "f" },
                 captured := false,
                 first_move := true,
                 promoted := false,
                 original_piece_type := none,
                 valid_moves := [{ rank := 3, file := "f" }, { rank := 4, file := "f" }],
                 valid_captures := [],
                 points := 1 },
               { id := 6,
                 piece_type := ChessEngine.PieceType.Pawn,
                 color := ChessEngine.PieceColor.White,
                 location := { rank := 2, file := "g" },
                 captured := false,
                 first_move := true,
                 promoted := false,
                 original_piece_type := none,
                 valid_moves := [{ rank := 3, file := "g" }, { rank := 4, file := "g" }],
                 valid_captures := [],
                 points := 1 },
               { id := 7,
                 piece_type := ChessEngine.PieceType.Pawn,
                 color := ChessEngine.PieceColor.White,
                 location := { rank := 2, file := "h" },
                 captured := false,
                 first_move := true,
                 promoted := false,
                 original_piece_type := none,
                 valid_moves := [{ rank := 3, file := "h" }, { rank := 4, file := "h" }],
                 valid_captures := [],
                 points := 1 },
               { id := 8,
                 piece_type := ChessEngine.PieceType.Rook,
                 color := ChessEngine.PieceColor.White,
                 location := { rank := 1, file := "a" },
                 captured := false,
                 first_move := true,
                 promoted := false,
                 original_piece_type := none,
                 valid_moves := [],
                 valid_captures := [],
                 points := 5 },
               { id := 9,
                 piece_type := ChessEngine.PieceType.Rook,
                 color := ChessEngine.PieceColor.White,
                 location := { rank := 1, file := "h" },
                 captured := false,
                 first_move := true,
                 promoted := false,
                 original_piece_type := none,
                 valid_moves := [],
                 valid_captures := [],
                 points := 5 },
               { id := 10,
                 piece_type := ChessEngine.PieceType.Knight,
                 color := ChessEngine.PieceColor.White,
                 location := { rank := 1, file := "b" },
                 captured := false,
                 first_move := true,
                 promoted := false,
                 original_piece_type := none,
                 valid_moves := [{ rank := 3, file := "c" }, { rank := 3, file := "a" }],
                 valid_captures := [],
                 points := 3 },
               { id := 11,
                 piece_type := ChessEngine.PieceType.Knight,
                 color := ChessEngine.PieceColor.White,
                 location := { rank := 1, file := "g" },
                 captured := false,
                 first_move := true,
                 promoted := false,
                 original_piece_type := none,
                 valid_moves := [{ rank := 2, file := "e" },
                                 { rank := 3, file := "h" },
                                 { rank := 3, file := "f" }],
                 valid_captures := [],
                 points := 3 },
               { id := 12,
                 piece_type := ChessEngine.PieceType.Bishop,
                 color := ChessEngine.PieceColor.White,
                 location := { rank := 1, file := "c" },
                 captured := false,
                 first_move := true,
                 promoted := false,
                 original_piece_type := none,
                 valid_moves := [],
                 valid_captures := [],
                 points := 3 },
               { id := 13,
                 piece_type := ChessEngine.PieceType.Bishop,
                 color := ChessEngine.PieceColor.White,
                 location := { rank := 1, file := "f" },
                 captured := false,
                 first_move := true,
                 promoted := false,
                 original_piece_type := none,
                 valid_moves := [{ rank := 2, file := "e" },
                                 { rank := 3, file := "d" },
                                 { rank := 4, file := "c" },
                                 { rank := 5, file := "b" },
                                 { rank := 6, file := "a" }],
                 valid_captures := [],
                 points := 3 },
               { id := 14,
                 piece_type := ChessEngine.PieceType.Queen,
                 color := ChessEngine.PieceColor.White,
                 location := { rank := 1, file := "d" },
                 captured := false,
                 first_move := true,
                 promoted := false,
                 original_piece_type := none,
                 valid_moves := [{ rank := 2, file := "e" },
                                 { rank := 3, file := "f" },
                                 { rank := 4, file := "g" },
                                 { rank := 5, file := "h" }],
                 valid_captures := [],
                 points := 9 },
               { id := 15,
                 piece_type := ChessEngine.PieceType.King,
                 color := ChessEngine.PieceColor.White,
                 location := { rank := 1, file := "e" },
                 captured := false,
                 first_move := true,
                 promoted := false,
                 original_piece_type := none,
                 valid_moves := [{ rank := 2, file := "e" }],
                 valid_captures := [],
                 points := 0 },
               { id := 16,
                 piece_type := ChessEngine.PieceType.Pawn,
                 color := ChessEngine.PieceColor.Black,
                 location := { rank := 7, file := "a" },
                 captured := false,
                 first_move := true,
                 promoted := false,
                 original_piece_type := none,
                 valid_moves := [{ rank := 6, file := "a" }, { rank := 5, file := "a" }],
                 valid_captures := [],
                 points := 1 },
               { id := 17,
                 piece_type := ChessEngine.PieceType.Pawn,
                 color := ChessEngine.PieceColor.Black,
                 location := { rank := 7, file := "b" },
                 captured := false,
                 first_move := true,
                 promoted := false,
                 original_piece_type := none,
                 valid_moves := [{ rank := 6, file := "b" }, { rank := 5, file := "b" }],
                 valid_captures := [],
                 points := 1 },
               { id := 18,
                 piece_type := ChessEngine.PieceType.Pawn,
                 color := ChessEngine.PieceColor.Black,
                 location := { rank := 7, file := "c" },
                 captured := false,
                 first_move := true,
                 promoted := false,
                 original_piece_type := none,
                 valid_moves := [{ rank := 6, file := "c" }, { rank := 5, file := "c" }],
                 valid_captures := [],
                 points := 1 },
               { id := 19,
                 piece_type := ChessEngine.PieceType.Pawn,
                 color := ChessEngine.PieceColor.Black,
                 location := { rank := 7, file := "d" },
                 captured := false,
                 first_move := true,
                 promoted := false,
                 original_piece_type := none,
                 valid_moves := [{ rank := 6, file := "d" }, { rank := 5, file := "d" }],
                 valid_captures := [],
                 points := 1 },
               { id := 20,
                 piece_type := ChessEngine.PieceType.Pawn,
                 color := ChessEngine.PieceColor.Black,
                 location := { rank := 5, file := "e" },
                 captured := false,
                 first_move := false,
                 promoted := false,
                 original_piece_type := none,
                 valid_moves := [],
                 valid_captures := [],
                 points := 1 },
               { id := 21,
                 piece_type := ChessEngine.PieceType.Pawn,
                 color := ChessEngine.PieceColor.Black,
                 location := { rank := 7, file := "f" },
                 captured := false,
                 first_move := true,
                 promoted := false,
                 original_piece_type := none,
                 valid_moves := [{ rank := 6, file := "f" }, { rank := 5, file := "f" }],
                 valid_captures := [],
                 points := 1 },
               { id := 22,
                 piece_type := ChessEngine.PieceType.Pawn,
                 color := ChessEngine.PieceColor.Black,
                 location := { rank := 7, file := "g" },
                 captured := false,
                 first_move := true,
                 promoted := false,
                 original_piece_type := none,
                 valid_moves := [{ rank := 6, file := "g" }, { rank := 5, file := "g" }],
                 valid_captures := [],
                 points := 1 },
               { id := 23,
                 piece_type := ChessEngine.PieceType.Pawn,
                 color := ChessEngine.PieceColor.Black,
                 location := { rank := 7, file := "h" },
                 captured := false,
                 first_move := true,
                 promoted := false,
                 original_piece_type := none,
                 valid_moves := [{ rank := 6, file := "h" }, { rank := 5, file := "h" }],
                 valid_captures := [],
                 points := 1 },
               { id := 24,
                 piece_type := ChessEngine.PieceType.Rook,
                 color := ChessEngine.PieceColor.Black,
                 location := { rank := 8, file := "a" },
                 captured := false,
                 first_move := true,
                 promoted := false,
                 original_piece_type := none,
                 valid_moves := [],
                 valid_captures := [],
                 points := 5 },
               { id := 25,
                 piece_type := ChessEngine.PieceType.Rook,
                 color := ChessEngine.PieceColor.Black,
                 location := { rank := 8, file := "h" },
                 captured := false,
                 first_move := true,
                 promoted := false,
                 original_piece_type := none,
                 valid_moves := [],
                 valid_captures := [],
                 points := 5 },
               { id := 26,
                 piece_type := ChessEngine.PieceType.Knight,
                 color := ChessEngine.PieceColor.Black,
                 location := { rank := 8, file := "b" },
                 captured := false,
                 first_move := true,
                 promoted := false,
                 original_piece_type := none,
                 valid_moves := [{ rank := 6, file := "c" }, { rank := 6, file := "a" }],
                 valid_captures := [],
                 points := 3 },
               { id := 27,
                 piece_type := ChessEngine.PieceType.Knight,
                 color := ChessEngine.PieceColor.Black,
                 location := { rank := 8, file := "g" },
                 captured := false,
                 first_move := true,
                 promoted := false,
                 original_piece_type := none,
                 valid_moves := [{ rank := 6, file := "h" },
                                 { rank := 6, file := "f" },
                                 { rank := 7, file := "e" }],
                 valid_captures := [],
                 points := 3 },
               { id := 28,
                 piece_type := ChessEngine.PieceType.Bishop,
                 color := ChessEngine.PieceColor.Black,
                 location := { rank := 8, file := "c" },
                 captured := false,
                 first_move := true,
                 promoted := false,
                 original_piece_type := none,
                 valid_moves := [],
                 valid_captures := [],
                 points := 3 },
               { id := 29,
                 piece_type := ChessEngine.PieceType.Bishop,
                 color := ChessEngine.PieceColor.Black,
                 location := { rank := 8, file := "f" },
                 captured := false,
                 first_move := true,
                 promoted := false,
                 original_piece_type := none,
                 valid_moves := [{ rank := 7, file := "e" },
                                 { rank := 6, file := "d" },
                                 { rank := 5, file := "c" },
                                 { rank := 4, file := "b" },
                                 { rank := 3, file := "a" }],
                 valid_captures := [],
                 points := 3 },
               { id := 30,
                 piece_type := ChessEngine.PieceType.Queen,
                 color := ChessEngine.PieceColor.Black,
                 location := { rank := 8, file := "d" },
                 captured := false,
                 first_move := true,
                 promoted := false,
                 original_piece_type := none,
                 valid_moves := [{ rank := 7, file := "e" },
                                 { rank := 6, file := "f" },
                                 { rank := 5, file := "g" },
                                 { rank := 4, file := "h" }],
                 valid_captures := [],
                 points := 9 },
               { id := 31,
                 piece_type := ChessEngine.PieceType.King,
                 color := ChessEngine.PieceColor.Black,
                 location := { rank := 8, file := "e" },
                 captured := false,
                 first_move := true,
                 promoted := false,
                 original_piece_type := none,
                 valid_moves := [{ rank := 7, file := "e" }],
                 valid_captures := [],
                 points := 0 }],
    white_king_state := ChessEngine.KingState.NotInCheck,
    black_king_state := ChessEngine.KingState.NotInCheck,
    white_king_castle := [],
    black_king_castle := [],
    movement_log := [{ id := 0,
                       time_span := 0,
                       player_id := 100,
                       notation_text := "e4",
                       piece_id := 4,
                       start_location := { rank := 2, file := "e" },
                       end_location := { rank := 4, file := "e" },
                       piece_captured := false,
                       captured_piece_id := none,
                       opponent_king_in_check := false,
                       opponent_king_in_checkmate := false,
                       castled_king_side := false,
                       castled_queen_side := false },
                     { id := 0,
                       time_span := 0,
                       player_id := 200,
                       notation_text := "e5",
                       piece_id := 20,
                       start_location := { rank := 7, file := "e" },
                       end_location := { rank := 5, file := "e" },
                       piece_captured := false,
                       captured_piece_id := none,
                       opponent_king_in_check := false,
                       opponent_king_in_checkmate := false,
                       castled_king_side := false,
                       castled_queen_side := false }] }

def mC1c : ChessMatch :=
  { id := 0,
    white_player := 100,
    black_player := 200,
    status := 0,
    result := 0,
    winner := none,
    current_turn := 1,
    pieces := [{ id := 0,
                 piece_type := ChessEngine.PieceType.Pawn,
                 color := ChessEngine.PieceColor.White,
                 location := { rank := 2, file := "a" },
                 captured := false,
                 first_move := true,
                 promoted := false,
                 original_piece_type := none,
                 valid_moves := [{ rank := 3, file := "a" }, { rank := 4, file := "a" }],
                 valid_captures := [],
                 points := 1 },
               { id := 1,
                 piece_type := ChessEngine.PieceType.Pawn,
                 color := ChessEngine.PieceColor.White,
                 location := { rank := 2, file := "b" },
                 captured := false,
                 first_move := true,
                 promoted := false,
                 original_piece_type := none,
                 valid_moves := [{ rank := 3, file := "b" }, { rank := 4, file := "b" }],
                 valid_captures := [],
                 points := 1 },
               { id := 2,
                 piece_type := ChessEngine.PieceType.Pawn,
                 color := ChessEngine.PieceColor.White,
                 location := { rank := 2, file := "c" },
                 captured := false,
                 first_move := true,
                 promoted := false,
                 original_piece_type := none,
                 valid_moves := [{ rank := 3, file := "c" }, { rank := 4, file := "c" }],
                 valid_captures := [],
                 points := 1 },
               { id := 3,
                 piece_type := ChessEngine.PieceType.Pawn,
                 color := ChessEngine.PieceColor.White,
                 location := { rank := 2, file := "d" },
                 captured := false,
                 first_move := true,
                 promoted := false,
                 original_piece_type := none,
                 valid_moves := [{ rank := 3, file := "d" }, { rank := 4, file := "d" }],
                 valid_captures := [],
                 points := 1 },
               { id := 4,
                 piece_type := ChessEngine.PieceType.Pawn,
                 color := ChessEngine.PieceColor.White,
                 location := { rank := 4, file := "e" },
                 captured := false,
                 first_move := false,
                 promoted := false,
                 original_piece_type := none,
                 valid_moves := [],
                 valid_captures := [],
                 points := 1 },
               { id := 5,
                 piece_type := ChessEngine.PieceType.Pawn,
                 color := ChessEngine.PieceColor.White,
                 location := { rank := 2, file := "f" },
                 captured := false,
                 first_move := true,
                 promoted := false,
                 original_piece_type := none,
                 valid_moves := [{ rank := 3, file := "f" }, { rank := 4, file := "f" }],
                 valid_captures := [],
                 points := 1 },
               { id := 6,
                 piece_type := ChessEngine.PieceType.Pawn,
                 color := ChessEngine.PieceColor.White,
                 location := { rank := 2, file := "g" },
                 captured := false,
                 first_move := true,
                 promoted := false,
                 original_piece_type := none,
                 valid_moves := [{ rank := 3, file := "g" }, { rank := 4, file := "g" }],
                 valid_captures := [],
                 points := 1 },
               { id := 7,
                 piece_type := ChessEngine.PieceType.Pawn,
                 color := ChessEngine.PieceColor.White,
                 location := { rank := 2, file := "h" },
                 captured := false,
                 first_move := true,
                 promoted := false,
                 original_piece_type := none,
                 valid_moves := [{ rank := 3, file := "h" }, { rank := 4, file := "h" }],
                 valid_captures := [],
                 points := 1 },
               { id := 8,
                 piece_type := ChessEngine.PieceType.Rook,
                 color := ChessEngine.PieceColor.White,
                 location := { rank := 1, file := "a" },
                 captured := false,
                 first_move := true,
                 promoted := false,
                 original_piece_type := none,
                 valid_moves := [],
                 valid_captures := [],
                 points := 5 },
               { id := 9,
                 piece_type := ChessEngine.PieceType.Rook,
                 color := ChessEngine.PieceColor.White,
                 location := { rank := 1, file := "h" },
                 captured := false,
                 first_move := true,
                 promoted := false,
                 original_piece_type := none,
                 valid_moves := [],
                 valid_captures := [],
                 points := 5 },
               { id := 10,
                 piece_type := ChessEngine.PieceType.Knight,
                 color := ChessEngine.PieceColor.White,
                 location := { rank := 1, file := "b" },
                 captured := false,
                 first_move := true,
                 promoted := false,
                 original_piece_type := none,
                 valid_moves := [{ rank := 3, file := "c" }, { rank := 3, file := "a" }],
                 valid_captures := [],
                 points := 3 },
               { id := 11,
                 piece_type := ChessEngine.PieceType.Knight,
                 color := ChessEngine.PieceColor.White,
                 location := { rank := 1, file := "g" },
                 captured := false,
                 first_move := true,
                 promoted := false,
                 original_piece_type := none,
                 valid_moves := [{ rank := 2, file := "e" },
                                 { rank := 3, file := "h" },
                                 { rank := 3, file := "f" }],
                 valid_captures := [],
                 points := 3 },
               { id := 12,
                 piece_type := ChessEngine.PieceType.Bishop,
                 color := ChessEngine.PieceColor.White,
                 location := { rank := 1, file := "c" },
                 captured := false,
                 first_move := true,
                 promoted := false,
                 original_piece_type := none,
                 valid_moves := [],
                 valid_captures := [],
                 points := 3 },
               { id := 13,
                 piece_type := ChessEngine.PieceType.Bishop,
                 color := ChessEngine.PieceColor.White,
                 location := { rank := 1, file := "f" },
                 captured := false,
                 first_move := true,
                 promoted := false,
                 original_piece_type := none,
                 valid_moves := [{ rank := 2, file := "e" },
                                 { rank := 3, file := "d" },
                                 { rank := 4, file := "c" },
                                 { rank := 5, file := "b" },
                                 { rank := 6, file := "a" }],
                 valid_captures := [],
                 points := 3 },
               { id := 14,
                 piece_type := ChessEngine.PieceType.Queen,
                 color := ChessEngine.PieceColor.White,
                 location := { rank := 5, file := "h" },
                 captured := false,
                 first_move := false,
                 promoted := false,
                 original_piece_type := none,
                 valid_moves := [{ rank := 6, file := "g" },
                                 { rank := 4, file := "g" },
                                 { rank := 3, file := "f" },
                                 { rank := 2, file := "e" },
                                 { rank := 1, file := "d" },
                                 { rank := 4, file := "h" },
                                 { rank := 3, file := "h" },
                                 { rank := 5, file := "g" },
                                 { rank := 5, file := "f" },
                                 { rank := 6, file := "h" }],
                 valid_captures := [{ rank := 7, file := "f" },
                                    { rank := 5, file := "e" },
                                    { rank := 7, file := "h" }],
                 points := 9 },
               { id := 15,
                 piece_type := ChessEngine.PieceType.King,
                 color := ChessEngine.PieceColor.White,
                 location := { rank := 1, file := "e" },
                 captured := false,
                 first_move := true,
                 promoted := false,
                 original_piece_type := none,
                 valid_moves := [{ rank := 1, file := "d" }, { rank := 2, file := "e" }],
                 valid_captures := [],
                 points := 0 },
               { id := 16,
                 piece_type := ChessEngine.PieceType.Pawn,
                 color := ChessEngine.PieceColor.Black,
                 location := { rank := 7, file := "a" },
                 captured := false,
                 first_move := true,
                 promoted := false,
                 original_piece_type := none,
                 valid_moves := [{ rank := 6, file := "a" }, { rank := 5, file := "a" }],
                 valid_captures := [],
                 points := 1 },
               { id := 17,
                 piece_type := ChessEngine.PieceType.Pawn,
                 color := ChessEngine.PieceColor.Black,
                 location := { rank := 7, file := "b" },
                 captured := false,
                 first_move := true,
                 promoted := false,
                 original_piece_type := none,
                 valid_moves := [{ rank := 6, file := "b" }, { rank := 5, file := "b" }],
                 valid_captures := [],
                 points := 1 },
               { id := 18,
                 piece_type := ChessEngine.PieceType.Pawn,
                 color := ChessEngine.PieceColor.Black,
                 location := { rank := 7, file := "c" },
                 captured := false,
                 first_move := true,
                 promoted := false,
                 original_piece_type := none,
                 valid_moves := [{ rank := 6, file := "c" }, { rank := 5, file := "c" }],
                 valid_captures := [],
                 points := 1 },
               { id := 19,
                 piece_type := ChessEngine.PieceType.Pawn,
                 color := ChessEngine.PieceColor.Black,
                 location := { rank := 7, file := "d" },
                 captured := false,
                 first_move := true,
                 promoted := false,
                 original_piece_type := none,
                 valid_moves := [{ rank := 6, file := "d" }, { rank := 5, file := "d" }],
                 valid_captures := [],
                 points := 1 },
               { id := 20,
                 piece_type := ChessEngine.PieceType.Pawn,
                 color := ChessEngine.PieceColor.Black,
                 location := { rank := 5, file := "e" },
                 captured := false,
                 first_move := false,
                 promoted := false,
                 original_piece_type := none,
                 valid_moves := [],
                 valid_captures := [],
                 points := 1 },
               { id := 21,
                 piece_type := ChessEngine.PieceType.Pawn,
                 color := ChessEngine.PieceColor.Black,
                 location := { rank := 7, file := "f" },
                 captured := false,
                 first_move := true,
                 promoted := false,
                 original_piece_type := none,
                 valid_moves := [{ rank := 6, file := "f" }, { rank := 5, file := "f" }],
                 valid_captures := [],
                 points := 1 },
               { id := 22,
                 piece_type := ChessEngine.PieceType.Pawn,
                 color := ChessEngine.PieceColor.Black,
                 location := { rank := 7, file := "g" },
                 captured := false,
                 first_move := true,
                 promoted := false,
                 original_piece_type := none,
                 valid_moves := [{ rank := 6, file := "g" }, { rank := 5, file := "g" }],
                 valid_captures := [],
                 points := 1 },
               { id := 23,
                 piece_type := ChessEngine.PieceType.Pawn,
                 color := ChessEngine.PieceColor.Black,
                 location := { rank := 7, file := "h" },
                 captured := false,
                 first_move := true,
                 promoted := false,
                 original_piece_type := none,
                 valid_moves := [{ rank := 6, file := "h" }],
                 valid_captures := [],
                 points := 1 },
               { id := 24,
                 piece_type := ChessEngine.PieceType.Rook,
                 color := ChessEngine.PieceColor.Black,
                 location := { rank := 8, file := "a" },
                 captured := false,
                 first_move := true,
                 promoted := false,
                 original_piece_type := none,
                 valid_moves := [],
                 valid_captures := [],
                 points := 5 },
               { id := 25,
                 piece_type := ChessEngine.PieceType.Rook,
                 color := ChessEngine.PieceColor.Black,
                 location := { rank := 8, file := "h" },
                 captured := false,
                 first_move := true,
                 promoted := false,
                 original_piece_type := none,
                 valid_moves := [],
                 valid_captures := [],
                 points := 5 },
               { id := 26,
                 piece_type := ChessEngine.PieceType.Knight,
                 color := ChessEngine.PieceColor.Black,
                 location := { rank := 8, file := "b" },
                 captured := false,
                 first_move := true,
                 promoted := false,
                 original_piece_type := none,
                 valid_moves := [{ rank := 6, file := "c" }, { rank := 6, file := "a" }],
                 valid_captures := [],
                 points := 3 },
               { id := 27,
                 piece_type := ChessEngine.PieceType.Knight,
                 color := ChessEngine.PieceColor.Black,
                 location := { rank := 8, file := "g" },
                 captured := false,
                 first_move := true,
                 promoted := false,
                 original_piece_type := none,
                 valid_moves := [{ rank := 6, file := "h" },
                                 { rank := 6, file := "f" },
                                 { rank := 7, file := "e" }],
                 valid_captures := [],
                 points := 3 },
               { id := 28,
                 piece_type := ChessEngine.PieceType.Bishop,
                 color := ChessEngine.PieceColor.Black,
                 location := { rank := 8, file := "c" },
                 captured := false,
                 first_move := true,
                 promoted := false,
                 original_piece_type := none,
                 valid_moves := [],
                 valid_captures := [],
                 points := 3 },
               { id := 29,
                 piece_type := ChessEngine.PieceType.Bishop,
                 color := ChessEngine.PieceColor.Black,
                 location := { rank := 8, file := "f" },
                 captured := false,
                 first_move := true,
                 promoted := false,
                 original_piece_type := none,
                 valid_moves := [{ rank := 7, file := "e" },
                                 { rank := 6, file := "d" },
                                 { rank := 5, file := "c" },
                                 { rank := 4, file := "b" },
                                 { rank := 3, file := "a" }],
                 valid_captures := [],
                 points := 3 },
               { id := 30,
                 piece_type := ChessEngine.PieceType.Queen,
                 color := ChessEngine.PieceColor.Black,
                 location := { rank := 8, file := "d" },
                 captured := false,
                 first_move := true,
                 promoted := false,
                 original_piece_type := none,
                 valid_moves := [{ rank := 7, file := "e" },
                                 { rank := 6, file := "f" },
                                 { rank := 5, file := "g" },
                                 { rank := 4, file := "h" }],
                 valid_captures := [],
                 points := 9 },
               { id := 31,
                 piece_type := ChessEngine.PieceType.King,
                 color := ChessEngine.PieceColor.Black,
                 location := { rank := 8, file := "e" },
                 captured := false,
                 first_move := true,
                 promoted := false,
                 original_piece_type := none,
                 valid_moves := [{ rank := 7, file := "e" }],
                 valid_captures := [],
                 points := 0 }],
    white_king_state := ChessEngine.KingState.NotInCheck,
    black_king_state := ChessEngine.KingState.NotInCheck,
    white_king_castle := [],
    black_king_castle := [],
    movement_log := [{ id := 0,
                       time_span := 0,
                       player_id := 100,
                       notation_text := "e4",
                       piece_id := 4,
                       start_location := { rank := 2, file := "e" },
                       end_location := { rank := 4, file := "e" },
                       piece_captured := false,
                       captured_piece_id := none,
                       opponent_king_in_check := false,
                       opponent_king_in_checkmate := false,
                       castled_king_side := false,
                       castled_queen_side := false },
                     { id := 0,
                       time_span := 0,
                       player_id := 200,
                       notation_text := "e5",
                       piece_id := 20,
                       start_location := { rank := 7, file := "e" },
                       end_location := { rank := 5, file := "e" },
                       piece_captured := false,
                       captured_piece_id := none,
                       opponent_king_in_check := false,
                       opponent_king_in_checkmate := false,
                       castled_king_side := false,
                       castled_queen_side := false },
                     { id := 0,
                       time_span := 0,
                       player_id := 100,
                       notation_text := "♕h5",
                       piece_id := 14,
                       start_location := { rank := 1, file := "d" },
                       end_location := { rank := 5, file := "h" },
                       piece_captured := false,
                       captured_piece_id := none,
                       opponent_king_in_check := false,
                       opponent_king_in_checkmate := false,
                       castled_king_side := false,
                       castled_queen_side := false }] }

def mC4b : ChessMatch :=
  { id := 0,
    white_player := 100,
    black_player := 200,
    status := 0,
    result := 0,
    winner := none,
    current_turn := 0,
    pieces := [{ id := 0,
                 piece_type := ChessEngine.PieceType.Pawn,
                 color := ChessEngine.PieceColor.White,
                 location := { rank := 2, file := "a" },
                 captured := false,
                 first_move := true,
                 promoted := false,
                 original_piece_type := none,
                 valid_moves := [{ rank := 3, file := "a" }, { rank := 4, file := "a" }],
                 valid_captures := [],
                 points := 1 },
               { id := 1,
                 piece_type := ChessEngine.PieceType.Pawn,
                 color := ChessEngine.PieceColor.White,
                 location := { rank := 2, file := "b" },
                 captured := false,
                 first_move := true,
                 promoted := false,
                 original_piece_type := none,
                 valid_moves := [{ rank := 3, file := "b" }, { rank := 4, file := "b" }],
                 valid_captures := [],
                 points := 1 },
               { id := 2,
                 piece_type := ChessEngine.PieceType.Pawn,
                 color := ChessEngine.PieceColor.White,
                 location := { rank := 2, file := "c" },
                 captured := false,
                 first_move := true,
                 promoted := false,
                 original_piece_type := none,
                 valid_moves := [{ rank := 3, file := "c" }, { rank := 4, file := "c" }],
                 valid_captures := [],
                 points := 1 },
               { id := 3,
                 piece_type := ChessEngine.PieceType.Pawn,
                 color := ChessEngine.PieceColor.White,
                 location := { rank := 2, file := "d" },
                 captured := false,
                 first_move := true,
                 promoted := false,
                 original_piece_type := none,
                 valid_moves := [{ rank := 3, file := "d" }, { rank := 4, file := "d" }],
                 valid_captures := [],
                 points := 1 },
               { id := 4,
                 piece_type := ChessEngine.PieceType.Pawn,
                 color := ChessEngine.PieceColor.White,
                 location := { rank := 4, file := "e" },
                 captured := false,
                 first_move := false,
                 promoted := false,
                 original_piece_type := none,
                 valid_moves := [{ rank := 5, file := "e" }],
                 valid_captures := [],
                 points := 1 },
               { id := 5,
                 piece_type := ChessEngine.PieceType.Pawn,
                 color := ChessEngine.PieceColor.White,
                 location := { rank := 2, file := "f" },
                 captured := false,
                 first_move := true,
                 promoted := false,
                 original_piece_type := none,
                 valid_moves := [{ rank := 3, file := "f" }, { rank := 4, file := "f" }],
                 valid_captures := [],
                 points := 1 },
               { id := 6,
                 piece_type := ChessEngine.PieceType.Pawn,
                 color := ChessEngine.PieceColor.White,
                 location := { rank := 2, file := "g" },
                 captured := false,
                 first_move := true,
                 promoted := false,
                 original_piece_type := none,
                 valid_moves := [{ rank := 3, file := "g" }, { rank := 4, file := "g" }],
                 valid_captures := [],
                 points := 1 },
               { id := 7,
                 piece_type := ChessEngine.PieceType.Pawn,
                 color := ChessEngine.PieceColor.White,
                 location := { rank := 2, file := "h" },
                 captured := false,
                 first_move := true,
                 promoted := false,
                 original_piece_type := none,
                 valid_moves := [{ rank := 3, file := "h" }, { rank := 4, file := "h" }],
                 valid_captures := [],
                 points := 1 },
               { id := 8,
                 piece_type := ChessEngine.PieceType.Rook,
                 color := ChessEngine.PieceColor.White,
                 location := { rank := 1, file := "a" },
                 captured := false,
                 first_move := true,
                 promoted := false,
                 original_piece_type := none,
                 valid_moves := [],
                 valid_captures := [],
                 points := 5 },
               { id := 9,
                 piece_type := ChessEngine.PieceType.Rook,
                 color := ChessEngine.PieceColor.White,
                 location := { rank := 1, file := "h" },
                 captured := false,
                 first_move := true,
                 promoted := false,
                 original_piece_type := none,
                 valid_moves := [],
                 valid_captures := [],
                 points := 5 },
               { id := 10,
                 piece_type := ChessEngine.PieceType.Knight,
                 color := ChessEngine.PieceColor.White,
                 location := { rank := 1, file := "b" },
                 captured := false,
                 first_move := true,
                 promoted := false,
                 original_piece_type := none,
                 valid_moves := [{ rank := 3, file := "c" }, { rank := 3, file := "a" }],
                 valid_captures := [],
                 points := 3 },
               { id := 11,
                 piece_type := ChessEngine.PieceType.Knight,
                 color := ChessEngine.PieceColor.White,
                 location := { rank := 1, file := "g" },
                 captured := false,
                 first_move := true,
                 promoted := false,
                 original_piece_type := none,
                 valid_moves := [{ rank := 2, file := "e" },
                                 { rank := 3, file := "h" },
                                 { rank := 3, file := "f" }],
                 valid_captures := [],
                 points := 3 },
               { id := 12,
                 piece_type := ChessEngine.PieceType.Bishop,
                 color := ChessEngine.PieceColor.White,
                 location := { rank := 1, file := "c" },
                 captured := false,
                 first_move := true,
                 promoted := false,
                 original_piece_type := none,
                 valid_moves := [],
                 valid_captures := [],
                 points := 3 },
               { id := 13,
                 piece_type := ChessEngine.PieceType.Bishop,
                 color := ChessEngine.PieceColor.White,
                 location := { rank := 1, file := "f" },
                 captured := false,
                 first_move := true,
                 promoted := false,
                 original_piece_type := none,
                 valid_moves := [{ rank := 2, file := "e" },
                                 { rank := 3, file := "d" },
                                 { rank := 4, file := "c" },
                                 { rank := 5, file := "b" }],
                 valid_captures := [{ rank := 6, file := "a" }],
                 points := 3 },
               { id := 14,
                 piece_type := ChessEngine.PieceType.Queen,
                 color := ChessEngine.PieceColor.White,
                 location := { rank := 1, file := "d" },
                 captured := false,
                 first_move := true,
                 promoted := false,
                 original_piece_type := none,
                 valid_moves := [{ rank := 2, file := "e" },
                                 { rank := 3, file := "f" },
                                 { rank := 4, file := "g" },
                                 { rank := 5, file := "h" }],
                 valid_captures := [],
                 points := 9 },
               { id := 15,
                 piece_type := ChessEngine.PieceType.King,
                 color := ChessEngine.PieceColor.White,
                 location := { rank := 1, file := "e" },
                 captured := false,
                 first_move := true,
                 promoted := false,
                 original_piece_type := none,
                 valid_moves := [{ rank := 2, file := "e" }],
                 valid_captures := [],
                 points := 0 },
               { id := 16,
                 piece_type := ChessEngine.PieceType.Pawn,
                 color := ChessEngine.PieceColor.Black,
                 location := { rank := 6, file := "a" },
                 captured := false,
                 first_move := false,
                 promoted := false,
                 original_piece_type := none,
                 valid_moves := [{ rank := 5, file := "a" }],
                 valid_captures := [],
                 points := 1 },
               { id := 17,
                 piece_type := ChessEngine.PieceType.Pawn,
                 color := ChessEngine.PieceColor.Black,
                 location := { rank := 7, file := "b" },
                 captured := false,
                 first_move := true,
                 promoted := false,
                 original_piece_type := none,
                 valid_moves := [{ rank := 6, file := "b" }, { rank := 5, file := "b" }],
                 valid_captures := [],
                 points := 1 },
               { id := 18,
                 piece_type := ChessEngine.PieceType.Pawn,
                 color := ChessEngine.PieceColor.Black,
                 location := { rank := 7, file := "c" },
                 captured := false,
                 first_move := true,
                 promoted := false,
                 original_piece_type := none,
                 valid_moves := [{ rank := 6, file := "c" }, { rank := 5, file := "c" }],
                 valid_captures := [],
                 points := 1 },
               { id := 19,
                 piece_type := ChessEngine.PieceType.Pawn,
                 color := ChessEngine.PieceColor.Black,
                 location := { rank := 7, file := "d" },
                 captured := false,
                 first_move := true,
                 promoted := false,
                 original_piece_type := none,
                 valid_moves := [{ rank := 6, file := "d" }, { rank := 5, file := "d" }],
                 valid_captures := [],
                 points := 1 },
               { id := 20,
                 piece_type := ChessEngine.PieceType.Pawn,
                 color := ChessEngine.PieceColor.Black,
                 location := { rank := 7, file := "e" },
                 captured := false,
                 first_move := true,
                 promoted := false,
                 original_piece_type := none,
                 valid_moves := [{ rank := 6, file := "e" }, { rank := 5, file := "e" }],
                 valid_captures := [],
                 points := 1 },
               { id := 21,
                 piece_type := ChessEngine.PieceType.Pawn,
                 color := ChessEngine.PieceColor.Black,
                 location := { rank := 7, file := "f" },
                 captured := false,
                 first_move := true,
                 promoted := false,
                 original_piece_type := none,
                 valid_moves := [{ rank := 6, file := "f" }, { rank := 5, file := "f" }],
                 valid_captures := [],
                 points := 1 },
               { id := 22,
                 piece_type := ChessEngine.PieceType.Pawn,
                 color := ChessEngine.PieceColor.Black,
                 location := { rank := 7, file := "g" },
                 captured := false,
                 first_move := true,
                 promoted := false,
                 original_piece_type := none,
                 valid_moves := [{ rank := 6, file := "g" }, { rank := 5, file := "g" }],
                 valid_captures := [],
                 points := 1 },
               { id := 23,
                 piece_type := ChessEngine.PieceType.Pawn,
                 color := ChessEngine.PieceColor.Black,
                 location := { rank := 7, file := "h" },
                 captured := false,
                 first_move := true,
                 promoted := false,
                 original_piece_type := none,
                 valid_moves := [{ rank := 6, file := "h" }, { rank := 5, file := "h" }],
                 valid_captures := [],
                 points := 1 },
               { id := 24,
                 piece_type := ChessEngine.PieceType.Rook,
                 color := ChessEngine.PieceColor.Black,
                 location := { rank := 8, file := "a" },
                 captured := false,
                 first_move := true,
                 promoted := false,
                 original_piece_type := none,
                 valid_moves := [{ rank := 7, file := "a" }],
                 valid_captures := [],
                 points := 5 },
               { id := 25,
                 piece_type := ChessEngine.PieceType.Rook,
                 color := ChessEngine.PieceColor.Black,
                 location := { rank := 8, file := "h" },
                 captured := false,
                 first_move := true,
                 promoted := false,
                 original_piece_type := none,
                 valid_moves := [],
                 valid_captures := [],
                 points := 5 },
               { id := 26,
                 piece_type := ChessEngine.PieceType.Knight,
                 color := ChessEngine.PieceColor.Black,
                 location := { rank := 8, file := "b" },
                 captured := false,
                 first_move := true,
                 promoted := false,
                 original_piece_type := none,
                 valid_moves := [{ rank := 6, file := "c" }],
                 valid_captures := [],
                 points := 3 },
               { id := 27,
                 piece_type := ChessEngine.PieceType.Knight,
                 color := ChessEngine.PieceColor.Black,
                 location := { rank := 8, file := "g" },
                 captured := false,
                 first_move := true,
                 promoted := false,
                 original_piece_type := none,
                 valid_moves := [{ rank := 6, file := "h" }, { rank := 6, file := "f" }],
                 valid_captures := [],
                 points := 3 },
               { id := 28,
                 piece_type := ChessEngine.PieceType.Bishop,
                 color := ChessEngine.PieceColor.Black,
                 location := { rank := 8, file := "c" },
                 captured := false,
                 first_move := true,
                 promoted := false,
                 original_piece_type := none,
                 valid_moves := [],
                 valid_captures := [],
                 points := 3 },
               { id := 29,
                 piece_type := ChessEngine.PieceType.Bishop,
                 color := ChessEngine.PieceColor.Black,
                 location := { rank := 8, file := "f" },
                 captured := false,
                 first_move := true,
                 promoted := false,
                 original_piece_type := none,
                 valid_moves := [],
                 valid_captures := [],
                 points := 3 },
               { id := 30,
                 piece_type := ChessEngine.PieceType.Queen,
                 color := ChessEngine.PieceColor.Black,
                 location := { rank := 8, file := "d" },
                 captured := false,
                 first_move := true,
                 promoted := false,
                 original_piece_type := none,
                 valid_moves := [],
                 valid_captures := [],
                 points := 9 },
               { id := 31,
                 piece_type := ChessEngine.PieceType.King,
                 color := ChessEngine.PieceColor.Black,
                 location := { rank := 8, file := "e" },
                 captured := false,
                 first_move := true,
                 promoted := false,
                 original_piece_type := none,
                 valid_moves := [],
                 valid_captures := [],
                 points := 0 }],
    white_king_state := ChessEngine.KingState.NotInCheck,
    black_king_state := ChessEngine.KingState.InStaleMate,
    white_king_castle := [],
    black_king_castle := [],
    movement_log := [{ id := 0,
                       time_span := 0,
                       player_id := 100,
                       notation_text := "e4",
                       piece_id := 4,
                       start_location := { rank := 2, file := "e" },
                       end_location := { rank := 4, file := "e" },
                       piece_captured := false,
                       captured_piece_id := none,
                       opponent_king_in_check := false,
                       opponent_king_in_checkmate := false,
                       castled_king_side := false,
                       castled_queen_side := false },
                     { id := 0,
                       time_span := 0,
                       player_id := 200,
                       notation_text := "a6",
                       piece_id := 16,
                       start_location := { rank := 7, file := "a" },
                       end_location := { rank := 6, file := "a" },
                       piece_captured := false,
                       captured_piece_id := none,
                       opponent_king_in_check := false,
                       opponent_king_in_checkmate := false,
                       castled_king_side := false,
                       castled_queen_side := false }] }

def mC4c : ChessMatch :=
  { id := 0,
    white_player := 100,
    black_player := 200,
    status := 0,
    result := 0,
    winner := none,
    current_turn := 1,
    pieces := [{ id := 0,
                 piece_type := ChessEngine.PieceType.Pawn,
                 color := ChessEngine.PieceColor.White,
                 location := { rank := 2, file := "a" },
                 captured := false,
                 first_move := true,
                 promoted := false,
                 original_piece_type := none,
                 valid_moves := [{ rank := 3, file := "a" }, { rank := 4, file := "a" }],
                 valid_captures := [],
                 points := 1 },
               { id := 1,
                 piece_type := ChessEngine.PieceType.Pawn,
                 color := ChessEngine.PieceColor.White,
                 location := { rank := 2, file := "b" },
                 captured := false,
                 first_move := true,
                 promoted := false,
                 original_piece_type := none,
                 valid_moves := [{ rank := 3, file := "b" }, { rank := 4, file := "b" }],
                 valid_captures := [],
                 points := 1 },
               { id := 2,
                 piece_type := ChessEngine.PieceType.Pawn,
                 color := ChessEngine.PieceColor.White,
                 location := { rank := 2, file := "c" },
                 captured := false,
                 first_move := true,
                 promoted := false,
                 original_piece_type := none,
                 valid_moves := [{ rank := 3, file := "c" }],
                 valid_captures := [],
                 points := 1 },
               { id := 3,
                 piece_type := ChessEngine.PieceType.Pawn,
                 color := ChessEngine.PieceColor.White,
                 location := { rank := 2, file := "d" },
                 captured := false,
                 first_move := true,
                 promoted := false,
                 original_piece_type := none,
                 valid_moves := [{ rank := 3, file := "d" }, { rank := 4, file := "d" }],
                 valid_captures := [],
                 points := 1 },
               { id := 4,
                 piece_type := ChessEngine.PieceType.Pawn,
                 color := ChessEngine.PieceColor.White,
                 location := { rank := 4, file := "e" },
                 captured := false,
                 first_move := false,
                 promoted := false,
                 original_piece_type := none,
                 valid_moves := [{ rank := 5, file := "e" }],
                 valid_captures := [],
                 points := 1 },
               { id := 5,
                 piece_type := ChessEngine.PieceType.Pawn,
                 color := ChessEngine.PieceColor.White,
                 location := { rank := 2, file := "f" },
                 captured := false,
                 first_move := true,
                 promoted := false,
                 original_piece_type := none,
                 valid_moves := [{ rank := 3, file := "f" }, { rank := 4, file := "f" }],
                 valid_captures := [],
                 points := 1 },
               { id := 6,
                 piece_type := ChessEngine.PieceType.Pawn,
                 color := ChessEngine.PieceColor.White,
                 location := { rank := 2, file := "g" },
                 captured := false,
                 first_move := true,
                 promoted := false,
                 original_piece_type := none,
                 valid_moves := [{ rank := 3, file := "g" }, { rank := 4, file := "g" }],
                 valid_captures := [],
                 points := 1 },
               { id := 7,
                 piece_type := ChessEngine.PieceType.Pawn,
                 color := ChessEngine.PieceColor.White,
                 location := { rank := 2, file := "h" },
                 captured := false,
                 first_move := true,
                 promoted := false,
                 original_piece_type := none,
                 valid_moves := [{ rank := 3, file := "h" }, { rank := 4, file := "h" }],
                 valid_captures := [],
                 points := 1 },
               { id := 8,
                 piece_type := ChessEngine.PieceType.Rook,
                 color := ChessEngine.PieceColor.White,
                 location := { rank := 1, file := "a" },
                 captured := false,
                 first_move := true,
                 promoted := false,
                 original_piece_type := none,
                 valid_moves := [],
                 valid_captures := [],
                 points := 5 },
               { id := 9,
                 piece_type := ChessEngine.PieceType.Rook,
                 color := ChessEngine.PieceColor.White,
                 location := { rank := 1, file := "h" },
                 captured := false,
                 first_move := true,
                 promoted := false,
                 original_piece_type := none,
                 valid_moves := [],
                 valid_captures := [],
                 points := 5 },
               { id := 10,
                 piece_type := ChessEngine.PieceType.Knight,
                 color := ChessEngine.PieceColor.White,
                 location := { rank := 1, file := "b" },
                 captured := false,
                 first_move := true,
                 promoted := false,
                 original_piece_type := none,
                 valid_moves := [{ rank := 3, file := "c" }, { rank := 3, file := "a" }],
                 valid_captures := [],
                 points := 3 },
               { id := 11,
                 piece_type := ChessEngine.PieceType.Knight,
                 color := ChessEngine.PieceColor.White,
                 location := { rank := 1, file := "g" },
                 captured := false,
                 first_move := true,
                 promoted := false,
                 original_piece_type := none,
                 valid_moves := [{ rank := 2, file := "e" },
                                 { rank := 3, file := "h" },
                                 { rank := 3, file := "f" }],
                 valid_captures := [],
                 points := 3 },
               { id := 12,
                 piece_type := ChessEngine.PieceType.Bishop,
                 color := ChessEngine.PieceColor.White,
                 location := { rank := 1, file := "c" },
                 captured := false,
                 first_move := true,
                 promoted := false,
                 original_piece_type := none,
                 valid_moves := [],
                 valid_captures := [],
                 points := 3 },
               { id := 13,
                 piece_type := ChessEngine.PieceType.Bishop,
                 color := ChessEngine.PieceColor.White,
                 location := { rank := 4, file := "c" },
                 captured := false,
                 first_move := false,
                 promoted := false,
                 original_piece_type := none,
                 valid_moves := [{ rank := 5, file := "d" },
                                 { rank := 6, file := "e" },
                                 { rank := 3, file := "d" },
                                 { rank := 2, file := "e" },
                                 { rank := 1, file := "f" },
                                 { rank := 5, file := "b" },
                                 { rank := 3, file := "b" }],
                 valid_captures := [{ rank := 7, file := "f" }, { rank := 6, file := "a" }],
                 points := 3 },
               { id := 14,
                 piece_type := ChessEngine.PieceType.Queen,
                 color := ChessEngine.PieceColor.White,
                 location := { rank := 1, file := "d" },
                 captured := false,
                 first_move := true,
                 promoted := false,
                 original_piece_type := none,
                 valid_moves := [{ rank := 2, file := "e" },
                                 { rank := 3, file := "f" },
                                 { rank := 4, file := "g" },
                                 { rank := 5, file := "h" }],
                 valid_captures := [],
                 points := 9 },
               { id := 15,
                 piece_type := ChessEngine.PieceType.King,
                 color := ChessEngine.PieceColor.White,
                 location := { rank := 1, file := "e" },
                 captured := false,
                 first_move := true,
                 promoted := false,
                 original_piece_type := none,
                 valid_moves := [{ rank := 1, file := "f" }, { rank := 2, file := "e" }],
                 valid_captures := [],
                 points := 0 },
               { id := 16,
                 piece_type := ChessEngine.PieceType.Pawn,
                 color := ChessEngine.PieceColor.Black,
                 location := { rank := 6, file := "a" },
                 captured := false,
                 first_move := false,
                 promoted := false,
                 original_piece_type := none,
                 valid_moves := [{ rank := 5, file := "a" }],
                 valid_captures := [],
                 points := 1 },
               { id := 17,
                 piece_type := ChessEngine.PieceType.Pawn,
                 color := ChessEngine.PieceColor.Black,
                 location := { rank := 7, file := "b" },
                 captured := false,
                 first_move := true,
                 promoted := false,
                 original_piece_type := none,
                 valid_moves := [{ rank := 6, file := "b" }, { rank := 5, file := "b" }],
                 valid_captures := [],
                 points := 1 },
               { id := 18,
                 piece_type := ChessEngine.PieceType.Pawn,
                 color := ChessEngine.PieceColor.Black,
                 location := { rank := 7, file := "c" },
                 captured := false,
                 first_move := true,
                 promoted := false,
                 original_piece_type := none,
                 valid_moves := [{ rank := 6, file := "c" }, { rank := 5, file := "c" }],
                 valid_captures := [],
                 points := 1 },
               { id := 19,
                 piece_type := ChessEngine.PieceType.Pawn,
                 color := ChessEngine.PieceColor.Black,
                 location := { rank := 7, file := "d" },
                 captured := false,
                 first_move := true,
                 promoted := false,
                 original_piece_type := none,
                 valid_moves := [{ rank := 6, file := "d" }, { rank := 5, file := "d" }],
                 valid_captures := [],
                 points := 1 },
               { id := 20,
                 piece_type := ChessEngine.PieceType.Pawn,
                 color := ChessEngine.PieceColor.Black,
                 location := { rank := 7, file := "e" },
                 captured := false,
                 first_move := true,
                 promoted := false,
                 original_piece_type := none,
                 valid_moves := [{ rank := 6, file := "e" }, { rank := 5, file := "e" }],
                 valid_captures := [],
                 points := 1 },
               { id := 21,
                 piece_type := ChessEngine.PieceType.Pawn,
                 color := ChessEngine.PieceColor.Black,
                 location := { rank := 7, file := "f" },
                 captured := false,
                 first_move := true,
                 promoted := false,
                 original_piece_type := none,
                 valid_moves := [{ rank := 6, file := "f" }, { rank := 5, file := "f" }],
                 valid_captures := [],
                 points := 1 },
               { id := 22,
                 piece_type := ChessEngine.PieceType.Pawn,
                 color := ChessEngine.PieceColor.Black,
                 location := { rank := 7, file := "g" },
                 captured := false,
                 first_move := true,
                 promoted := false,
                 original_piece_type := none,
                 valid_moves := [{ rank := 6, file := "g" }, { rank := 5, file := "g" }],
                 valid_captures := [],
                 points := 1 },
               { id := 23,
                 piece_type := ChessEngine.PieceType.Pawn,
                 color := ChessEngine.PieceColor.Black,
                 location := { rank := 7, file := "h" },
                 captured := false,
                 first_move := true,
                 promoted := false,
                 original_piece_type := none,
                 valid_moves := [{ rank := 6, file := "h" }, { rank := 5, file := "h" }],
                 valid_captures := [],
                 points := 1 },
               { id := 24,
                 piece_type := ChessEngine.PieceType.Rook,
                 color := ChessEngine.PieceColor.Black,
                 location := { rank := 8, file := "a" },
                 captured := false,
                 first_move := true,
                 promoted := false,
                 original_piece_type := none,
                 valid_moves := [{ rank := 7, file := "a" }],
                 valid_captures := [],
                 points := 5 },
               { id := 25,
                 piece_type := ChessEngine.PieceType.Rook,
                 color := ChessEngine.PieceColor.Black,
                 location := { rank := 8, file := "h" },
                 captured := false,
                 first_move := true,
                 promoted := false,
                 original_piece_type := none,
                 valid_moves := [],
                 valid_captures := [],
                 points := 5 },
               { id := 26,
                 piece_type := ChessEngine.PieceType.Knight,
                 color := ChessEngine.PieceColor.Black,
                 location := { rank := 8, file := "b" },
                 captured := false,
                 first_move := true,
                 promoted := false,
                 original_piece_type := none,
                 valid_moves := [{ rank := 6, file := "c" }],
                 valid_captures := [],
                 points := 3 },
               { id := 27,
                 piece_type := ChessEngine.PieceType.Knight,
                 color := ChessEngine.PieceColor.Black,
                 location := { rank := 8, file := "g" },
                 captured := false,
                 first_move := true,
                 promoted := false,
                 original_piece_type := none,
                 valid_moves := [{ rank := 6, file := "h" }, { rank := 6, file := "f" }],
                 valid_captures := [],
                 points := 3 },
               { id := 28,
                 piece_type := ChessEngine.PieceType.Bishop,
                 color := ChessEngine.PieceColor.Black,
                 location := { rank := 8, file := "c" },
                 captured := false,
                 first_move := true,
                 promoted := false,
                 original_piece_type := none,
                 valid_moves := [],
                 valid_captures := [],
                 points := 3 },
               { id := 29,
                 piece_type := ChessEngine.PieceType.Bishop,
                 color := ChessEngine.PieceColor.Black,
                 location := { rank := 8, file := "f" },
                 captured := false,
                 first_move := true,
                 promoted := false,
                 original_piece_type := none,
                 valid_moves := [],
                 valid_captures := [],
                 points := 3 },
               { id := 30,
                 piece_type := ChessEngine.PieceType.Queen,
                 color := ChessEngine.PieceColor.Black,
                 location := { rank := 8, file := "d" },
                 captured := false,
                 first_move := true,
                 promoted := false,
                 original_piece_type := none,
                 valid_moves := [],
                 valid_captures := [],
                 points := 9 },
               { id := 31,
                 piece_type := ChessEngine.PieceType.King,
                 color := ChessEngine.PieceColor.Black,
                 location := { rank := 8, file := "e" },
                 captured := false,
                 first_move := true,
                 promoted := false,
                 original_piece_type := none,
                 valid_moves := [],
                 valid_captures := [],
                 points := 0 }],
    white_king_state := ChessEngine.KingState.NotInCheck,
    black_king_state := ChessEngine.KingState.InStaleMate,
    white_king_castle := [],
    black_king_castle := [],
    movement_log := [{ id := 0,
                       time_span := 0,
                       player_id := 100,
                       notation_text := "e4",
                       piece_id := 4,
                       start_location := { rank := 2, file := "e" },
                       end_location := { rank := 4, file := "e" },
                       piece_captured := false,
                       captured_piece_id := none,
                       opponent_king_in_check := false,
                       opponent_king_in_checkmate := false,
                       castled_king_side := false,
                       castled_queen_side := false },
                     { id := 0,
                       time_span := 0,
                       player_id := 200,
                       notation_text := "a6",
                       piece_id := 16,
                       start_location := { rank := 7, file := "a" },
                       end_location := { rank := 6, file := "a" },
                       piece_captured := false,
                       captured_piece_id := none,
                       opponent_king_in_check := false,
                       opponent_king_in_checkmate := false,
                       castled_king_side := false,
                       castled_queen_side := false },
                     { id := 0,
                       time_span := 0,
                       player_id := 100,
                       notation_text := "♗c4",
                       piece_id := 13,
                       start_location := { rank := 1, file := "f" },
                       end_location := { rank := 4, file := "c" },
                       piece_captured := false,
                       captured_piece_id := none,
                       opponent_king_in_check := false,
                       opponent_king_in_checkmate := false,
                       castled_king_side := false,
                       castled_queen_side := false }] }

def mC4d : ChessMatch :=
  { id := 0,
    white_player := 100,
    black_player := 200,
    status := 0,
    result := 0,
    winner := none,
    current_turn := 0,
    pieces := [{ id := 0,
                 piece_type := ChessEngine.PieceType.Pawn,
                 color := ChessEngine.PieceColor.White,
                 location := { rank := 2, file := "a" },
                 captured := false,
                 first_move := true,
                 promoted := false,
                 original_piece_type := none,
                 valid_moves := [{ rank := 3, file := "a" }, { rank := 4, file := "a" }],
                 valid_captures := [],
                 points := 1 },
               { id := 1,
                 piece_type := ChessEngine.PieceType.Pawn,
                 color := ChessEngine.PieceColor.White,
                 location := { rank := 2, file := "b" },
                 captured := false,
                 first_move := true,
                 promoted := false,
                 original_piece_type := none,
                 valid_moves := [{ rank := 3, file := "b" }, { rank := 4, file := "b" }],
                 valid_captures := [],
                 points := 1 },
               { id := 2,
                 piece_type := ChessEngine.PieceType.Pawn,
                 color := ChessEngine.PieceColor.White,
                 location := { rank := 2, file := "c" },
                 captured := false,
                 first_move := true,
                 promoted := false,
                 original_piece_type := none,
                 valid_moves := [{ rank := 3, file := "c" }],
                 valid_captures := [],
                 points := 1 },
               { id := 3,
                 piece_type := ChessEngine.PieceType.Pawn,
                 color := ChessEngine.PieceColor.White,
                 location := { rank := 2, file := "d" },
                 captured := false,
                 first_move := true,
                 promoted := false,
                 original_piece_type := none,
                 valid_moves := [{ rank := 3, file := "d" }, { rank := 4, file := "d" }],
                 valid_captures := [],
                 points := 1 },
               { id := 4,
                 piece_type := ChessEngine.PieceType.Pawn,
                 color := ChessEngine.PieceColor.White,
                 location := { rank := 4, file := "e" },
                 captured := false,
                 first_move := false,
                 promoted := false,
                 original_piece_type := none,
                 valid_moves := [{ rank := 5, file := "e" }],
                 valid_captures := [],
                 points := 1 },
               { id := 5,
                 piece_type := ChessEngine.PieceType.Pawn,
                 color := ChessEngine.PieceColor.White,
                 location := { rank := 2, file := "f" },
                 captured := false,
                 first_move := true,
                 promoted := false,
                 original_piece_type := none,
                 valid_moves := [{ rank := 3, file := "f" }, { rank := 4, file := "f" }],
                 valid_captures := [],
                 points := 1 },
               { id := 6,
                 piece_type := ChessEngine.PieceType.Pawn,
                 color := ChessEngine.PieceColor.White,
                 location := { rank := 2, file := "g" },
                 captured := false,
                 first_move := true,
                 promoted := false,
                 original_piece_type := none,
                 valid_moves := [{ rank := 3, file := "g" }, { rank := 4, file := "g" }],
                 valid_captures := [],
                 points := 1 },
               { id := 7,
                 piece_type := ChessEngine.PieceType.Pawn,
                 color := ChessEngine.PieceColor.White,
                 location := { rank := 2, file := "h" },
                 captured := false,
                 first_move := true,
                 promoted := false,
                 original_piece_type := none,
                 valid_moves := [{ rank := 3, file := "h" }, { rank := 4, file := "h" }],
                 valid_captures := [],
                 points := 1 },
               { id := 8,
                 piece_type := ChessEngine.PieceType.Rook,
                 color := ChessEngine.PieceColor.White,
                 location := { rank := 1, file := "a" },
                 captured := false,
                 first_move := true,
                 promoted := false,
                 original_piece_type := none,
                 valid_moves := [],
                 valid_captures := [],
                 points := 5 },
               { id := 9,
                 piece_type := ChessEngine.PieceType.Rook,
                 color := ChessEngine.PieceColor.White,
                 location := { rank := 1, file := "h" },
                 captured := false,
                 first_move := true,
                 promoted := false,
                 original_piece_type := none,
                 valid_moves := [],
                 valid_captures := [],
                 points := 5 },
               { id := 10,
                 piece_type := ChessEngine.PieceType.Knight,
                 color := ChessEngine.PieceColor.White,
                 location := { rank := 1, file := "b" },
                 captured := false,
                 first_move := true,
                 promoted := false,
                 original_piece_type := none,
                 valid_moves := [{ rank := 3, file := "c" }, { rank := 3, file := "a" }],
                 valid_captures := [],
                 points := 3 },
               { id := 11,
                 piece_type := ChessEngine.PieceType.Knight,
                 color := ChessEngine.PieceColor.White,
                 location := { rank := 1, file := "g" },
                 captured := false,
                 first_move := true,
                 promoted := false,
                 original_piece_type := none,
                 valid_moves := [{ rank := 2, file := "e" },
                                 { rank := 3, file := "h" },
                                 { rank := 3, file := "f" }],
                 valid_captures := [],
                 points := 3 },
               { id := 12,
                 piece_type := ChessEngine.PieceType.Bishop,
                 color := ChessEngine.PieceColor.White,
                 location := { rank := 1, file := "c" },
                 captured := false,
                 first_move := true,
                 promoted := false,
                 original_piece_type := none,
                 valid_moves := [],
                 valid_captures := [],
                 points := 3 },
               { id := 13,
                 piece_type := ChessEngine.PieceType.Bishop,
                 color := ChessEngine.PieceColor.White,
                 location := { rank := 4, file := "c" },
                 captured := false,
                 first_move := false,
                 promoted := false,
                 original_piece_type := none,
                 valid_moves := [{ rank := 5, file := "d" },
                                 { rank := 6, file := "e" },
                                 { rank := 3, file := "d" },
                                 { rank := 2, file := "e" },
                                 { rank := 1, file := "f" },
                                 { rank := 5, file := "b" },
                                 { rank := 6, file := "a" },
                                 { rank := 3, file := "b" }],
                 valid_captures := [{ rank := 7, file := "f" }],
                 points := 3 },
               { id := 14,
                 piece_type := ChessEngine.PieceType.Queen,
                 color := ChessEngine.PieceColor.White,
                 location := { rank := 1, file := "d" },
                 captured := false,
                 first_move := true,
                 promoted := false,
                 original_piece_type := none,
                 valid_moves := [{ rank := 2, file := "e" },
                                 { rank := 3, file := "f" },
                                 { rank := 4, file := "g" },
                                 { rank := 5, file := "h" }],
                 valid_captures := [],
                 points := 9 },
               { id := 15,
                 piece_type := ChessEngine.PieceType.King,
                 color := ChessEngine.PieceColor.White,
                 location := { rank := 1, file := "e" },
                 captured := false,
                 first_move := true,
                 promoted := false,
                 original_piece_type := none,
                 valid_moves := [{ rank := 1, file := "f" }, { rank := 2, file := "e" }],
                 valid_captures := [],
                 points := 0 },
               { id := 16,
                 piece_type := ChessEngine.PieceType.Pawn,
                 color := ChessEngine.PieceColor.Black,
                 location := { rank := 5, file := "a" },
                 captured := false,
                 first_move := false,
                 promoted := false,
                 original_piece_type := none,
                 valid_moves := [{ rank := 4, file := "a" }],
                 valid_captures := [],
                 points := 1 },
               { id := 17,
                 piece_type := ChessEngine.PieceType.Pawn,
                 color := ChessEngine.PieceColor.Black,
                 location := { rank := 7, file := "b" },
                 captured := false,
                 first_move := true,
                 promoted := false,
                 original_piece_type := none,
                 valid_moves := [{ rank := 6, file := "b" }, { rank := 5, file := "b" }],
                 valid_captures := [],
                 points := 1 },
               { id := 18,
                 piece_type := ChessEngine.PieceType.Pawn,
                 color := ChessEngine.PieceColor.Black,
                 location := { rank := 7, file := "c" },
                 captured := false,
                 first_move := true,
                 promoted := false,
                 original_piece_type := none,
                 valid_moves := [{ rank := 6, file := "c" }, { rank := 5, file := "c" }],
                 valid_captures := [],
                 points := 1 },
               { id := 19,
                 piece_type := ChessEngine.PieceType.Pawn,
                 color := ChessEngine.PieceColor.Black,
                 location := { rank := 7, file := "d" },
                 captured := false,
                 first_move := true,
                 promoted := false,
                 original_piece_type := none,
                 valid_moves := [{ rank := 6, file := "d" }, { rank := 5, file := "d" }],
                 valid_captures := [],
                 points := 1 },
               { id := 20,
                 piece_type := ChessEngine.PieceType.Pawn,
                 color := ChessEngine.PieceColor.Black,
                 location := { rank := 7, file := "e" },
                 captured := false,
                 first_move := true,
                 promoted := false,
                 original_piece_type := none,
                 valid_moves := [{ rank := 6, file := "e" }, { rank := 5, file := "e" }],
                 valid_captures := [],
                 points := 1 },
               { id := 21,
                 piece_type := ChessEngine.PieceType.Pawn,
                 color := ChessEngine.PieceColor.Black,
                 location := { rank := 7, file := "f" },
                 captured := false,
                 first_move := true,
                 promoted := false,
                 original_piece_type := none,
                 valid_moves := [{ rank := 6, file := "f" }, { rank := 5, file := "f" }],
                 valid_captures := [],
                 points := 1 },
               { id := 22,
                 piece_type := ChessEngine.PieceType.Pawn,
                 color := ChessEngine.PieceColor.Black,
                 location := { rank := 7, file := "g" },
                 captured := false,
                 first_move := true,
                 promoted := false,
                 original_piece_type := none,
                 valid_moves := [{ rank := 6, file := "g" }, { rank := 5, file := "g" }],
                 valid_captures := [],
                 points := 1 },
               { id := 23,
                 piece_type := ChessEngine.PieceType.Pawn,
                 color := ChessEngine.PieceColor.Black,
                 location := { rank := 7, file := "h" },
                 captured := false,
                 first_move := true,
                 promoted := false,
                 original_piece_type := none,
                 valid_moves := [{ rank := 6, file := "h" }, { rank := 5, file := "h" }],
                 valid_captures := [],
                 points := 1 },
               { id := 24,
                 piece_type := ChessEngine.PieceType.Rook,
                 color := ChessEngine.PieceColor.Black,
                 location := { rank := 8, file := "a" },
                 captured := false,
                 first_move := true,
                 promoted := false,
                 original_piece_type := none,
                 valid_moves := [{ rank := 7, file := "a" }, { rank := 6, file := "a" }],
                 valid_captures := [],
                 points := 5 },
               { id := 25,
                 piece_type := ChessEngine.PieceType.Rook,
                 color := ChessEngine.PieceColor.Black,
                 location := { rank := 8, file := "h" },
                 captured := false,
                 first_move := true,
                 promoted := false,
                 original_piece_type := none,
                 valid_moves := [],
                 valid_captures := [],
                 points := 5 },
               { id := 26,
                 piece_type := ChessEngine.PieceType.Knight,
                 color := ChessEngine.PieceColor.Black,
                 location := { rank := 8, file := "b" },
                 captured := false,
                 first_move := true,
                 promoted := false,
                 original_piece_type := none,
                 valid_moves := [{ rank := 6, file := "c" }, { rank := 6, file := "a" }],
                 valid_captures := [],
                 points := 3 },
               { id := 27,
                 piece_type := ChessEngine.PieceType.Knight,
                 color := ChessEngine.PieceColor.Black,
                 location := { rank := 8, file := "g" },
                 captured := false,
                 first_move := true,
                 promoted := false,
                 original_piece_type := none,
                 valid_moves := [{ rank := 6, file := "h" }, { rank := 6, file := "f" }],
                 valid_captures := [],
                 points := 3 },
               { id := 28,
                 piece_type := ChessEngine.PieceType.Bishop,
                 color := ChessEngine.PieceColor.Black,
                 location := { rank := 8, file := "c" },
                 captured := false,
                 first_move := true,
                 promoted := false,
                 original_piece_type := none,
                 valid_moves := [],
                 valid_captures := [],
                 points := 3 },
               { id := 29,
                 piece_type := ChessEngine.PieceType.Bishop,
                 color := ChessEngine.PieceColor.Black,
                 location := { rank := 8, file := "f" },
                 captured := false,
                 first_move := true,
                 promoted := false,
                 original_piece_type := none,
                 valid_moves := [],
                 valid_captures := [],
                 points := 3 },
               { id := 30,
                 piece_type := ChessEngine.PieceType.Queen,
                 color := ChessEngine.PieceColor.Black,
                 location := { rank := 8, file := "d" },
                 captured := false,
                 first_move := true,
                 promoted := false,
                 original_piece_type := none,
                 valid_moves := [],
                 valid_captures := [],
                 points := 9 },
               { id := 31,
                 piece_type := ChessEngine.PieceType.King,
                 color := ChessEngine.PieceColor.Black,
                 location := { rank := 8, file := "e" },
                 captured := false,
                 first_move := true,
                 promoted := false,
                 original_piece_type := none,
                 valid_moves := [],
                 valid_captures := [],
                 points := 0 }],
    white_king_state := ChessEngine.KingState.NotInCheck,
    black_king_state := ChessEngine.KingState.InStaleMate,
    white_king_castle := [],
    black_king_castle := [],
    movement_log := [{ id := 0,
                       time_span := 0,
                       player_id := 100,
                       notation_text := "e4",
                       piece_id := 4,
                       start_location := { rank := 2, file := "e" },
                       end_location := { rank := 4, file := "e" },
                       piece_captured := false,
                       captured_piece_id := none,
                       opponent_king_in_check := false,
                       opponent_king_in_checkmate := false,
                       castled_king_side := false,
                       castled_queen_side := false },
                     { id := 0,
                       time_span := 0,
                       player_id := 200,
                       notation_text := "a6",
                       piece_id := 16,
                       start_location := { rank := 7, file := "a" },
                       end_location := { rank := 6, file := "a" },
                       piece_captured := false,
                       captured_piece_id := none,
                       opponent_king_in_check := false,
                       opponent_king_in_checkmate := false,
                       castled_king_side := false,
                       castled_queen_side := false },
                     { id := 0,
                       time_span := 0,
                       player_id := 100,
                       notation_text := "♗c4",
                       piece_id := 13,
                       start_location := { rank := 1, file := "f" },
                       end_location := { rank := 4, file := "c" },
                       piece_captured := false,
                       captured_piece_id := none,
                       opponent_king_in_check := false,
                       opponent_king_in_checkmate := false,
                       castled_king_side := false,
                       castled_queen_side := false },
                     { id := 0,
                       time_span := 0,
                       player_id := 200,
                       notation_text := "a5",
                       piece_id := 16,
                       start_location := { rank := 6, file := "a" },
                       end_location := { rank := 5, file := "a" },
                       piece_captured := false,
                       captured_piece_id := none,
                       opponent_king_in_check := false,
                       opponent_king_in_checkmate := false,
                       castled_king_side := false,
                       castled_queen_side := false }] }

def mC4e : ChessMatch :=
  { id := 0,
    white_player := 100,
    black_player := 200,
    status := 0,
    result := 0,
    winner := none,
    current_turn := 1,
    pieces := [{ id := 0,
                 piece_type := ChessEngine.PieceType.Pawn,
                 color := ChessEngine.PieceColor.White,
                 location := { rank := 2, file := "a" },
                 captured := false,
                 first_move := true,
                 promoted := false,
                 original_piece_type := none,
                 valid_moves := [{ rank := 3, file := "a" }, { rank := 4, file := "a" }],
                 valid_captures := [],
                 points := 1 },
               { id := 1,
                 piece_type := ChessEngine.PieceType.Pawn,
                 color := ChessEngine.PieceColor.White,
                 location := { rank := 2, file := "b" },
                 captured := false,
                 first_move := true,
                 promoted := false,
                 original_piece_type := none,
                 valid_moves := [{ rank := 3, file := "b" }, { rank := 4, file := "b" }],
                 valid_captures := [],
                 points := 1 },
               { id := 2,
                 piece_type := ChessEngine.PieceType.Pawn,
                 color := ChessEngine.PieceColor.White,
                 location := { rank := 2, file := "c" },
                 captured := false,
                 first_move := true,
                 promoted := false,
                 original_piece_type := none,
                 valid_moves := [{ rank := 3, file := "c" }],
                 valid_captures := [],
                 points := 1 },
               { id := 3,
                 piece_type := ChessEngine.PieceType.Pawn,
                 color := ChessEngine.PieceColor.White,
                 location := { rank := 2, file := "d" },
                 captured := false,
                 first_move := true,
                 promoted := false,
                 original_piece_type := none,
                 valid_moves := [{ rank := 3, file := "d" }, { rank := 4, file := "d" }],
                 valid_captures := [],
                 points := 1 },
               { id := 4,
                 piece_type := ChessEngine.PieceType.Pawn,
                 color := ChessEngine.PieceColor.White,
                 location := { rank := 4, file := "e" },
                 captured := false,
                 first_move := false,
                 promoted := false,
                 original_piece_type := none,
                 valid_moves := [{ rank := 5, file := "e" }],
                 valid_captures := [],
                 points := 1 },
               { id := 5,
                 piece_type := ChessEngine.PieceType.Pawn,
                 color := ChessEngine.PieceColor.White,
                 location := { rank := 2, file := "f" },
                 captured := false,
                 first_move := true,
                 promoted := false,
                 original_piece_type := none,
                 valid_moves := [],
                 valid_captures := [],
                 points := 1 },
               { id := 6,
                 piece_type := ChessEngine.PieceType.Pawn,
                 color := ChessEngine.PieceColor.White,
                 location := { rank := 2, file := "g" },
                 captured := false,
                 first_move := true,
                 promoted := false,
                 original_piece_type := none,
                 valid_moves := [{ rank := 3, file := "g" }, { rank := 4, file := "g" }],
                 valid_captures := [],
                 points := 1 },
               { id := 7,
                 piece_type := ChessEngine.PieceType.Pawn,
                 color := ChessEngine.PieceColor.White,
                 location := { rank := 2, file := "h" },
                 captured := false,
                 first_move := true,
                 promoted := false,
                 original_piece_type := none,
                 valid_moves := [{ rank := 3, file := "h" }, { rank := 4, file := "h" }],
                 valid_captures := [],
                 points := 1 },
               { id := 8,
                 piece_type := ChessEngine.PieceType.Rook,
                 color := ChessEngine.PieceColor.White,
                 location := { rank := 1, file := "a" },
                 captured := false,
                 first_move := true,
                 promoted := false,
                 original_piece_type := none,
                 valid_moves := [],
                 valid_captures := [],
                 points := 5 },
               { id := 9,
                 piece_type := ChessEngine.PieceType.Rook,
                 color := ChessEngine.PieceColor.White,
                 location := { rank := 1, file := "h" },
                 captured := false,
                 first_move := true,
                 promoted := false,
                 original_piece_type := none,
                 valid_moves := [{ rank := 1, file := "g" }, { rank := 1, file := "f" }],
                 valid_captures := [],
                 points := 5 },
               { id := 10,
                 piece_type := ChessEngine.PieceType.Knight,
                 color := ChessEngine.PieceColor.White,
                 location := { rank := 1, file := "b" },
                 captured := false,
                 first_move := true,
                 promoted := false,
                 original_piece_type := none,
                 valid_moves := [{ rank := 3, file := "c" }, { rank := 3, file := "a" }],
                 valid_captures := [],
                 points := 3 },
               { id := 11,
                 piece_type := ChessEngine.PieceType.Knight,
                 color := ChessEngine.PieceColor.White,
                 location := { rank := 3, file := "f" },
                 captured := false,
                 first_move := false,
                 promoted := false,
                 original_piece_type := none,
                 valid_moves := [{ rank := 4, file := "h" },
                                 { rank := 1, file := "g" },
                                 { rank := 4, file := "d" },
                                 { rank := 5, file := "g" },
                                 { rank := 5, file := "e" }],
                 valid_captures := [],
                 points := 3 },
               { id := 12,
                 piece_type := ChessEngine.PieceType.Bishop,
                 color := ChessEngine.PieceColor.White,
                 location := { rank := 1, file := "c" },
                 captured := false,
                 first_move := true,
                 promoted := false,
                 original_piece_type := none,
                 valid_moves := [],
                 valid_captures := [],
                 points := 3 },
               { id := 13,
                 piece_type := ChessEngine.PieceType.Bishop,
                 color := ChessEngine.PieceColor.White,
                 location := { rank := 4, file := "c" },
                 captured := false,
                 first_move := false,
                 promoted := false,
                 original_piece_type := none,
                 valid_moves := [{ rank := 5, file := "d" },
                                 { rank := 6, file := "e" },
                                 { rank := 3, file := "d" },
                                 { rank := 2, file := "e" },
                                 { rank := 1, file := "f" },
                                 { rank := 5, file := "b" },
                                 { rank := 6, file := "a" },
                                 { rank := 3, file := "b" }],
                 valid_captures := [{ rank := 7, file := "f" }],
                 points := 3 },
               { id := 14,
                 piece_type := ChessEngine.PieceType.Queen,
                 color := ChessEngine.PieceColor.White,
                 location := { rank := 1, file := "d" },
                 captured := false,
                 first_move := true,
                 promoted := false,
                 original_piece_type := none,
                 valid_moves := [{ rank := 2, file := "e" }],
                 valid_captures := [],
                 points := 9 },
               { id := 15,
                 piece_type := ChessEngine.PieceType.King,
                 color := ChessEngine.PieceColor.White,
                 location := { rank := 1, file := "e" },
                 captured := false,
                 first_move := true,
                 promoted := false,
                 original_piece_type := none,
                 valid_moves := [{ rank := 1, file := "f" },
                                 { rank := 2, file := "e" },
                                 { rank := 1, file := "g" }],
                 valid_captures := [],
                 points := 0 },
               { id := 16,
                 piece_type := ChessEngine.PieceType.Pawn,
                 color := ChessEngine.PieceColor.Black,
                 location := { rank := 5, file := "a" },
                 captured := false,
                 first_move := false,
                 promoted := false,
                 original_piece_type := none,
                 valid_moves := [{ rank := 4, file := "a" }],
                 valid_captures := [],
                 points := 1 },
               { id := 17,
                 piece_type := ChessEngine.PieceType.Pawn,
                 color := ChessEngine.PieceColor.Black,
                 location := { rank := 7, file := "b" },
                 captured := false,
                 first_move := true,
                 promoted := false,
                 original_piece_type := none,
                 valid_moves := [{ rank := 6, file := "b" }, { rank := 5, file := "b" }],
                 valid_captures := [],
                 points := 1 },
               { id := 18,
                 piece_type := ChessEngine.PieceType.Pawn,
                 color := ChessEngine.PieceColor.Black,
                 location := { rank := 7, file := "c" },
                 captured := false,
                 first_move := true,
                 promoted := false,
                 original_piece_type := none,
                 valid_moves := [{ rank := 6, file := "c" }, { rank := 5, file := "c" }],
                 valid_captures := [],
                 points := 1 },
               { id := 19,
                 piece_type := ChessEngine.PieceType.Pawn,
                 color := ChessEngine.PieceColor.Black,
                 location := { rank := 7, file := "d" },
                 captured := false,
                 first_move := true,
                 promoted := false,
                 original_piece_type := none,
                 valid_moves := [{ rank := 6, file := "d" }, { rank := 5, file := "d" }],
                 valid_captures := [],
                 points := 1 },
               { id := 20,
                 piece_type := ChessEngine.PieceType.Pawn,
                 color := ChessEngine.PieceColor.Black,
                 location := { rank := 7, file := "e" },
                 captured := false,
                 first_move := true,
                 promoted := false,
                 original_piece_type := none,
                 valid_moves := [{ rank := 6, file := "e" }, { rank := 5, file := "e" }],
                 valid_captures := [],
                 points := 1 },
               { id := 21,
                 piece_type := ChessEngine.PieceType.Pawn,
                 color := ChessEngine.PieceColor.Black,
                 location := { rank := 7, file := "f" },
                 captured := false,
                 first_move := true,
                 promoted := false,
                 original_piece_type := none,
                 valid_moves := [{ rank := 6, file := "f" }, { rank := 5, file := "f" }],
                 valid_captures := [],
                 points := 1 },
               { id := 22,
                 piece_type := ChessEngine.PieceType.Pawn,
                 color := ChessEngine.PieceColor.Black,
                 location := { rank := 7, file := "g" },
                 captured := false,
                 first_move := true,
                 promoted := false,
                 original_piece_type := none,
                 valid_moves := [{ rank := 6, file := "g" }, { rank := 5, file := "g" }],
                 valid_captures := [],
                 points := 1 },
               { id := 23,
                 piece_type := ChessEngine.PieceType.Pawn,
                 color := ChessEngine.PieceColor.Black,
                 location := { rank := 7, file := "h" },
                 captured := false,
                 first_move := true,
                 promoted := false,
                 original_piece_type := none,
                 valid_moves := [{ rank := 6, file := "h" }, { rank := 5, file := "h" }],
                 valid_captures := [],
                 points := 1 },
               { id := 24,
                 piece_type := ChessEngine.PieceType.Rook,
                 color := ChessEngine.PieceColor.Black,
                 location := { rank := 8, file := "a" },
                 captured := false,
                 first_move := true,
                 promoted := false,
                 original_piece_type := none,
                 valid_moves := [{ rank := 7, file := "a" }, { rank := 6, file := "a" }],
                 valid_captures := [],
                 points := 5 },
               { id := 25,
                 piece_type := ChessEngine.PieceType.Rook,
                 color := ChessEngine.PieceColor.Black,
                 location := { rank := 8, file := "h" },
                 captured := false,
                 first_move := true,
                 promoted := false,
                 original_piece_type := none,
                 valid_moves := [],
                 valid_captures := [],
                 points := 5 },
               { id := 26,
                 piece_type := ChessEngine.PieceType.Knight,
                 color := ChessEngine.PieceColor.Black,
                 location := { rank := 8, file := "b" },
                 captured := false,
                 first_move := true,
                 promoted := false,
                 original_piece_type := none,
                 valid_moves := [{ rank := 6, file := "c" }, { rank := 6, file := "a" }],
                 valid_captures := [],
                 points := 3 },
               { id := 27,
                 piece_type := ChessEngine.PieceType.Knight,
                 color := ChessEngine.PieceColor.Black,
                 location := { rank := 8, file := "g" },
                 captured := false,
                 first_move := true,
                 promoted := false,
                 original_piece_type := none,
                 valid_moves := [{ rank := 6, file := "h" }, { rank := 6, file := "f" }],
                 valid_captures := [],
                 points := 3 },
               { id := 28,
                 piece_type := ChessEngine.PieceType.Bishop,
                 color := ChessEngine.PieceColor.Black,
                 location := { rank := 8, file := "c" },
                 captured := false,
                 first_move := true,
                 promoted := false,
                 original_piece_type := none,
                 valid_moves := [],
                 valid_captures := [],
                 points := 3 },
               { id := 29,
                 piece_type := ChessEngine.PieceType.Bishop,
                 color := ChessEngine.PieceColor.Black,
                 location := { rank := 8, file := "f" },
                 captured := false,
                 first_move := true,
                 promoted := false,
                 original_piece_type := none,
                 valid_moves := [],
                 valid_captures := [],
                 points := 3 },
               { id := 30,
                 piece_type := ChessEngine.PieceType.Queen,
                 color := ChessEngine.PieceColor.Black,
                 location := { rank := 8, file := "d" },
                 captured := false,
                 first_move := true,
                 promoted := false,
                 original_piece_type := none,
                 valid_moves := [],
                 valid_captures := [],
                 points := 9 },
               { id := 31,
                 piece_type := ChessEngine.PieceType.King,
                 color := ChessEngine.PieceColor.Black,
                 location := { rank := 8, file := "e" },
                 captured := false,
                 first_move := true,
                 promoted := false,
                 original_piece_type := none,
                 valid_moves := [],
                 valid_captures := [],
                 points := 0 }],
    white_king_state := ChessEngine.KingState.NotInCheck,
    black_king_state := ChessEngine.KingState.InStaleMate,
    white_king_castle := [{ king_id := 15,
                            king_target_location := { rank := 1, file := "g" },
                            rook_id := 9,
                            rook_target_location := { rank := 1, file := "f" },
                            side := ChessEngine.CastleSide.KingSide }],
    black_king_castle := [],
    movement_log := [{ id := 0,
                       time_span := 0,
                       player_id := 100,
                       notation_text := "e4",
                       piece_id := 4,
                       start_location := { rank := 2, file := "e" },
                       end_location := { rank := 4, file := "e" },
                       piece_captured := false,
                       captured_piece_id := none,
                       opponent_king_in_check := false,
                       opponent_king_in_checkmate := false,
                       castled_king_side := false,
                       castled_queen_side := false },
                     { id := 0,
                       time_span := 0,
                       player_id := 200,
                       notation_text := "a6",
                       piece_id := 16,
                       start_location := { rank := 7, file := "a" },
                       end_location := { rank := 6, file := "a" },
                       piece_captured := false,
                       captured_piece_id := none,
                       opponent_king_in_check := false,
                       opponent_king_in_checkmate := false,
                       castled_king_side := false,
                       castled_queen_side := false },
                     { id := 0,
                       time_span := 0,
                       player_id := 100,
                       notation_text := "♗c4",
                       piece_id := 13,
                       start_location := { rank := 1, file := "f" },
                       end_location := { rank := 4, file := "c" },
                       piece_captured := false,
                       captured_piece_id := none,
                       opponent_king_in_check := false,
                       opponent_king_in_checkmate := false,
                       castled_king_side := false,
                       castled_queen_side := false },
                     { id := 0,
                       time_span := 0,
                       player_id := 200,
                       notation_text := "a5",
                       piece_id := 16,
                       start_location := { rank := 6, file := "a" },
                       end_location := { rank := 5, file := "a" },
                       piece_captured := false,
                       captured_piece_id := none,
                       opponent_king_in_check := false,
                       opponent_king_in_checkmate := false,
                       castled_king_side := false,
                       castled_queen_side := false },
                     { id := 0,
                       time_span := 0,
                       player_id := 100,
                       notation_text := "♘f3",
                       piece_id := 11,
                       start_location := { rank := 1, file := "g" },
                       end_location := { rank := 3, file := "f" },
                       piece_captured := false,
                       captured_piece_id := none,
                       opponent_king_in_check := false,
                       opponent_king_in_checkmate := false,
                       castled_king_side := false,
                       castled_queen_side := false }] }

def mC4f : ChessMatch :=
  { id := 0,
    white_player := 100,
    black_player := 200,
    status := 0,
    result := 0,
    winner := none,
    current_turn := 0,
    pieces := [{ id := 0,
                 piece_type := ChessEngine.PieceType.Pawn,
                 color := ChessEngine.PieceColor.White,
                 location := { rank := 2, file := "a" },
                 captured := false,
                 first_move := true,
                 promoted := false,
                 original_piece_type := none,
                 valid_moves := [{ rank := 3, file := "a" }],
                 valid_captures := [],
                 points := 1 },
               { id := 1,
                 piece_type := ChessEngine.PieceType.Pawn,
                 color := ChessEngine.PieceColor.White,
                 location := { rank := 2, file := "b" },
                 captured := false,
                 first_move := true,
                 promoted := false,
                 original_piece_type := none,
                 valid_moves := [{ rank := 3, file := "b" }, { rank := 4, file := "b" }],
                 valid_captures := [],
                 points := 1 },
               { id := 2,
                 piece_type := ChessEngine.PieceType.Pawn,
                 color := ChessEngine.PieceColor.White,
                 location := { rank := 2, file := "c" },
                 captured := false,
                 first_move := true,
                 promoted := false,
                 original_piece_type := none,
                 valid_moves := [{ rank := 3, file := "c" }],
                 valid_captures := [],
                 points := 1 },
               { id := 3,
                 piece_type := ChessEngine.PieceType.Pawn,
                 color := ChessEngine.PieceColor.White,
                 location := { rank := 2, file := "d" },
                 captured := false,
                 first_move := true,
                 promoted := false,
                 original_piece_type := none,
                 valid_moves := [{ rank := 3, file := "d" }, { rank := 4, file := "d" }],
                 valid_captures := [],
                 points := 1 },
               { id := 4,
                 piece_type := ChessEngine.PieceType.Pawn,
                 color := ChessEngine.PieceColor.White,
                 location := { rank := 4, file := "e" },
                 captured := false,
                 first_move := false,
                 promoted := false,
                 original_piece_type := none,
                 valid_moves := [{ rank := 5, file := "e" }],
                 valid_captures := [],
                 points := 1 },
               { id := 5,
                 piece_type := ChessEngine.PieceType.Pawn,
                 color := ChessEngine.PieceColor.White,
                 location := { rank := 2, file := "f" },
                 captured := false,
                 first_move := true,
                 promoted := false,
                 original_piece_type := none,
                 valid_moves := [],
                 valid_captures := [],
                 points := 1 },
               { id := 6,
                 piece_type := ChessEngine.PieceType.Pawn,
                 color := ChessEngine.PieceColor.White,
                 location := { rank := 2, file := "g" },
                 captured := false,
                 first_move := true,
                 promoted := false,
                 original_piece_type := none,
                 valid_moves := [{ rank := 3, file := "g" }, { rank := 4, file := "g" }],
                 valid_captures := [],
                 points := 1 },
               { id := 7,
                 piece_type := ChessEngine.PieceType.Pawn,
                 color := ChessEngine.PieceColor.White,
                 location := { rank := 2, file := "h" },
                 captured := false,
                 first_move := true,
                 promoted := false,
                 original_piece_type := none,
                 valid_moves := [{ rank := 3, file := "h" }, { rank := 4, file := "h" }],
                 valid_captures := [],
                 points := 1 },
               { id := 8,
                 piece_type := ChessEngine.PieceType.Rook,
                 color := ChessEngine.PieceColor.White,
                 location := { rank := 1, file := "a" },
                 captured := false,
                 first_move := true,
                 promoted := false,
                 original_piece_type := none,
                 valid_moves := [],
                 valid_captures := [],
                 points := 5 },
               { id := 9,
                 piece_type := ChessEngine.PieceType.Rook,
                 color := ChessEngine.PieceColor.White,
                 location := { rank := 1, file := "h" },
                 captured := false,
                 first_move := true,
                 promoted := false,
                 original_piece_type := none,
                 valid_moves := [{ rank := 1, file := "g" }, { rank := 1, file := "f" }],
                 valid_captures := [],
                 points := 5 },
               { id := 10,
                 piece_type := ChessEngine.PieceType.Knight,
                 color := ChessEngine.PieceColor.White,
                 location := { rank := 1, file := "b" },
                 captured := false,
                 first_move := true,
                 promoted := false,
                 original_piece_type := none,
                 valid_moves := [{ rank := 3, file := "c" }, { rank := 3, file := "a" }],
                 valid_captures := [],
                 points := 3 },
               { id := 11,
                 piece_type := ChessEngine.PieceType.Knight,
                 color := ChessEngine.PieceColor.White,
                 location := { rank := 3, file := "f" },
                 captured := false,
                 first_move := false,
                 promoted := false,
                 original_piece_type := none,
                 valid_moves := [{ rank := 4, file := "h" },
                                 { rank := 1, file := "g" },
                                 { rank := 4, file := "d" },
                                 { rank := 5, file := "g" },
                                 { rank := 5, file := "e" }],
                 valid_captures := [],
                 points := 3 },
               { id := 12,
                 piece_type := ChessEngine.PieceType.Bishop,
                 color := ChessEngine.PieceColor.White,
                 location := { rank := 1, file := "c" },
                 captured := false,
                 first_move := true,
                 promoted := false,
                 original_piece_type := none,
                 valid_moves := [],
                 valid_captures := [],
                 points := 3 },
               { id := 13,
                 piece_type := ChessEngine.PieceType.Bishop,
                 color := ChessEngine.PieceColor.White,
                 location := { rank := 4, file := "c" },
                 captured := false,
                 first_move := false,
                 promoted := false,
                 original_piece_type := none,
                 valid_moves := [{ rank := 5, file := "d" },
                                 { rank := 6, file := "e" },
                                 { rank := 3, file := "d" },
                                 { rank := 2, file := "e" },
                                 { rank := 1, file := "f" },
                                 { rank := 5, file := "b" },
                                 { rank := 6, file := "a" },
                                 { rank := 3, file := "b" }],
                 valid_captures := [{ rank := 7, file := "f" }],
                 points := 3 },
               { id := 14,
                 piece_type := ChessEngine.PieceType.Queen,
                 color := ChessEngine.PieceColor.White,
                 location := { rank := 1, file := "d" },
                 captured := false,
                 first_move := true,
                 promoted := false,
                 original_piece_type := none,
                 valid_moves := [{ rank := 2, file := "e" }],
                 valid_captures := [],
                 points := 9 },
               { id := 15,
                 piece_type := ChessEngine.PieceType.King,
                 color := ChessEngine.PieceColor.White,
                 location := { rank := 1, file := "e" },
                 captured := false,
                 first_move := true,
                 promoted := false,
                 original_piece_type := none,
                 valid_moves := [{ rank := 1, file := "f" },
                                 { rank := 2, file := "e" },
                                 { rank := 1, file := "g" }],
                 valid_captures := [],
                 points := 0 },
               { id := 16,
                 piece_type := ChessEngine.PieceType.Pawn,
                 color := ChessEngine.PieceColor.Black,
                 location := { rank := 4, file := "a" },
                 captured := false,
                 first_move := false,
                 promoted := false,
                 original_piece_type := none,
                 valid_moves := [{ rank := 3, file := "a" }],
                 valid_captures := [],
                 points := 1 },
               { id := 17,
                 piece_type := ChessEngine.PieceType.Pawn,
                 color := ChessEngine.PieceColor.Black,
                 location := { rank := 7, file := "b" },
                 captured := false,
                 first_move := true,
                 promoted := false,
                 original_piece_type := none,
                 valid_moves := [{ rank := 6, file := "b" }, { rank := 5, file := "b" }],
                 valid_captures := [],
                 points := 1 },
               { id := 18,
                 piece_type := ChessEngine.PieceType.Pawn,
                 color := ChessEngine.PieceColor.Black,
                 location := { rank := 7, file := "c" },
                 captured := false,
                 first_move := true,
                 promoted := false,
                 original_piece_type := none,
                 valid_moves := [{ rank := 6, file := "c" }, { rank := 5, file := "c" }],
                 valid_captures := [],
                 points := 1 },
               { id := 19,
                 piece_type := ChessEngine.PieceType.Pawn,
                 color := ChessEngine.PieceColor.Black,
                 location := { rank := 7, file := "d" },
                 captured := false,
                 first_move := true,
                 promoted := false,
                 original_piece_type := none,
                 valid_moves := [{ rank := 6, file := "d" }, { rank := 5, file := "d" }],
                 valid_captures := [],
                 points := 1 },
               { id := 20,
                 piece_type := ChessEngine.PieceType.Pawn,
                 color := ChessEngine.PieceColor.Black,
                 location := { rank := 7, file := "e" },
                 captured := false,
                 first_move := true,
                 promoted := false,
                 original_piece_type := none,
                 valid_moves := [{ rank := 6, file := "e" }, { rank := 5, file := "e" }],
                 valid_captures := [],
                 points := 1 },
               { id := 21,
                 piece_type := ChessEngine.PieceType.Pawn,
                 color := ChessEngine.PieceColor.Black,
                 location := { rank := 7, file := "f" },
                 captured := false,
                 first_move := true,
                 promoted := false,
                 original_piece_type := none,
                 valid_moves := [{ rank := 6, file := "f" }, { rank := 5, file := "f" }],
                 valid_captures := [],
                 points := 1 },
               { id := 22,
                 piece_type := ChessEngine.PieceType.Pawn,
                 color := ChessEngine.PieceColor.Black,
                 location := { rank := 7, file := "g" },
                 captured := false,
                 first_move := true,
                 promoted := false,
                 original_piece_type := none,
                 valid_moves := [{ rank := 6, file := "g" }, { rank := 5, file := "g" }],
                 valid_captures := [],
                 points := 1 },
               { id := 23,
                 piece_type := ChessEngine.PieceType.Pawn,
                 color := ChessEngine.PieceColor.Black,
                 location := { rank := 7, file := "h" },
                 captured := false,
                 first_move := true,
                 promoted := false,
                 original_piece_type := none,
                 valid_moves := [{ rank := 6, file := "h" }, { rank := 5, file := "h" }],
                 valid_captures := [],
                 points := 1 },
               { id := 24,
                 piece_type := ChessEngine.PieceType.Rook,
                 color := ChessEngine.PieceColor.Black,
                 location := { rank := 8, file := "a" },
                 captured := false,
                 first_move := true,
                 promoted := false,
                 original_piece_type := none,
                 valid_moves := [{ rank := 7, file := "a" },
                                 { rank := 6, file := "a" },
                                 { rank := 5, file := "a" }],
                 valid_captures := [],
                 points := 5 },
               { id := 25,
                 piece_type := ChessEngine.PieceType.Rook,
                 color := ChessEngine.PieceColor.Black,
                 location := { rank := 8, file := "h" },
                 captured := false,
                 first_move := true,
                 promoted := false,
                 original_piece_type := none,
                 valid_moves := [],
                 valid_captures := [],
                 points := 5 },
               { id := 26,
                 piece_type := ChessEngine.PieceType.Knight,
                 color := ChessEngine.PieceColor.Black,
                 location := { rank := 8, file := "b" },
                 captured := false,
                 first_move := true,
                 promoted := false,
                 original_piece_type := none,
                 valid_moves := [{ rank := 6, file := "c" }, { rank := 6, file := "a" }],
                 valid_captures := [],
                 points := 3 },
               { id := 27,
                 piece_type := ChessEngine.PieceType.Knight,
                 color := ChessEngine.PieceColor.Black,
                 location := { rank := 8, file := "g" },
                 captured := false,
                 first_move := true,
                 promoted := false,
                 original_piece_type := none,
                 valid_moves := [{ rank := 6, file := "h" }, { rank := 6, file := "f" }],
                 valid_captures := [],
                 points := 3 },
               { id := 28,
                 piece_type := ChessEngine.PieceType.Bishop,
                 color := ChessEngine.PieceColor.Black,
                 location := { rank := 8, file := "c" },
                 captured := false,
                 first_move := true,
                 promoted := false,
                 original_piece_type := none,
                 valid_moves := [],
                 valid_captures := [],
                 points := 3 },
               { id := 29,
                 piece_type := ChessEngine.PieceType.Bishop,
                 color := ChessEngine.PieceColor.Black,
                 location := { rank := 8, file := "f" },
                 captured := false,
                 first_move := true,
                 promoted := false,
                 original_piece_type := none,
                 valid_moves := [],
                 valid_captures := [],
                 points := 3 },
               { id := 30,
                 piece_type := ChessEngine.PieceType.Queen,
                 color := ChessEngine.PieceColor.Black,
                 location := { rank := 8, file := "d" },
                 captured := false,
                 first_move := true,
                 promoted := false,
                 original_piece_type := none,
                 valid_moves := [],
                 valid_captures := [],
                 points := 9 },
               { id := 31,
                 piece_type := ChessEngine.PieceType.King,
                 color := ChessEngine.PieceColor.Black,
                 location := { rank := 8, file := "e" },
                 captured := false,
                 first_move := true,
                 promoted := false,
                 original_piece_type := none,
                 valid_moves := [],
                 valid_captures := [],
                 points := 0 }],
    white_king_state := ChessEngine.KingState.NotInCheck,
    black_king_state := ChessEngine.KingState.InStaleMate,
    white_king_castle := [{ king_id := 15,
                            king_target_location := { rank := 1, file := "g" },
                            rook_id := 9,
                            rook_target_location := { rank := 1, file := "f" },
                            side := ChessEngine.CastleSide.KingSide },
                          { king_id := 15,
                            king_target_location := { rank := 1, file := "g" },
                            rook_id := 9,
                            rook_target_location := { rank := 1, file := "f" },
                            side := ChessEngine.CastleSide.KingSide }],
    black_king_castle := [],
    movement_log := [{ id := 0,
                       time_span := 0,
                       player_id := 100,
                       notation_text := "e4",
                       piece_id := 4,
                       start_location := { rank := 2, file := "e" },
                       end_location := { rank := 4, file := "e" },
                       piece_captured := false,
                       captured_piece_id := none,
                       opponent_king_in_check := false,
                       opponent_king_in_checkmate := false,
                       castled_king_side := false,
                       castled_queen_side := false },
                     { id := 0,
                       time_span := 0,
                       player_id := 200,
                       notation_text := "a6",
                       piece_id := 16,
                       start_location := { rank := 7, file := "a" },
                       end_location := { rank := 6, file := "a" },
                       piece_captured := false,
                       captured_piece_id := none,
                       opponent_king_in_check := false,
                       opponent_king_in_checkmate := false,
                       castled_king_side := false,
                       castled_queen_side := false },
                     { id := 0,
                       time_span := 0,
                       player_id := 100,
                       notation_text := "♗c4",
                       piece_id := 13,
                       start_location := { rank := 1, file := "f" },
                       end_location := { rank := 4, file := "c" },
                       piece_captured := false,
                       captured_piece_id := none,
                       opponent_king_in_check := false,
                       opponent_king_in_checkmate := false,
                       castled_king_side := false,
                       castled_queen_side := false },
                     { id := 0,
                       time_span := 0,
                       player_id := 200,
                       notation_text := "a5",
                       piece_id := 16,
                       start_location := { rank := 6, file := "a" },
                       end_location := { rank := 5, file := "a" },
                       piece_captured := false,
                       captured_piece_id := none,
                       opponent_king_in_check := false,
                       opponent_king_in_checkmate := false,
                       castled_king_side := false,
                       castled_queen_side := false },
                     { id := 0,
                       time_span := 0,
                       player_id := 100,
                       notation_text := "♘f3",
                       piece_id := 11,
                       start_location := { rank := 1, file := "g" },
                       end_location := { rank := 3, file := "f" },
                       piece_captured := false,
                       captured_piece_id := none,
                       opponent_king_in_check := false,
                       opponent_king_in_checkmate := false,
                       castled_king_side := false,
                       castled_queen_side := false },
                     { id := 0,
                       time_span := 0,
                       player_id := 200,
                       notation_text := "a4",
                       piece_id := 16,
                       start_location := { rank := 5, file := "a" },
                       end_location := { rank := 4, file := "a" },
                       piece_captured := false,
                       captured_piece_id := none,
                       opponent_king_in_check := false,
                       opponent_king_in_checkmate := false,
                       castled_king_side := false,
                       castled_queen_side := false }] }

/-! # Theorems

First the step lemmas certifying the snapshot states, then one theorem per
claim. -/

set_option maxHeartbeats 4000000 in
theorem mInit_eval : (ChessMatch.new 100 200).calculate_valid_moves = mInit := by rfl

set_option maxHeartbeats 4000000 in
theorem step_e2e4 : mInit.move_piece 4 (PieceLocation.new "e" 4) = some mE4 := by rfl

set_option maxHeartbeats 4000000 in
theorem step_e7e5 : mE4.move_piece 20 (PieceLocation.new "e" 5) = some mC1b := by rfl

set_option maxHeartbeats 4000000 in
theorem step_qh5 : mC1b.move_piece 14 (PieceLocation.new "h" 5) = some mC1c := by rfl

set_option maxHeartbeats 4000000 in
theorem step_a7a6 : mE4.move_piece 16 (PieceLocation.new "a" 6) = some mC4b := by rfl

set_option maxHeartbeats 4000000 in
theorem step_bc4 : mC4b.move_piece 13 (PieceLocation.new "c" 4) = some mC4c := by rfl

set_option maxHeartbeats 4000000 in
theorem step_a6a5 : mC4c.move_piece 16 (PieceLocation.new "a" 5) = some mC4d := by rfl

set_option maxHeartbeats 4000000 in
theorem step_nf3 : mC4d.move_piece 11 (PieceLocation.new "f" 3) = some mC4e := by rfl

set_option maxHeartbeats 4000000 in
theorem step_a5a4 : mC4e.move_piece 16 (PieceLocation.new "a" 4) = some mC4f := by rfl

theorem applyMoves_cons (m m' : ChessMatch) (r : Nat × PieceLocation)
    (rest : List (Nat × PieceLocation)) (h : m.move_piece r.1 r.2 = some m') :
    applyMoves m (r :: rest) = applyMoves m' rest := by
  simp only [applyMoves, h]

/-- C10: for every piece, match state, direction and starting square,
`walk_direction` with `num_steps = Some(1)` and `current_step = None`
returns with the piece — in particular both of its caches — exactly as it
was: the step limit is hit before the first square is classified. -/
theorem c10_walk_direction_one_step_noop (fuel : Nat) (self : ChessPiece)
    (direction : MoveDirection) (location : PieceLocation) (chess_match : ChessMatch) :
    self.walk_direction fuel direction (some location) chess_match (some 1) none = self := by
  cases fuel <;> rfl

/-- C3: the claim fails on the code.  In `c3Match` the White knight's
capture cache holds g8, yet `location_is_being_attacked g8 Black` is false;
and although no White piece's cache holds d4, `location_is_being_attacked
d4 Black` is true because the Black rook's own cache holds d4 — for a Black
defender the source examines Black's own pieces instead of White's. -/
theorem c3_attack_test_examines_wrong_color_for_black :
    c3Match.location_is_being_attacked (PieceLocation.new "g" 8) PieceColor.Black = false
    ∧ (c3Match.get_player_pieces_in_play PieceColor.White).any
        (fun p => p.valid_captures.contains (PieceLocation.new "g" 8)) = true
    ∧ c3Match.location_is_being_attacked (PieceLocation.new "d" 4) PieceColor.Black = true
    ∧ (c3Match.get_player_pieces_in_play PieceColor.White).any
        (fun p => p.valid_captures.contains (PieceLocation.new "d" 4)) = false :=
  ⟨rfl, rfl, rfl, rfl⟩

/-- C5: the claim fails on the code.  In `c5Match` the Black king's
king-side castle is recorded (and f8, g8 added to its move cache) even
though g8 — a square the king traverses — is attacked by the opponent: the
White knight's capture cache holds g8.  The attack guard asks whether
*Black's own* pieces attack f8/g8, so the White attack never blocks it. -/
theorem c5_castle_recorded_through_attacked_square :
    (calculate_king_can_castle c5King c5Match).2.black_king_castle =
      [{ king_id := 1
         king_target_location := PieceLocation.new "g" 8
         rook_id := 2
         rook_target_location := PieceLocation.new "f" 8
         side := CastleSide.KingSide }]
    ∧ (calculate_king_can_castle c5King c5Match).1.valid_moves =
        [PieceLocation.new "f" 8, PieceLocation.new "g" 8]
    ∧ (c5Match.get_player_pieces_in_play PieceColor.White).any
        (fun p => p.valid_captures.contains (PieceLocation.new "g" 8)) = true :=
  ⟨rfl, rfl, rfl⟩

set_option maxHeartbeats 4000000 in
/-- C1: the claim fails on the code.  The position `mC1c` is reached from a
fresh match by the applied moves e2–e4, e7–e5, Qd1–h5.  After its resolution
cycle the Black f7 pawn's legal-move cache still contains f6, yet applying
f7–f6 to a copy and recomputing raw legality leaves the Black king
capturable (the White queen's h5–e8 diagonal opens): the self-check filter
of the spec never runs — its call in the resolver is commented out. -/
theorem c1_cached_move_not_self_check_safe :
    applyMoves ((ChessMatch.new 100 200).calculate_valid_moves)
      [(4, PieceLocation.new "e" 4), (20, PieceLocation.new "e" 5),
        (14, PieceLocation.new "h" 5)] = some mC1c
    ∧ ((mC1c.get_piece_by_id_copy 21).map
        (fun p => p.valid_moves.contains (PieceLocation.new "f" 6))) = some true
    ∧ ((mC1c.get_piece_by_id_copy 21).map
        (fun p => king_capturable (simulate_move mC1c p (PieceLocation.new "f" 6))
          PieceColor.Black)) = some true := by
  refine ⟨?_, rfl, ?_⟩
  · rw [mInit_eval, applyMoves_cons _ _ _ _ step_e2e4, applyMoves_cons _ _ _ _ step_e7e5,
      applyMoves_cons _ _ _ _ step_qh5]
    rfl
  · rfl

set_option maxHeartbeats 4000000 in
/-- C2: the claim fails on the code.  `mInit` is a fresh match after its
initial resolution; destination a5 is in neither cache of the a2 pawn
(id 0), yet `move_piece` reports no error (it has no error path at all),
and while it indeed moves and captures nothing, it still flips the turn
indicator to Black and appends a movement-log entry. -/
theorem c2_illegal_destination_still_flips_turn_and_logs :
    (ChessMatch.new 100 200).calculate_valid_moves = mInit
    ∧ ((mInit.get_piece_by_id_copy 0).map
        (fun p => (p.valid_moves.contains (PieceLocation.new "a" 5),
          p.valid_captures.contains (PieceLocation.new "a" 5)))) = some (false, false)
    ∧ mInit.current_turn = 0
    ∧ mInit.movement_log.length = 0
    ∧ ((mInit.move_piece 0 (PieceLocation.new "a" 5)).map
        (fun m => (decide (m.pieces.map (fun p => (p.id, p.location, p.captured))
            = mInit.pieces.map (fun p => (p.id, p.location, p.captured))),
          m.current_turn, m.movement_log.length))) = some (true, 1, 1) := by
  refine ⟨mInit_eval, rfl, rfl, rfl, ?_⟩
  rfl

set_option maxHeartbeats 4000000 in
/-- C4: the claim fails on the code.  Along the applied moves e2–e4, a7–a6,
Bf1–c4, a6–a5, Ng1–f3, a5–a4 from a fresh match, the cycle after the fifth
ply produces White's king-side castle record (state `mC4e`), and the cycle
after the sixth ply produces it again without ever discarding the old one:
`mC4f` carries two copies, the first generated by an earlier cycle — the
per-color castle-record lists are never cleared. -/
theorem c4_castle_records_accumulate_across_cycles :
    applyMoves ((ChessMatch.new 100 200).calculate_valid_moves)
      [(4, PieceLocation.new "e" 4), (16, PieceLocation.new "a" 6),
        (13, PieceLocation.new "c" 4), (16, PieceLocation.new "a" 5),
        (11, PieceLocation.new "f" 3), (16, PieceLocation.new "a" 4)] = some mC4f
    ∧ mC4e.white_king_castle =
        [{ king_id := 15
           king_target_location := PieceLocation.new "g" 1
           rook_id := 9
           rook_target_location := PieceLocation.new "f" 1
           side := CastleSide.KingSide }]
    ∧ mC4f.white_king_castle =
        [{ king_id := 15
           king_target_location := PieceLocation.new "g" 1
           rook_id := 9
           rook_target_location := PieceLocation.new "f" 1
           side := CastleSide.KingSide },
         { king_id := 15
           king_target_location := PieceLocation.new "g" 1
           rook_id := 9
           rook_target_location := PieceLocation.new "f" 1
           side := CastleSide.KingSide }] := by
  refine ⟨?_, rfl, rfl⟩
  rw [mInit_eval, applyMoves_cons _ _ _ _ step_e2e4, applyMoves_cons _ _ _ _ step_a7a6,
    applyMoves_cons _ _ _ _ step_bc4, applyMoves_cons _ _ _ _ step_a6a5,
    applyMoves_cons _ _ _ _ step_nf3, applyMoves_cons _ _ _ _ step_a5a4]
  rfl

theorem exists_mem_of_findIdx?_isSome {α : Type} (p : α → Bool) :
    ∀ (l : List α), (l.findIdx? p).isSome → ∃ a, a ∈ l ∧ p a = true := by
  intro l
  induction l with
  | nil => simp [List.findIdx?]
  | cons a l ih =>
    intro h
    rw [List.findIdx?_cons] at h
    by_cases hp : p a
    · exact ⟨a, List.mem_cons_self a l, hp⟩
    · simp [hp] at h
      obtain ⟨b, hb, hpb⟩ := ih h
      exact ⟨b, List.mem_cons_of_mem a hb, hpb⟩

/-- C8, counterexample: the claim says coordinate parsing fails with an
error and never crashes on any invalid input, but on `"aa"` — length 2,
file in range, rank character not a digit — `new_from_string` panics (the
`unwrap` on `to_digit(10)`). -/
theorem c8_counterexample_parse_crashes_on_nondigit_rank :
    PieceLocation.new_from_string "aa" = .panicked := by rfl

/-- C8, amended: `new_from_string` errors exactly on length ≠ 2, a digit
rank outside 1–8, or a file letter outside a–h — but it *panics* when the
length is 2 and the rank character is not a decimal digit; successful
parses always carry an in-range file and rank, while the unchecked
constructor `new` performs no validation and happily produces the
out-of-range instance z99. -/
theorem c8_parse_outcome_characterization : ∀ s : String,
    (s.data.length ≠ 2 → PieceLocation.new_from_string s = .err "Invalid length")
    ∧ (∀ c1 c2, s.data = [c1, c2] →
        ((rustToDigit10 c2).isNone → PieceLocation.new_from_string s = .panicked)
        ∧ (∀ r, rustToDigit10 c2 = some r →
            ((r < 1 ∨ r > 8) → PieceLocation.new_from_string s = .err "Rank out of bounds")
            ∧ (¬(r < 1 ∨ r > 8) → (FILES.findIdx? (fun x => x = String.mk [c1])).isNone →
                PieceLocation.new_from_string s = .err "File out of bounds")
            ∧ (¬(r < 1 ∨ r > 8) → ¬(FILES.findIdx? (fun x => x = String.mk [c1])).isNone →
                PieceLocation.new_from_string s = .ok ⟨r, String.mk [c1]⟩)))
    ∧ (∀ loc, PieceLocation.new_from_string s = .ok loc →
        loc.file ∈ FILES ∧ 1 ≤ loc.rank ∧ loc.rank ≤ 8)
    ∧ PieceLocation.new "z" 99 = ⟨99, "z"⟩ := by
  intro s
  obtain ⟨data⟩ := s
  refine ⟨?_, ?_, ?_, rfl⟩
  · intro hlen
    match data, hlen with
    | [], _ => rfl
    | [_], _ => rfl
    | [a, b], h => simp at h
    | _ :: _ :: _ :: _, _ => rfl
  · rintro c1 c2 rfl
    refine ⟨?_, ?_⟩
    · intro hd
      simp only [PieceLocation.new_from_string]
      rw [Option.isNone_iff_eq_none] at hd
      rw [hd]
    · intro r hr
      simp only [PieceLocation.new_from_string, hr]
      refine ⟨?_, ?_, ?_⟩
      · intro hb
        rw [if_pos hb]
      · intro hb hfile
        rw [if_neg hb, if_pos hfile]
      · intro hb hfile
        rw [if_neg hb, if_neg hfile]
  · intro loc hok
    match data, hok with
    | [], hok => simp [PieceLocation.new_from_string] at hok
    | [_], hok => simp [PieceLocation.new_from_string] at hok
    | _ :: _ :: _ :: _ :: _, hok => simp [PieceLocation.new_from_string] at hok
    | [c1, c2], hok =>
      rcases hd : rustToDigit10 c2 with _ | r
      · simp [PieceLocation.new_from_string, hd] at hok
      · simp only [PieceLocation.new_from_string, hd] at hok
        split_ifs at hok with hb hfile
        all_goals cases hok
        refine ⟨?_, show 1 ≤ r by omega, show r ≤ 8 by omega⟩
        rcases hfx : FILES.findIdx? (fun x => x = String.mk [c1]) with _ | i
        · rw [hfx] at hfile; exact absurd rfl hfile
        · obtain ⟨a, ha, hpa⟩ := exists_mem_of_findIdx?_isSome _ FILES (by rw [hfx]; rfl)
          have : a = String.mk [c1] := of_decide_eq_true hpa
          rwa [this] at ha

/-- C8, witness: the characterization applied at the concrete input "a1"
yields the successful parse. -/
theorem c8_parse_outcome_characterization_witness :
    PieceLocation.new_from_string (String.mk ['a', '1']) = .ok ⟨1, "a"⟩ := by
  have h := (c8_parse_outcome_characterization (String.mk ['a', '1'])).2.1 'a' '1' rfl
  exact (h.2 1 (by rfl)).2.2 (by decide) (by decide)

/-- C9: for every in-range coordinate (file a–h, rank 1–8), parsing its
textual rendering round-trips to the same coordinate. -/
theorem c9_render_parse_roundtrip (loc : PieceLocation) (hf : loc.file ∈ FILES)
    (h1 : 1 ≤ loc.rank) (h8 : loc.rank ≤ 8) :
    PieceLocation.new_from_string loc.render = .ok loc := by
  obtain ⟨rank, file⟩ := loc
  simp only [FILES, List.mem_cons, List.not_mem_nil, or_false] at hf
  dsimp only at h1 h8
  interval_cases rank <;> rcases hf with rfl|rfl|rfl|rfl|rfl|rfl|rfl|rfl <;> rfl

/-- C9, witness: the round-trip theorem applied at a1. -/
theorem c9_render_parse_roundtrip_witness :
    PieceLocation.new_from_string (PieceLocation.render ⟨1, "a"⟩) = .ok ⟨1, "a"⟩ :=
  c9_render_parse_roundtrip ⟨1, "a"⟩ (by decide) (by decide) (by decide)



theorem foldl_preserve_proj {β γ δ : Type _} (proj : β → δ) (step : β → γ → β)
    (h : ∀ b c, proj (step b c) = proj b) :
    ∀ (l : List γ) (b : β), proj (l.foldl step b) = proj b := by
  intro l
  induction l with
  | nil => intro b; rfl
  | cons c l ih => intro b; rw [List.foldl_cons, ih, h]

theorem current_turn_update_piece_by_id {m m' : ChessMatch} {i : Nat} {f : ChessPiece → ChessPiece}
    (h : m.update_piece_by_id i f = some m') : m'.current_turn = m.current_turn := by
  unfold ChessMatch.update_piece_by_id at h
  split at h
  · cases h; rfl
  · exact Option.noConfusion h

theorem current_turn_update_piece_by_id_getD (m : ChessMatch) (i : Nat)
    (f : ChessPiece → ChessPiece) :
    ((m.update_piece_by_id i f).getD m).current_turn = m.current_turn := by
  rcases h : m.update_piece_by_id i f with _ | m'
  · rfl
  · simpa using current_turn_update_piece_by_id h

theorem current_turn_add_valid_castle (piece : ChessPiece) (a b : PieceLocation)
    (rook : ChessPiece) (color : PieceColor) (cm : ChessMatch) :
    (add_valid_castle piece a b rook color cm).2.current_turn = cm.current_turn := by
  unfold add_valid_castle
  cases color <;> rfl

theorem current_turn_castle_rook_step (acc : ChessPiece × ChessMatch) (rook : ChessPiece) :
    (castle_rook_step acc rook).2.current_turn = acc.2.current_turn := by
  obtain ⟨piece, cm⟩ := acc
  unfold castle_rook_step
  dsimp only
  split_ifs <;> first | rfl | apply current_turn_add_valid_castle

theorem current_turn_king_can_castle (piece : ChessPiece) (cm : ChessMatch) :
    (calculate_king_can_castle piece cm).2.current_turn = cm.current_turn := by
  unfold calculate_king_can_castle
  split_ifs
  · rfl
  · exact foldl_preserve_proj (fun acc => acc.2.current_turn) castle_rook_step
      current_turn_castle_rook_step _ _

theorem current_turn_resolver_piece_step (acc : List ChessPiece × ChessMatch) (p : ChessPiece) :
    (resolver_piece_step acc p).2.current_turn = acc.2.current_turn := by
  obtain ⟨done, cm⟩ := acc
  unfold resolver_piece_step
  dsimp only
  cases (p.clear_all_moves).piece_type
  · rfl
  · rfl
  · rfl
  · rfl
  · rfl
  · dsimp only
    rcases hk : calculate_king_can_castle (calculate_king_moves p.clear_all_moves cm) cm
      with ⟨p2, cm2⟩
    have := current_turn_king_can_castle (calculate_king_moves p.clear_all_moves cm) cm
    rw [hk] at this
    simpa [hk] using this

theorem current_turn_resolver (m : ChessMatch) :
    (resolver_calculate_valid_moves m).current_turn = m.current_turn := by
  unfold resolver_calculate_valid_moves
  exact foldl_preserve_proj (fun acc => acc.2.current_turn) resolver_piece_step
    current_turn_resolver_piece_step _ _

theorem current_turn_override (m : ChessMatch) (color : PieceColor)
    (nm nc : List PieceValidMove) :
    (override_valid_moves m color nm nc).current_turn = m.current_turn := by
  unfold override_valid_moves
  dsimp only
  rw [foldl_preserve_proj (fun m => ChessMatch.current_turn m) override_install_capture
    (fun b c => current_turn_update_piece_by_id_getD b c.id _)]
  rw [foldl_preserve_proj (fun m => ChessMatch.current_turn m) override_install_move
    (fun b c => current_turn_update_piece_by_id_getD b c.id _)]

theorem current_turn_set_king_state (m : ChessMatch) (c : PieceColor) (s : KingState) :
    (m.set_king_state c s).current_turn = m.current_turn := by
  cases c <;> rfl

theorem current_turn_process_king (m : ChessMatch) (king : ChessPiece) :
    (process_king m king).current_turn = m.current_turn := by
  unfold process_king
  dsimp only
  cases (is_king_in_check_or_stale_mate king m).king_state
  · rw [current_turn_override, current_turn_set_king_state]
  · rw [current_turn_set_king_state]
  · rw [current_turn_set_king_state]
  · rw [current_turn_set_king_state]
  · rw [current_turn_set_king_state]

theorem current_turn_calc (m : ChessMatch) :
    (m.calculate_valid_moves).current_turn = m.current_turn := by
  unfold ChessMatch.calculate_valid_moves
  rw [foldl_preserve_proj (fun m => ChessMatch.current_turn m) process_king
    current_turn_process_king, current_turn_resolver]



theorem current_turn_update_piece_at_location {m m' : ChessMatch} {loc : PieceLocation}
    {f : ChessPiece → ChessPiece} (h : m.update_piece_at_location loc f = some m') :
    m'.current_turn = m.current_turn := by
  unfold ChessMatch.update_piece_at_location at h
  split at h
  · cases h; rfl
  · exact Option.noConfusion h

theorem current_turn_handle_capture {m m' : ChessMatch} {loc : PieceLocation}
    {e e' : MovementLogEntry} (h : handle_capture m loc e = some (m', e')) :
    m'.current_turn = m.current_turn := by
  unfold handle_capture at h
  split at h
  · exact Option.noConfusion h
  · split at h
    · exact Option.noConfusion h
    · rename_i heq
      cases h
      exact current_turn_update_piece_at_location heq

theorem castle_fold_none (target : PieceLocation) (records : List KingCastleData) :
    records.foldl (castle_record_step target) none = none := by
  induction records with
  | nil => rfl
  | cons kcd rest ih => simpa [castle_record_step] using ih

theorem current_turn_castle_fold (target : PieceLocation) :
    ∀ (records : List KingCastleData) (m0 : ChessMatch) (e0 : MovementLogEntry)
      (m' : ChessMatch) (e' : MovementLogEntry),
      records.foldl (castle_record_step target) (some (m0, e0)) = some (m', e') →
      m'.current_turn = m0.current_turn := by
  intro records
  induction records with
  | nil =>
    intro m0 e0 m' e' h
    simp only [List.foldl] at h
    cases h
    rfl
  | cons kcd rest ih =>
    intro m0 e0 m' e' h
    rw [List.foldl_cons] at h
    rcases hs : castle_record_step target (some (m0, e0)) kcd with _ | ⟨m1, e1⟩
    · rw [hs, castle_fold_none] at h
      exact Option.noConfusion h
    · rw [hs] at h
      have h1 := ih m1 e1 m' e' h
      have h0 : m1.current_turn = m0.current_turn := by
        unfold castle_record_step at hs
        dsimp only at hs
        split_ifs at hs with ht
        · split at hs
          · exact Option.noConfusion hs
          · rename_i heq
            cases hs
            exact current_turn_update_piece_by_id heq
        · cases hs
          rfl
      rw [h1, h0]

theorem current_turn_handle_king_castle {m m' : ChessMatch} {pid : Nat}
    {target : PieceLocation} {e e' : MovementLogEntry}
    (h : handle_king_castle m pid target e = some (m', e')) :
    m'.current_turn = m.current_turn := by
  unfold handle_king_castle at h
  split at h
  · exact Option.noConfusion h
  · exact current_turn_castle_fold target _ m e m' e' h

theorem current_turn_add_entry_to_match {m m' : ChessMatch} {e e' : MovementLogEntry}
    (h : add_entry_to_match m e = some (m', e')) : m'.current_turn = m.current_turn := by
  unfold add_entry_to_match at h
  split at h
  · exact Option.noConfusion h
  · dsimp only at h
    split_ifs at h <;> cases h <;> rfl

theorem current_turn_change_turn (m : ChessMatch) :
    (m.change_turn).current_turn = if m.current_turn = 0 then 1 else 0 := by
  unfold ChessMatch.change_turn
  split_ifs <;> rfl

theorem current_turn_move_piece {m m' : ChessMatch} {pid : Nat} {loc : PieceLocation}
    (h : m.move_piece pid loc = some m') :
    m'.current_turn = if m.current_turn = 0 then 1 else 0 := by
  unfold ChessMatch.move_piece at h
  split at h
  · exact Option.noConfusion h
  · dsimp only at h
    split at h
    · exact Option.noConfusion h
    · rename_i step1 m1 e1 hstep1
      split at h
      · exact Option.noConfusion h
      · rename_i m2 hstep2
        split at h
        · exact Option.noConfusion h
        · rename_i step3 m3 e3 hstep3
          split at h
          · exact Option.noConfusion h
          · rename_i m4 e4 hadd
            cases h
            have t4 := current_turn_add_entry_to_match hadd
            have t3 : m3.current_turn = m2.current_turn := by
              split at hstep3
              · exact current_turn_handle_king_castle hstep3
              · cases hstep3; rfl
            have t2 : m2.current_turn = m1.current_turn := by
              split at hstep2
              · exact current_turn_update_piece_by_id hstep2
              · cases hstep2; rfl
            have t1 : m1.current_turn = m.current_turn := by
              split at hstep1
              · exact current_turn_handle_capture hstep1
              · cases hstep1; rfl
            rw [t4, current_turn_calc, current_turn_change_turn, t3, t2, t1]



theorem applyMoves_turn_parity :
    ∀ (reqs : List (Nat × PieceLocation)) (m m' : ChessMatch),
      m.current_turn ≤ 1 → applyMoves m reqs = some m' →
      (m'.current_turn = 0 ↔ (m.current_turn + reqs.length) % 2 = 0) := by
  intro reqs
  induction reqs with
  | nil =>
    intro m m' hle h
    simp only [applyMoves] at h
    cases h
    simpa using by omega
  | cons r rest ih =>
    intro m m' hle h
    simp only [applyMoves] at h
    rcases hm : m.move_piece r.1 r.2 with _ | m1
    · rw [hm] at h
      exact Option.noConfusion h
    · rw [hm] at h
      have hflip := current_turn_move_piece hm
      have hle1 : m1.current_turn ≤ 1 := by
        rw [hflip]
        split_ifs <;> omega
      have hp := ih m1 m' hle1 h
      rw [hp, hflip, List.length_cons]
      by_cases h0 : m.current_turn = 0
      · rw [if_pos h0, h0]
        omega
      · rw [if_neg h0]
        have h1 : m.current_turn = 1 := by omega
        rw [h1]
        omega

/-- C7: starting from a new match, after any sequence of applied moves that
completes without a panic, the reported color is White iff the number of
applied moves is even (every `move_piece` call flips the 0/1 turn cell
exactly once and nothing else ever writes it). -/
theorem c7_turn_alternates_with_applied_moves (w b : Nat) (reqs : List (Nat × PieceLocation)) (m' : ChessMatch)
    (h : applyMoves ((ChessMatch.new w b).calculate_valid_moves) reqs = some m') :
    ((m'.get_current_turn_and_color).2 = PieceColor.White ↔ reqs.length % 2 = 0) := by
  have h0 : ((ChessMatch.new w b).calculate_valid_moves).current_turn = 0 := by
    rw [current_turn_calc]
    rfl
  have hp := applyMoves_turn_parity reqs _ m' (by rw [h0]; omega) h
  rw [h0] at hp
  have hc : (m'.get_current_turn_and_color).2 = PieceColor.White ↔ m'.current_turn = 0 := by
    unfold ChessMatch.get_current_turn_and_color
    dsimp only
    split_ifs with ht
    · simp [ht]
    · constructor
      · intro hcontra
        exact hcontra.elim
      · intro hcontra
        exact absurd hcontra ht
  rw [hc, hp]
  omega

/-- C7, witness: the empty sequence from a fresh match — zero moves is even
and the initial turn is White's. -/
theorem c7_turn_alternates_witness :
    ((((ChessMatch.new 100 200).calculate_valid_moves).get_current_turn_and_color).2
        = PieceColor.White)
      ↔ ([] : List (Nat × PieceLocation)).length % 2 = 0 :=
  c7_turn_alternates_with_applied_moves 100 200 [] _ rfl



theorem king_state_of_set_same (m : ChessMatch) (c : PieceColor) (s : KingState) :
    (m.set_king_state c s).king_state_of c = s := by
  cases c <;> rfl

theorem king_state_of_update_getD (m : ChessMatch) (i : Nat) (f : ChessPiece → ChessPiece)
    (c : PieceColor) : ((m.update_piece_by_id i f).getD m).king_state_of c = m.king_state_of c := by
  rcases h : m.update_piece_by_id i f with _ | m'
  · rfl
  · unfold ChessMatch.update_piece_by_id at h
    split at h
    · cases h
      cases c <;> rfl
    · exact Option.noConfusion h

theorem king_state_of_override (m : ChessMatch) (color c : PieceColor)
    (nm nc : List PieceValidMove) :
    (override_valid_moves m color nm nc).king_state_of c = m.king_state_of c := by
  unfold override_valid_moves
  dsimp only
  rw [foldl_preserve_proj (fun m => ChessMatch.king_state_of m c) override_install_capture
    (fun b v => king_state_of_update_getD b v.id _ c)]
  rw [foldl_preserve_proj (fun m => ChessMatch.king_state_of m c) override_install_move
    (fun b v => king_state_of_update_getD b v.id _ c)]
  cases c <;> rfl

theorem process_king_stores_state (m : ChessMatch) (king : ChessPiece) :
    (process_king m king).king_state_of king.color =
      (is_king_in_check_or_stale_mate king m).king_state := by
  unfold process_king
  dsimp only
  cases h : (is_king_in_check_or_stale_mate king m).king_state
  · rw [king_state_of_override, king_state_of_set_same]
  · rw [king_state_of_set_same]
  · rw [king_state_of_set_same]
  · rw [king_state_of_set_same]
  · rw [king_state_of_set_same]

theorem any_foldl_append {α β : Type _} (g : α → List β) (q : β → Bool) :
    ∀ (l : List α) (acc : List β),
      ((l.foldl (fun acc p => acc ++ g p) acc).any q)
        = (acc.any q || l.any (fun p => (g p).any q)) := by
  intro l
  induction l with
  | nil => intro acc; simp
  | cons p l ih =>
    intro acc
    rw [List.foldl_cons, ih, List.any_append, List.any_cons, Bool.or_assoc]

theorem any_const_isEmpty {α : Type _} (c : Bool) :
    ∀ l : List α, (l.any (fun _ => c)) = (c && !l.isEmpty) := by
  intro l
  induction l with
  | nil => simp
  | cons a l ih => cases c <;> simp [ih]

theorem any_eq_filter_any {α : Type _} (q r : α → Bool) :
    ∀ l : List α, (l.any (fun a => q a && r a)) = ((l.filter q).any r) := by
  intro l
  induction l with
  | nil => simp
  | cons a l ih =>
    by_cases hq : q a = true
    · rw [List.any_cons, List.filter_cons_of_pos hq, List.any_cons, ih, hq, Bool.true_and]
    · rw [List.any_cons, List.filter_cons_of_neg hq, ih,
        Bool.eq_false_iff.mpr hq, Bool.false_and, Bool.false_or]



theorem any_map_general {α β : Type _} (f : α → β) (q : β → Bool) :
    ∀ l : List α, ((l.map f).any q) = l.any (fun a => q (f a)) := by
  intro l
  induction l with
  | nil => rfl
  | cons a l ih => rw [List.map_cons, List.any_cons, List.any_cons, ih]

theorem model_moves_any_king (m : ChessMatch) (king : ChessPiece)
    (h1 : (m.get_player_pieces_in_play king.color).filter (fun p => p.id = king.id) = [king]) :
    (((m.get_player_pieces_in_play king.color).foldl
        (fun acc p => acc ++
          ((p.valid_moves.filter (fun mv => escapes_check_move m p mv king.color)).map
            (fun mv => PieceValidMove.mk p.id mv p.piece_type)))
        []).any (fun v => v.id = king.id))
      = !(king_escaping_moves king m).isEmpty := by
  rw [any_foldl_append]
  rw [List.any_nil, Bool.false_or]
  have hinner : ∀ p : ChessPiece,
      (((p.valid_moves.filter (fun mv => escapes_check_move m p mv king.color)).map
        (fun mv => PieceValidMove.mk p.id mv p.piece_type)).any (fun v => v.id = king.id))
      = (decide (p.id = king.id)
          && !((p.valid_moves.filter (fun mv => escapes_check_move m p mv king.color)).isEmpty)) := by
    intro p
    rw [any_map_general]
    show ((p.valid_moves.filter (fun mv => escapes_check_move m p mv king.color)).any
      (fun _ => decide (p.id = king.id))) = _
    exact any_const_isEmpty _ _
  simp only [hinner]
  rw [any_eq_filter_any]
  rw [h1]
  rw [List.any_cons, List.any_nil, Bool.or_false]
  rfl

theorem model_captures_any_king (m : ChessMatch) (king : ChessPiece)
    (h1 : (m.get_player_pieces_in_play king.color).filter (fun p => p.id = king.id) = [king]) :
    (((m.get_player_pieces_in_play king.color).foldl
        (fun acc p => acc ++
          ((p.valid_captures.filter (fun c => escapes_check_capture m p c king.color)).map
            (fun c => PieceValidMove.mk p.id c p.piece_type)))
        []).any (fun v => v.id = king.id))
      = !(king_escaping_captures king m).isEmpty := by
  rw [any_foldl_append]
  rw [List.any_nil, Bool.false_or]
  have hinner : ∀ p : ChessPiece,
      (((p.valid_captures.filter (fun c => escapes_check_capture m p c king.color)).map
        (fun c => PieceValidMove.mk p.id c p.piece_type)).any (fun v => v.id = king.id))
      = (decide (p.id = king.id)
          && !((p.valid_captures.filter (fun c => escapes_check_capture m p c king.color)).isEmpty)) := by
    intro p
    rw [any_map_general]
    show ((p.valid_captures.filter (fun c => escapes_check_capture m p c king.color)).any
      (fun _ => decide (p.id = king.id))) = _
    exact any_const_isEmpty _ _
  simp only [hinner]
  rw [any_eq_filter_any]
  rw [h1]
  rw [List.any_cons, List.any_nil, Bool.or_false]
  rfl

theorem model_state_classification (m : ChessMatch) (king : ChessPiece)
    (h1 : (m.get_player_pieces_in_play king.color).filter (fun p => p.id = king.id) = [king]) :
    (is_king_in_check_or_stale_mate king m).king_state =
      (if king_attacked_raw m king then
        (if (king_escaping_moves king m).isEmpty ∧ (king_escaping_captures king m).isEmpty
          then KingState.InCheckMate else KingState.InCheck)
      else
        (if king.valid_moves.isEmpty ∧ king.valid_captures.isEmpty
          then KingState.InStaleMate
          else if m.king_state_of king.color = KingState.InCheck
            then KingState.NotInCheckMate else KingState.NotInCheck)) := by
  unfold is_king_in_check_or_stale_mate
  dsimp only
  by_cases ha : king_attacked_raw m king = true
  · rw [if_pos ha, if_pos ha]
    rw [apply_ite CheckState.king_state]
    dsimp only
    rw [model_moves_any_king m king h1, model_captures_any_king m king h1]
    rcases hM : (king_escaping_moves king m).isEmpty
      <;> rcases hC : (king_escaping_captures king m).isEmpty
      <;> simp [hM, hC]
  · rw [if_neg ha, if_neg ha]
    split_ifs <;> rfl



/-- C6: a resolution cycle is the resolver pass followed by the per-king
classification loop, and for every match and king (with the king occurring
once in its color's in-play list), the state stored for the king's color is
`InCheckMate`/`InStaleMate` by attack status when the king has no legal
move or capture (its simulated escapes when attacked, its cached sets
otherwise), `InCheck` exactly when it is attacked, and otherwise
`NotInCheckMate` when leaving a prior check and `NotInCheck` else.
Spec-modelled: `is_king_in_check_or_stale_mate` / `override_valid_moves`
are absent from the sources. -/
theorem c6_king_status_classification :
    (∀ m : ChessMatch, m.calculate_valid_moves =
      (resolver_calculate_valid_moves m).get_kings.foldl process_king
        (resolver_calculate_valid_moves m))
    ∧ ∀ (m : ChessMatch) (king : ChessPiece),
        (m.get_player_pieces_in_play king.color).filter (fun p => p.id = king.id) = [king] →
        (process_king m king).king_state_of king.color =
          (if king_attacked_raw m king then
            (if (king_escaping_moves king m).isEmpty ∧ (king_escaping_captures king m).isEmpty
              then KingState.InCheckMate else KingState.InCheck)
          else
            (if king.valid_moves.isEmpty ∧ king.valid_captures.isEmpty
              then KingState.InStaleMate
              else if m.king_state_of king.color = KingState.InCheck
                then KingState.NotInCheckMate else KingState.NotInCheck)) := by
  refine ⟨fun m => rfl, fun m king h1 => ?_⟩
  rw [process_king_stores_state, model_state_classification m king h1]

set_option maxHeartbeats 2000000 in
/-- C6, witness: the classification applied to the White king of the
freshly generated position after the raw resolver pass (no legal king
moves, not attacked — `InStaleMate` by the spec wording). -/
theorem c6_king_status_classification_witness :
    (process_king (resolver_calculate_valid_moves (ChessMatch.new 100 200))
        initialWhiteKing).king_state_of PieceColor.White = KingState.InStaleMate := by
  have h := c6_king_status_classification.2 (resolver_calculate_valid_moves (ChessMatch.new 100 200))
    initialWhiteKing (by rfl)
  show (process_king (resolver_calculate_valid_moves (ChessMatch.new 100 200))
    initialWhiteKing).king_state_of initialWhiteKing.color = KingState.InStaleMate
  rw [h]
  rfl

end ChessEngine
